import Mathlib

/-!
AjaMedia player: frame ingest, buffering and drop accounting.

A shallow embedding of `FAjaMediaPlayer` (Source/AjaMedia/Private/Player/AjaMediaPlayer.cpp
and AjaMediaPlayer.h).  The player object is a record; every member function becomes a
function from the record (and the call's arguments) to the new record.  Calls that leave the
player (event sink, log, base class) are recorded in the record, in call order.

Integers.  `int32` members are embedded as `Int`; signed overflow is undefined in the source
language, so the embedding describes the executions in which no signed operation overflows.
`uint32` members are embedded as `Nat` with explicit reduction modulo `2 ^ 32`; conversions
between widths are explicit (`toInt32`, `toUInt32`).

Payload bytes, pixel contents and the floating point frame-rate computations are not
represented: where the source computes a value through them, the value is an input.
-/

namespace AjaMedia

/-! ## Machine integers -/

/-- Conversion of an integer to `int32` (two's complement narrowing). -/
def toInt32 (x : Int) : Int := (x + 2147483648) % 4294967296 - 2147483648

/-- Conversion of an integer to `uint32`. -/
def toUInt32 (x : Int) : Nat := (x % 4294967296).toNat

/-! ## Framework types used by the player -/

/-- Modelled from the spec: the `EMediaState` enumeration is declared by the media framework,
not by the sources; these are the player states the spec names. -/
inductive EMediaState where
  | Closed
  | Preparing
  | Playing
  | Error
  deriving DecidableEq, Repr

/-- Modelled from the spec: the `EMediaEvent` notifications the player sends to its event
sink (connecting, tracks-changed, opened, playback-resumed, open-failed). -/
inductive EMediaEvent where
  | MediaConnecting
  | TracksChanged
  | MediaOpened
  | PlaybackResumed
  | MediaOpenFailed
  deriving DecidableEq, Repr

/-- Modelled from the spec: a structured timecode, hours, minutes, seconds and frame number
(`FTimecode`, `int32` fields). -/
structure FTimecode where
  Hours : Int
  Minutes : Int
  Seconds : Int
  Frames : Int
  deriving DecidableEq, Repr

/-- The timecode as the capture library delivers it (`AJA::FTimecode`, unsigned fields). -/
structure AJATimecode where
  Hours : Nat
  Minutes : Nat
  Seconds : Nat
  Frames : Nat
  deriving DecidableEq, Repr

/-- Which initializer shaped a sample: none yet, a full picture (`UpdateProperties`,
`InitializeProgressive`, and the binary and audio initializers), or one field of an
interlaced picture (`InitializeInterlaced_Halfed` with `bEven` true or false). -/
inductive ESampleLayout where
  | Unset
  | Full
  | EvenField
  | OddField
  deriving DecidableEq, Repr

/-- Modelled from the spec: one sample object (§3 Sample).  `Handle` numbers the pool
acquisition that produced the object, `Time` is the presentation timestamp in ticks,
`Timecode` the optional timecode; `Channels` and `SampleRate` are the audio attributes.
A queue entry records the properties the object carried when it was published. -/
structure Sample where
  Handle : Nat
  Time : Int
  Timecode : Option FTimecode
  Layout : ESampleLayout
  Channels : Int
  SampleRate : Int
  deriving DecidableEq, Repr

/-- Modelled from the spec: a sample pool (§4.1).  `Created` counts the acquisitions served
so far, `Tracked` lists the acquisitions the pool still keeps bookkeeping for. -/
structure SamplePool where
  Created : Nat
  Tracked : List Nat
  deriving DecidableEq, Repr

/-- Modelled from the spec: `acquire()` returns a ready-to-fill, exclusively owned sample and
never fails. -/
def SamplePool.AcquireShared (Pool : SamplePool) : Sample × SamplePool :=
  ({ Handle := Pool.Created, Time := 0, Timecode := none, Layout := ESampleLayout.Unset,
     Channels := 0, SampleRate := 0 },
   { Created := Pool.Created + 1, Tracked := Pool.Created :: Pool.Tracked })

/-- Modelled from the spec: `reset()` releases the references the pool itself holds and
leaves samples held elsewhere alone. -/
def SamplePool.Reset (Pool : SamplePool) : SamplePool :=
  { Pool with Tracked := [] }

/-- Modelled from the spec: the sample queue (§3 Sample Queue, `FMediaIOCoreSamples`), three
independent FIFO sequences; the head of each list is the oldest entry. -/
structure FMediaIOCoreSamples where
  Metadata : List Sample
  Audio : List Sample
  Video : List Sample
  deriving DecidableEq, Repr

namespace FMediaIOCoreSamples

/-- Depth of the metadata queue, as the `int32` the source reads. -/
def NumMetadataSamples (S : FMediaIOCoreSamples) : Int := S.Metadata.length

/-- Depth of the audio queue. -/
def NumAudioSamples (S : FMediaIOCoreSamples) : Int := S.Audio.length

/-- Depth of the video queue. -/
def NumVideoSamples (S : FMediaIOCoreSamples) : Int := S.Video.length

/-- Publish a metadata sample at the newest end. -/
def AddMetadata (S : FMediaIOCoreSamples) (x : Sample) : FMediaIOCoreSamples :=
  { S with Metadata := S.Metadata ++ [x] }

/-- Publish an audio sample at the newest end. -/
def AddAudio (S : FMediaIOCoreSamples) (x : Sample) : FMediaIOCoreSamples :=
  { S with Audio := S.Audio ++ [x] }

/-- Publish a video sample at the newest end. -/
def AddVideo (S : FMediaIOCoreSamples) (x : Sample) : FMediaIOCoreSamples :=
  { S with Video := S.Video ++ [x] }

/-- Discard the oldest metadata sample; nothing happens on an empty queue. -/
def PopMetadata (S : FMediaIOCoreSamples) : FMediaIOCoreSamples :=
  { S with Metadata := S.Metadata.tail }

/-- Discard the oldest audio sample; nothing happens on an empty queue. -/
def PopAudio (S : FMediaIOCoreSamples) : FMediaIOCoreSamples :=
  { S with Audio := S.Audio.tail }

/-- Discard the oldest video sample; nothing happens on an empty queue. -/
def PopVideo (S : FMediaIOCoreSamples) : FMediaIOCoreSamples :=
  { S with Video := S.Video.tail }

end FMediaIOCoreSamples

/-- The loop `for (int32 i = 0; i < Count; ++i) Body();` on a state: `Body` runs once for
every `i` below `Count`, not at all when `Count` is zero or negative. -/
def ForLoop {σ : Type} (Count : Int) (Body : σ → σ) (s : σ) : σ :=
  Nat.iterate Body Count.toNat s

/-- A raw buffer address: the payload buffer of a pooled sample (named by the pool and the
sample's handle) or a buffer owned by the capture driver. -/
inductive Buffer where
  | Metadata (Handle : Nat)
  | Audio (Handle : Nat)
  | Texture (Handle : Nat)
  | Driver (Id : Nat)
  deriving DecidableEq, Repr

/-- The sizes the driver asks for (`AJA::AJARequestInputBufferData`). -/
structure AJARequestInputBufferData where
  bIsProgressivePicture : Bool
  AncBufferSize : Nat
  AncF2BufferSize : Nat
  AudioBufferSize : Nat
  VideoBufferSize : Nat
  deriving DecidableEq, Repr

/-- The buffers handed back to the driver (`AJA::AJARequestedInputBufferData`); `none` is the
null pointer. -/
structure AJARequestedInputBufferData where
  AncBuffer : Option Buffer
  AncF2Buffer : Option Buffer
  AudioBuffer : Option Buffer
  VideoBuffer : Option Buffer
  deriving DecidableEq, Repr

/-- Frame header delivered with every hardware frame (`AJA::AJAInputFrameData`). -/
structure AJAInputFrameData where
  FramesDropped : Int
  Timecode : AJATimecode
  deriving DecidableEq, Repr

/-- Ancillary part of a hardware frame (`AJA::AJAAncillaryFrameData`); the buffer sizes only
reach the sample finalizers. -/
structure AJAAncillaryFrameData where
  AncBuffer : Option Buffer
  AncF2Buffer : Option Buffer
  deriving DecidableEq, Repr

/-- Audio part of a hardware frame (`AJA::AJAAudioFrameData`); the buffer size only reaches
the sample finalizers. -/
structure AJAAudioFrameData where
  AudioBuffer : Option Buffer
  NumChannels : Int
  AudioRate : Int
  deriving DecidableEq, Repr

/-- Video part of a hardware frame (`AJA::AJAVideoFrameData`); stride, size and pixel format
only reach the sample finalizers. -/
structure AJAVideoFrameData where
  VideoBuffer : Option Buffer
  bIsProgressivePicture : Bool
  deriving DecidableEq, Repr

/-- Results of the calls `OnInputFrameReceived` makes outside the player while it handles one
frame: the wall clock (`FTimespan::FromSeconds(FPlatformTime::Seconds())`, in ticks), the
timecode conversion (`FAja::ConvertAJATimecode2Timecode`) and its timespan (`ToTimespan`), and
whether each sample finalizer (`SetProperties`, `UpdateProperties`, `Initialize`,
`InitializeProgressive`, `InitializeInterlaced_Halfed`) accepted the frame's data. -/
structure FrameEnvironment where
  Now : Int
  ConvertedTimecode : FTimecode
  ConvertedTimespan : Int
  bAncFinalized : Bool
  bAncF2Finalized : Bool
  bAudioFinalized : Bool
  bVideoFinalized : Bool
  bVideoOddFinalized : Bool
  deriving DecidableEq, Repr

/-- What the player writes to the log (each `UE_LOG` of the source, with its number). -/
inductive LogLine where
  | CannotUseCard
  | PortNotOpened
  | LoosingFrames (Count : Nat)
  | LostFrames (Count : Nat)
  | LostMetadataFrames (Count : Int)
  | LostAudioFrames (Count : Int)
  | LostVideoFrames (Count : Int)
  | InvalidTimecodeFrame (Frames : Nat)
  | TimecodeReceived (Timecode : AJATimecode)
  deriving DecidableEq, Repr

/-- The three per-kind lines "Lost n metadata / audio / video frames". -/
def LogLine.IsKindLoss : LogLine → Bool
  | LogLine.LostMetadataFrames _ => true
  | LogLine.LostAudioFrames _ => true
  | LogLine.LostVideoFrames _ => true
  | _ => false

/-- Format block of the base class that the player fills in (`AudioTrackFormat`). -/
structure FMediaAudioTrackFormat where
  BitsPerSample : Int
  NumChannels : Int
  SampleRate : Int
  deriving DecidableEq, Repr

/-- The hardware channel object behind `InputChannel`. -/
structure AJAInputChannel where
  bInitialized : Bool
  deriving DecidableEq, Repr

/-! ## The player object -/

/-- The members of `FAjaMediaPlayer` (AjaMediaPlayer.h) together with the members of its base
class that the source file reads or writes (`CurrentState`, `Samples`, `AudioTrackFormat`,
`bUseTimeSynchronization`, `bIsTimecodeLogEnable`, the frame rate values) and the records of
what left the player (`Events`, `Log`, the base-class calls). -/
structure FAjaMediaPlayer where
  CurrentState : EMediaState
  Samples : FMediaIOCoreSamples
  AudioTrackFormat : FMediaAudioTrackFormat
  bUseTimeSynchronization : Bool
  bIsTimecodeLogEnable : Bool
  -- the value of `FTimespan::FromSeconds(VideoFrameRate.AsInterval())`, in ticks
  VideoFrameInterval : Int
  -- the value of `FMath::RoundToInt(VideoFrameRate.AsDecimal())`
  VideoFrameRateRounded : Int
  -- what `EventSink.ReceiveMediaEvent` received, oldest first
  Events : List EMediaEvent
  -- what `UE_LOG` wrote, oldest first
  Log : List LogLine
  -- how often `Super::Close()` and `TickTimeManagement()` were called
  SuperCloseCalls : Nat
  TickTimeManagementCalls : Nat
  -- the global of the `Aja.WriteOutputRawData` console command, and the dumps it caused
  bAjaWriteOutputRawDataCmdEnable : Bool
  RawFilesWritten : Nat
  AudioSamplePool : SamplePool
  MetadataSamplePool : SamplePool
  TextureSamplePool : SamplePool
  AjaThreadCurrentAncSample : Option Sample
  AjaThreadCurrentAncF2Sample : Option Sample
  AjaThreadCurrentAudioSample : Option Sample
  AjaThreadCurrentTextureSample : Option Sample
  MaxNumAudioFrameBuffer : Int
  MaxNumMetadataFrameBuffer : Int
  MaxNumVideoFrameBuffer : Int
  AjaThreadNewState : EMediaState
  AjaThreadAudioChannels : Int
  AjaThreadAudioSampleRate : Int
  AjaThreadFrameDropCount : Int
  AjaThreadAutoCirculateAudioFrameDropCount : Int
  AjaThreadAutoCirculateMetadataFrameDropCount : Int
  AjaThreadAutoCirculateVideoFrameDropCount : Int
  LastFrameDropCount : Nat
  PreviousFrameDropCount : Nat
  bEncodeTimecodeInTexel : Bool
  bUseFrameTimecode : Bool
  bIsSRGBInput : Bool
  bUseAncillary : Bool
  bUseAudio : Bool
  bUseVideo : Bool
  bVerifyFrameDropCount : Bool
  InputChannel : Option AJAInputChannel
  AjaThreadPreviousFrameTimecode : AJATimecode
  deriving DecidableEq, Repr

/-- `AjaMediaPlayerConst::ToleratedExtraMaxBufferCount`. -/
def ToleratedExtraMaxBufferCount : Int := 2

/-- `NumMaxFrameBeforeWarning` of `VerifyFrameDropCount`. -/
def NumMaxFrameBeforeWarning : Nat := 50

/-- The player as its constructor leaves it, for a given frame rate. -/
def FAjaMediaPlayer.Constructed (Interval Rounded : Int) : FAjaMediaPlayer :=
  { CurrentState := EMediaState.Closed
    Samples := { Metadata := [], Audio := [], Video := [] }
    AudioTrackFormat := { BitsPerSample := 0, NumChannels := 0, SampleRate := 0 }
    bUseTimeSynchronization := false
    bIsTimecodeLogEnable := false
    VideoFrameInterval := Interval
    VideoFrameRateRounded := Rounded
    Events := []
    Log := []
    SuperCloseCalls := 0
    TickTimeManagementCalls := 0
    bAjaWriteOutputRawDataCmdEnable := false
    RawFilesWritten := 0
    AudioSamplePool := { Created := 0, Tracked := [] }
    MetadataSamplePool := { Created := 0, Tracked := [] }
    TextureSamplePool := { Created := 0, Tracked := [] }
    AjaThreadCurrentAncSample := none
    AjaThreadCurrentAncF2Sample := none
    AjaThreadCurrentAudioSample := none
    AjaThreadCurrentTextureSample := none
    MaxNumAudioFrameBuffer := 8
    MaxNumMetadataFrameBuffer := 8
    MaxNumVideoFrameBuffer := 8
    AjaThreadNewState := EMediaState.Closed
    AjaThreadAudioChannels := 0
    AjaThreadAudioSampleRate := 0
    AjaThreadFrameDropCount := 0
    AjaThreadAutoCirculateAudioFrameDropCount := 0
    AjaThreadAutoCirculateMetadataFrameDropCount := 0
    AjaThreadAutoCirculateVideoFrameDropCount := 0
    LastFrameDropCount := 0
    PreviousFrameDropCount := 0
    bEncodeTimecodeInTexel := false
    bUseFrameTimecode := false
    bIsSRGBInput := false
    bUseAncillary := false
    bUseAudio := false
    bUseVideo := false
    bVerifyFrameDropCount := true
    InputChannel := none
    AjaThreadPreviousFrameTimecode := { Hours := 0, Minutes := 0, Seconds := 0, Frames := 0 } }

/-! ## Open, Close and the consumer ticks -/

/-- `EMediaIOTimecodeFormat`, the timecode option. -/
inductive EMediaIOTimecodeFormat where
  | None
  | LTC
  | VITC
  deriving DecidableEq, Repr

/-- The values `Open` reads through `Options->GetMediaOption` and keeps in the player (the
option's default already applied).  The options that only travel to the hardware channel
(device, port, transport, pixel format, audio channel count, auto-circulate) are part of
`OpenEnvironment.bChannelInitialized`, the answer of the channel they configure. -/
structure MediaOptions where
  TimecodeFormat : EMediaIOTimecodeFormat
  EncodeTimecodeInTexel : Bool
  SRGBInput : Bool
  CaptureAncillary : Bool
  CaptureAudio : Bool
  CaptureVideo : Bool
  LogDropFrame : Bool
  MaxAudioFrameBuffer : Int
  MaxAncillaryFrameBuffer : Int
  MaxVideoFrameBuffer : Int
  deriving DecidableEq, Repr

/-- Answers of the three calls `Open` makes outside the player: `FAja::CanUseAJACard()`,
`Super::Open(Url, Options)` and `InputChannel->Initialize(DeviceOptions, AjaOptions)`. -/
structure OpenEnvironment where
  bCanUseAJACard : Bool
  bSuperOpened : Bool
  bChannelInitialized : Bool
  deriving DecidableEq, Repr

/-- `EventSink.ReceiveMediaEvent`. -/
def FAjaMediaPlayer.ReceiveMediaEvent (p : FAjaMediaPlayer) (e : EMediaEvent) : FAjaMediaPlayer :=
  { p with Events := p.Events ++ [e] }

/-- `UE_LOG(LogAjaMedia, ...)`. -/
def FAjaMediaPlayer.WriteLog (p : FAjaMediaPlayer) (l : LogLine) : FAjaMediaPlayer :=
  { p with Log := p.Log ++ [l] }

/-- `FAjaMediaPlayer::Open`.  The result is `none` when `check(InputChannel == nullptr)`
stops the program, otherwise the returned flag and the player. -/
def Open (p : FAjaMediaPlayer) (Env : OpenEnvironment) (Options : MediaOptions) :
    Option (Bool × FAjaMediaPlayer) :=
  if !Env.bCanUseAJACard then
    some (false, p.WriteLog LogLine.CannotUseCard)
  else if !Env.bSuperOpened then
    some (false, p)
  else
    let p1 := { p with
      bUseFrameTimecode := decide (Options.TimecodeFormat ≠ EMediaIOTimecodeFormat.None)
      bEncodeTimecodeInTexel := Options.EncodeTimecodeInTexel
      bIsSRGBInput := Options.SRGBInput
      bUseAncillary := Options.CaptureAncillary
      bUseAudio := Options.CaptureAudio
      bUseVideo := Options.CaptureVideo
      bVerifyFrameDropCount := Options.LogDropFrame
      MaxNumAudioFrameBuffer := toInt32 Options.MaxAudioFrameBuffer
      MaxNumMetadataFrameBuffer := toInt32 Options.MaxAncillaryFrameBuffer
      MaxNumVideoFrameBuffer := toInt32 Options.MaxVideoFrameBuffer }
    if p1.InputChannel ≠ none then
      none
    else
      let p2 := { p1 with InputChannel := some { bInitialized := Env.bChannelInitialized } }
      let p3 :=
        if !Env.bChannelInitialized then
          { (p2.WriteLog LogLine.PortNotOpened) with
            CurrentState := EMediaState.Error
            AjaThreadNewState := EMediaState.Error
            InputChannel := none }
        else p2
      let p4 := { p3 with
        AudioTrackFormat := { BitsPerSample := 32, NumChannels := 0, SampleRate := 48000 } }
      let p5 := { p4 with
        CurrentState := EMediaState.Preparing
        AjaThreadNewState := EMediaState.Preparing }
      some (true, p5.ReceiveMediaEvent EMediaEvent.MediaConnecting)

/-- Modelled from the spec: `Super::Close()`, the base-class close, is outside the sources;
by §4.4 and §8 it notifies the surrounding framework and leaves the state `Closed`. -/
def SuperClose (p : FAjaMediaPlayer) : FAjaMediaPlayer :=
  { p with CurrentState := EMediaState.Closed, SuperCloseCalls := p.SuperCloseCalls + 1 }

/-- `FAjaMediaPlayer::Close`. -/
def Close (p : FAjaMediaPlayer) : FAjaMediaPlayer :=
  let p1 := { p with AjaThreadNewState := EMediaState.Closed }
  let p2 := if p1.InputChannel ≠ none then { p1 with InputChannel := none } else p1
  let p3 := { p2 with
    AudioSamplePool := p2.AudioSamplePool.Reset
    MetadataSamplePool := p2.MetadataSamplePool.Reset
    TextureSamplePool := p2.TextureSamplePool.Reset }
  let p4 := { p3 with
    AjaThreadCurrentAncSample := none
    AjaThreadCurrentAncF2Sample := none
    AjaThreadCurrentAudioSample := none
    AjaThreadCurrentTextureSample := none }
  SuperClose p4

/-- Modelled from the spec: `TickTimeManagement()` of the base class is outside the sources;
the call is recorded. -/
def TickTimeManagement (p : FAjaMediaPlayer) : FAjaMediaPlayer :=
  { p with TickTimeManagementCalls := p.TickTimeManagementCalls + 1 }

/-- `FAjaMediaPlayer::TickInput`. -/
def TickInput (p : FAjaMediaPlayer) : FAjaMediaPlayer :=
  let NewState := p.AjaThreadNewState
  let p1 :=
    if NewState ≠ p.CurrentState then
      let q := { p with CurrentState := NewState }
      if q.CurrentState = EMediaState.Playing then
        ((q.ReceiveMediaEvent EMediaEvent.TracksChanged).ReceiveMediaEvent
          EMediaEvent.MediaOpened).ReceiveMediaEvent EMediaEvent.PlaybackResumed
      else if NewState = EMediaState.Error then
        Close (q.ReceiveMediaEvent EMediaEvent.MediaOpenFailed)
      else q
    else p
  if p1.CurrentState ≠ EMediaState.Playing then
    p1
  else
    TickTimeManagement p1

/-- `FAjaMediaPlayer::ProcessFrame`. -/
def ProcessFrame (p : FAjaMediaPlayer) : FAjaMediaPlayer :=
  if p.CurrentState = EMediaState.Playing then
    { p with AudioTrackFormat := { p.AudioTrackFormat with
        NumChannels := p.AjaThreadAudioChannels
        SampleRate := p.AjaThreadAudioSampleRate } }
  else p

/-! ## Overflow and drop-count reconciliation -/

/-- First part of `VerifyFrameDropCount`: the overflow count of each kind and the queue after
the three trimming loops (metadata, then audio, then video).  The difference `Num - Max` is
taken on the integers; for a depth below `2^31` it is the `int32` difference of the source
for every capacity above `Num - 2^31`. -/
def VerifyFrameDropCount.Trim (p : FAjaMediaPlayer) : Int × Int × Int × FMediaIOCoreSamples :=
  let MetaDataOverflowCount : Int :=
    max (p.Samples.NumMetadataSamples - p.MaxNumMetadataFrameBuffer) 0
  let S1 := ForLoop MetaDataOverflowCount FMediaIOCoreSamples.PopMetadata p.Samples
  let AudioOverflowCount : Int := max (S1.NumAudioSamples - p.MaxNumAudioFrameBuffer) 0
  let S2 := ForLoop AudioOverflowCount FMediaIOCoreSamples.PopAudio S1
  let VideoOverflowCount : Int := max (S2.NumVideoSamples - p.MaxNumVideoFrameBuffer) 0
  let S3 := ForLoop VideoOverflowCount FMediaIOCoreSamples.PopVideo S2
  (MetaDataOverflowCount, AudioOverflowCount, VideoOverflowCount, S3)

/-- The hardware drop-count block of `VerifyFrameDropCount` (`FrameDropCount` against
`LastFrameDropCount`, the running `PreviousFrameDropCount`). -/
def VerifyFrameDropCount.HardwareCount (p : FAjaMediaPlayer) : FAjaMediaPlayer :=
  let FrameDropCount : Nat := toUInt32 p.AjaThreadFrameDropCount
  let p1 :=
    if FrameDropCount > p.LastFrameDropCount then
      let q := { p with PreviousFrameDropCount :=
        (p.PreviousFrameDropCount + (FrameDropCount - p.LastFrameDropCount)) % 4294967296 }
      if q.PreviousFrameDropCount % NumMaxFrameBeforeWarning = 0 then
        q.WriteLog (LogLine.LoosingFrames q.PreviousFrameDropCount)
      else q
    else if p.PreviousFrameDropCount > 0 then
      { (p.WriteLog (LogLine.LostFrames p.PreviousFrameDropCount)) with
        PreviousFrameDropCount := 0 }
    else p
  { p1 with LastFrameDropCount := FrameDropCount }

/-- The per-kind block of `VerifyFrameDropCount`: each local counter is exchanged with zero
and added to the kind's overflow count, and a line is logged when the sum is positive. -/
def VerifyFrameDropCount.KindCounts (MetaDataOverflowCount AudioOverflowCount
    VideoOverflowCount : Int) (p : FAjaMediaPlayer) : FAjaMediaPlayer :=
  let MetaDataLost := MetaDataOverflowCount + p.AjaThreadAutoCirculateMetadataFrameDropCount
  let p1 := { p with AjaThreadAutoCirculateMetadataFrameDropCount := 0 }
  let p2 := if MetaDataLost > 0 then p1.WriteLog (LogLine.LostMetadataFrames MetaDataLost) else p1
  let AudioLost := AudioOverflowCount + p2.AjaThreadAutoCirculateAudioFrameDropCount
  let p3 := { p2 with AjaThreadAutoCirculateAudioFrameDropCount := 0 }
  let p4 := if AudioLost > 0 then p3.WriteLog (LogLine.LostAudioFrames AudioLost) else p3
  let VideoLost := VideoOverflowCount + p4.AjaThreadAutoCirculateVideoFrameDropCount
  let p5 := { p4 with AjaThreadAutoCirculateVideoFrameDropCount := 0 }
  if p5.bVerifyFrameDropCount ∧ VideoLost > 0 then
    p5.WriteLog (LogLine.LostVideoFrames VideoLost)
  else p5

/-- `FAjaMediaPlayer::VerifyFrameDropCount`, one reconciliation pass. -/
def VerifyFrameDropCount (p : FAjaMediaPlayer) : FAjaMediaPlayer :=
  let (MetaDataOverflowCount, AudioOverflowCount, VideoOverflowCount, S) :=
    VerifyFrameDropCount.Trim p
  let p1 := { p with Samples := S }
  if p1.bVerifyFrameDropCount then
    VerifyFrameDropCount.KindCounts MetaDataOverflowCount AudioOverflowCount VideoOverflowCount
      (VerifyFrameDropCount.HardwareCount p1)
  else p1

/-- `FAjaMediaPlayer::TickFetch`. -/
def TickFetch (p : FAjaMediaPlayer) : FAjaMediaPlayer :=
  if p.InputChannel ≠ none ∧ p.CurrentState = EMediaState.Playing then
    VerifyFrameDropCount (ProcessFrame p)
  else p

/-- The log lines written between an earlier player `p` and a later player `q`. -/
def LogSince (p q : FAjaMediaPlayer) : List LogLine := q.Log.drop p.Log.length

/-! ## Hardware callbacks -/

/-- `FAjaMediaPlayer::OnInitializationCompleted`; `FrameDropCount` is the answer of
`InputChannel->GetFrameDropCount()`.  The result is `none` when the call dereferences a null
`InputChannel`. -/
def OnInitializationCompleted (p : FAjaMediaPlayer) (bSucceed : Bool) (FrameDropCount : Nat) :
    Option FAjaMediaPlayer :=
  if bSucceed then
    if p.InputChannel = none then none
    else some { p with
      LastFrameDropCount := FrameDropCount % 4294967296
      AjaThreadNewState := EMediaState.Playing }
  else some { p with AjaThreadNewState := EMediaState.Error }

/-- `FAjaMediaPlayer::OnCompletion`. -/
def OnCompletion (p : FAjaMediaPlayer) (bSucceed : Bool) : FAjaMediaPlayer :=
  { p with AjaThreadNewState := if bSucceed then EMediaState.Closed else EMediaState.Error }

/-- The soft cap test of the source, `Num >= Max * ToleratedExtraMaxBufferCount`.  Both
factors are `int32` and so is the product: it is kept in 32 bits (two's complement), so that
a capacity outside `-2^30 .. 2^30 - 1` gives a soft cap that is not twice the capacity. -/
def AtSoftCap (Num Max : Int) : Bool :=
  decide (Num ≥ toInt32 (Max * ToleratedExtraMaxBufferCount))

/-- The "Anc Field 1" block of `OnRequestInputBuffer`. -/
def OnRequestInputBuffer.AncField1 (InRequestBuffer : AJARequestInputBufferData)
    (s : FAjaMediaPlayer × AJARequestedInputBufferData) :
    FAjaMediaPlayer × AJARequestedInputBufferData :=
  let p := s.1
  if p.bUseAncillary ∧ InRequestBuffer.AncBufferSize > 0 then
    let NumMetadataSamples := p.Samples.NumMetadataSamples
    if AtSoftCap NumMetadataSamples p.MaxNumMetadataFrameBuffer then
      if p.bVerifyFrameDropCount then
        ({ p with AjaThreadAutoCirculateMetadataFrameDropCount :=
            p.AjaThreadAutoCirculateMetadataFrameDropCount + 1 }, s.2)
      else s
    else
      let a := p.MetadataSamplePool.AcquireShared
      ({ p with MetadataSamplePool := a.2, AjaThreadCurrentAncSample := some a.1 },
       { s.2 with AncBuffer := some (Buffer.Metadata a.1.Handle) })
  else s

/-- The "Anc Field 2" block of `OnRequestInputBuffer`.  As in the source, the buffer of the
field-2 sample is stored in `OutRequestedBuffer.AncBuffer`. -/
def OnRequestInputBuffer.AncField2 (InRequestBuffer : AJARequestInputBufferData)
    (s : FAjaMediaPlayer × AJARequestedInputBufferData) :
    FAjaMediaPlayer × AJARequestedInputBufferData :=
  let p := s.1
  if p.bUseAncillary ∧ InRequestBuffer.AncF2BufferSize > 0 then
    let NumMetadataSamples := p.Samples.NumMetadataSamples
    if AtSoftCap NumMetadataSamples p.MaxNumMetadataFrameBuffer then
      if p.bVerifyFrameDropCount then
        ({ p with AjaThreadAutoCirculateMetadataFrameDropCount :=
            p.AjaThreadAutoCirculateMetadataFrameDropCount + 1 }, s.2)
      else s
    else
      let a := p.MetadataSamplePool.AcquireShared
      ({ p with MetadataSamplePool := a.2, AjaThreadCurrentAncF2Sample := some a.1 },
       { s.2 with AncBuffer := some (Buffer.Metadata a.1.Handle) })
  else s

/-- The "Audio" block of `OnRequestInputBuffer`. -/
def OnRequestInputBuffer.Audio (InRequestBuffer : AJARequestInputBufferData)
    (s : FAjaMediaPlayer × AJARequestedInputBufferData) :
    FAjaMediaPlayer × AJARequestedInputBufferData :=
  let p := s.1
  if p.bUseAudio ∧ InRequestBuffer.AudioBufferSize > 0 then
    let NumAudioSamples := p.Samples.NumAudioSamples
    if AtSoftCap NumAudioSamples p.MaxNumAudioFrameBuffer then
      if p.bVerifyFrameDropCount then
        ({ p with AjaThreadAutoCirculateAudioFrameDropCount :=
            p.AjaThreadAutoCirculateAudioFrameDropCount + 1 }, s.2)
      else s
    else
      let a := p.AudioSamplePool.AcquireShared
      ({ p with AudioSamplePool := a.2, AjaThreadCurrentAudioSample := some a.1 },
       { s.2 with AudioBuffer := some (Buffer.Audio a.1.Handle) })
  else s

/-- The "Video" block of `OnRequestInputBuffer`. -/
def OnRequestInputBuffer.Video (InRequestBuffer : AJARequestInputBufferData)
    (s : FAjaMediaPlayer × AJARequestedInputBufferData) :
    FAjaMediaPlayer × AJARequestedInputBufferData :=
  let p := s.1
  if p.bUseVideo ∧ InRequestBuffer.VideoBufferSize > 0 ∧ InRequestBuffer.bIsProgressivePicture then
    let NumVideoSamples := p.Samples.NumVideoSamples
    if AtSoftCap NumVideoSamples p.MaxNumVideoFrameBuffer then
      if p.bVerifyFrameDropCount then
        ({ p with AjaThreadAutoCirculateVideoFrameDropCount :=
            p.AjaThreadAutoCirculateVideoFrameDropCount + 1 }, s.2)
      else s
    else
      let a := p.TextureSamplePool.AcquireShared
      ({ p with TextureSamplePool := a.2, AjaThreadCurrentTextureSample := some a.1 },
       { s.2 with VideoBuffer := some (Buffer.Texture a.1.Handle) })
  else s

/-- `FAjaMediaPlayer::OnRequestInputBuffer`: the returned flag, the player and the response
(`OutRequestedBuffer` is passed in and handed back). -/
def OnRequestInputBuffer (p : FAjaMediaPlayer) (InRequestBuffer : AJARequestInputBufferData)
    (OutRequestedBuffer : AJARequestedInputBufferData) :
    Bool × FAjaMediaPlayer × AJARequestedInputBufferData :=
  if p.AjaThreadNewState ≠ EMediaState.Playing then
    (false, p, OutRequestedBuffer)
  else
    let s := OnRequestInputBuffer.Video InRequestBuffer
      (OnRequestInputBuffer.Audio InRequestBuffer
        (OnRequestInputBuffer.AncField2 InRequestBuffer
          (OnRequestInputBuffer.AncField1 InRequestBuffer (p, OutRequestedBuffer))))
    (true, s.1, s.2)

/-- Modelled from the spec: a sample finalizer (`SetProperties`, `UpdateProperties`,
`Initialize`, `InitializeProgressive`, `InitializeInterlaced_Halfed`) assigns timestamp,
timecode and format to the sample and answers whether it accepted the data; a refused
sample is left as it was. -/
def Sample.Finalize (x : Sample) (bAccepted : Bool) (Layout : ESampleLayout) (Time : Int)
    (Timecode : Option FTimecode) : Bool × Sample :=
  if bAccepted then (true, { x with Time := Time, Timecode := Timecode, Layout := Layout })
  else (false, x)

/-- Modelled from the spec: the audio finalizers also record channel count and sample rate. -/
def Sample.FinalizeAudio (x : Sample) (bAccepted : Bool) (NumChannels AudioRate : Int)
    (Time : Int) (Timecode : Option FTimecode) : Bool × Sample :=
  if bAccepted then
    (true, { x with Time := Time, Timecode := Timecode, Layout := ESampleLayout.Full,
                    Channels := NumChannels, SampleRate := AudioRate })
  else (false, x)

/-- The local variables `DecodedTime`, `DecodedTimeF2`, `DecodedTimecode` and
`DecodedTimecodeF2` of `OnInputFrameReceived`. -/
structure DecodedFrameTime where
  DecodedTime : Int
  DecodedTimeF2 : Int
  DecodedTimecode : Option FTimecode
  DecodedTimecodeF2 : Option FTimecode
  deriving DecidableEq, Repr

/-- Timestamp and timecode derivation at the head of `OnInputFrameReceived`. -/
def OnInputFrameReceived.Decode (p : FAjaMediaPlayer) (Env : FrameEnvironment) :
    DecodedFrameTime :=
  let DecodedTime := Env.Now
  let DecodedTimeF2 := DecodedTime + p.VideoFrameInterval
  if p.bUseFrameTimecode then
    let DecodedTimecode := Env.ConvertedTimecode
    let DecodedTimecodeF2 := { DecodedTimecode with Frames := DecodedTimecode.Frames + 1 }
    let TimecodeDecodedTime := Env.ConvertedTimespan
    if p.bUseTimeSynchronization then
      { DecodedTime := TimecodeDecodedTime
        DecodedTimeF2 := TimecodeDecodedTime + p.VideoFrameInterval
        DecodedTimecode := some DecodedTimecode
        DecodedTimecodeF2 := some DecodedTimecodeF2 }
    else
      { DecodedTime := DecodedTime
        DecodedTimeF2 := DecodedTimeF2
        DecodedTimecode := some DecodedTimecode
        DecodedTimecodeF2 := some DecodedTimecodeF2 }
  else
    { DecodedTime := DecodedTime
      DecodedTimeF2 := DecodedTimeF2
      DecodedTimecode := none
      DecodedTimecodeF2 := none }

/-- A guarded log statement, `if (Condition) { UE_LOG(...); }`. -/
def FAjaMediaPlayer.WriteLogIf (p : FAjaMediaPlayer) (Condition : Bool) (l : LogLine) :
    FAjaMediaPlayer :=
  if Condition then p.WriteLog l else p

/-- The writes to the player at the head of `OnInputFrameReceived`: the hardware drop count,
the timecode warning, the previous timecode and the timecode log line. -/
def OnInputFrameReceived.Header (p : FAjaMediaPlayer) (InInputFrame : AJAInputFrameData)
    (InVideoFrame : AJAVideoFrameData) : FAjaMediaPlayer :=
  let p1 := { p with AjaThreadFrameDropCount := InInputFrame.FramesDropped }
  if p1.bUseFrameTimecode then
    let FrameLimit : Int :=
      if InVideoFrame.bIsProgressivePicture then p1.VideoFrameRateRounded
      else p1.VideoFrameRateRounded - 1
    let p2 := p1.WriteLogIf (decide (toInt32 InInputFrame.Timecode.Frames ≥ FrameLimit))
      (LogLine.InvalidTimecodeFrame InInputFrame.Timecode.Frames)
    let p3 := { p2 with AjaThreadPreviousFrameTimecode := InInputFrame.Timecode }
    p3.WriteLogIf p3.bIsTimecodeLogEnable (LogLine.TimecodeReceived InInputFrame.Timecode)
  else p1

/-- The "Anc Field 1" block of `OnInputFrameReceived`. -/
def OnInputFrameReceived.AncField1 (T : DecodedFrameTime) (Env : FrameEnvironment)
    (InAncillaryFrame : AJAAncillaryFrameData) (p : FAjaMediaPlayer) : FAjaMediaPlayer :=
  if p.bUseAncillary ∧ InAncillaryFrame.AncBuffer ≠ none then
    match p.AjaThreadCurrentAncSample with
    | some x =>
      let r := x.Finalize Env.bAncFinalized ESampleLayout.Full T.DecodedTime T.DecodedTimecode
      let p1 := { p with AjaThreadCurrentAncSample := some r.2 }
      if r.1 then { p1 with Samples := p1.Samples.AddMetadata r.2 } else p1
    | none =>
      let NumMetadataSamples := p.Samples.NumMetadataSamples
      if AtSoftCap NumMetadataSamples p.MaxNumMetadataFrameBuffer then
        { p with AjaThreadAutoCirculateMetadataFrameDropCount :=
            p.AjaThreadAutoCirculateMetadataFrameDropCount + 1 }
      else
        let a := p.MetadataSamplePool.AcquireShared
        let p1 := { p with MetadataSamplePool := a.2 }
        let r := a.1.Finalize Env.bAncFinalized ESampleLayout.Full T.DecodedTime T.DecodedTimecode
        if r.1 then { p1 with Samples := p1.Samples.AddMetadata r.2 } else p1
  else p

/-- The "Anc Field 2" block of `OnInputFrameReceived`. -/
def OnInputFrameReceived.AncField2 (T : DecodedFrameTime) (Env : FrameEnvironment)
    (InAncillaryFrame : AJAAncillaryFrameData) (InVideoFrame : AJAVideoFrameData)
    (p : FAjaMediaPlayer) : FAjaMediaPlayer :=
  if p.bUseAncillary ∧ InAncillaryFrame.AncF2Buffer ≠ none ∧
      ¬ InVideoFrame.bIsProgressivePicture then
    match p.AjaThreadCurrentAncF2Sample with
    | some x =>
      let r := x.Finalize Env.bAncF2Finalized ESampleLayout.Full T.DecodedTimeF2
        T.DecodedTimecodeF2
      let p1 := { p with AjaThreadCurrentAncF2Sample := some r.2 }
      if r.1 then { p1 with Samples := p1.Samples.AddMetadata r.2 } else p1
    | none =>
      let NumMetadataSamples := p.Samples.NumMetadataSamples
      if AtSoftCap NumMetadataSamples p.MaxNumMetadataFrameBuffer then
        { p with AjaThreadAutoCirculateMetadataFrameDropCount :=
            p.AjaThreadAutoCirculateMetadataFrameDropCount + 1 }
      else
        let a := p.MetadataSamplePool.AcquireShared
        let p1 := { p with MetadataSamplePool := a.2 }
        let r := a.1.Finalize Env.bAncF2Finalized ESampleLayout.Full T.DecodedTimeF2
          T.DecodedTimecodeF2
        if r.1 then { p1 with Samples := p1.Samples.AddMetadata r.2 } else p1
  else p

/-- The "Audio" block of `OnInputFrameReceived`. -/
def OnInputFrameReceived.Audio (T : DecodedFrameTime) (Env : FrameEnvironment)
    (InAudioFrame : AJAAudioFrameData) (p : FAjaMediaPlayer) : FAjaMediaPlayer :=
  if p.bUseAudio ∧ InAudioFrame.AudioBuffer ≠ none then
    match p.AjaThreadCurrentAudioSample with
    | some x =>
      let r := x.FinalizeAudio Env.bAudioFinalized InAudioFrame.NumChannels InAudioFrame.AudioRate
        T.DecodedTime T.DecodedTimecode
      let p1 := { p with AjaThreadCurrentAudioSample := some r.2 }
      let p2 := if r.1 then { p1 with Samples := p1.Samples.AddAudio r.2 } else p1
      { p2 with AjaThreadAudioChannels := r.2.Channels, AjaThreadAudioSampleRate := r.2.SampleRate }
    | none =>
      if AtSoftCap p.Samples.NumAudioSamples p.MaxNumAudioFrameBuffer then
        { p with AjaThreadAutoCirculateAudioFrameDropCount :=
            p.AjaThreadAutoCirculateAudioFrameDropCount + 1 }
      else
        let a := p.AudioSamplePool.AcquireShared
        let p1 := { p with AudioSamplePool := a.2 }
        let r := a.1.FinalizeAudio Env.bAudioFinalized InAudioFrame.NumChannels
          InAudioFrame.AudioRate T.DecodedTime T.DecodedTimecode
        let p2 := if r.1 then { p1 with Samples := p1.Samples.AddAudio r.2 } else p1
        { p2 with AjaThreadAudioChannels := r.2.Channels
                  AjaThreadAudioSampleRate := r.2.SampleRate }
  else p

/-- The publishing part of the "Video" block of `OnInputFrameReceived`: the pre-acquired
sample when the slot holds one, otherwise the same-call acquisition, one full sample for a
progressive picture and the even then the odd field for an interlaced one. -/
def OnInputFrameReceived.VideoPublish (T : DecodedFrameTime) (Env : FrameEnvironment)
    (InVideoFrame : AJAVideoFrameData) (p : FAjaMediaPlayer) : FAjaMediaPlayer :=
  match p.AjaThreadCurrentTextureSample with
  | some x =>
    let r := x.Finalize Env.bVideoFinalized ESampleLayout.Full T.DecodedTime T.DecodedTimecode
    let p1 := { p with AjaThreadCurrentTextureSample := some r.2 }
    if r.1 then { p1 with Samples := p1.Samples.AddVideo r.2 } else p1
  | none =>
    let NumVideoSamples : Int :=
      p.Samples.NumVideoSamples + (if ¬ InVideoFrame.bIsProgressivePicture then 1 else 0)
    if AtSoftCap NumVideoSamples p.MaxNumVideoFrameBuffer then
      { p with AjaThreadAutoCirculateVideoFrameDropCount :=
          p.AjaThreadAutoCirculateVideoFrameDropCount + 1 }
    else
      let a := p.TextureSamplePool.AcquireShared
      let p1 := { p with TextureSamplePool := a.2 }
      if InVideoFrame.bIsProgressivePicture then
        let r := a.1.Finalize Env.bVideoFinalized ESampleLayout.Full T.DecodedTime
          T.DecodedTimecode
        if r.1 then { p1 with Samples := p1.Samples.AddVideo r.2 } else p1
      else
        let r := a.1.Finalize Env.bVideoFinalized ESampleLayout.EvenField T.DecodedTime
          T.DecodedTimecode
        let p2 := if r.1 then { p1 with Samples := p1.Samples.AddVideo r.2 } else p1
        let b := p2.TextureSamplePool.AcquireShared
        let p3 := { p2 with TextureSamplePool := b.2 }
        let r2 := b.1.Finalize Env.bVideoOddFinalized ESampleLayout.OddField T.DecodedTimeF2
          T.DecodedTimecodeF2
        if r2.1 then { p3 with Samples := p3.Samples.AddVideo r2.2 } else p3

/-- The "Video" block of `OnInputFrameReceived`: the one-shot raw dump, the publishing part
and the reset of the four in-construction slots.  The pixel-format switch and the timecode
burn-in of the source act on the sample format and on pixel data only, neither of which is
represented. -/
def OnInputFrameReceived.Video (T : DecodedFrameTime) (Env : FrameEnvironment)
    (InVideoFrame : AJAVideoFrameData) (p : FAjaMediaPlayer) : FAjaMediaPlayer :=
  if p.bUseVideo ∧ InVideoFrame.VideoBuffer ≠ none then
    let p1 :=
      if p.bAjaWriteOutputRawDataCmdEnable then
        { p with RawFilesWritten := p.RawFilesWritten + 1
                 bAjaWriteOutputRawDataCmdEnable := false }
      else p
    let p2 := OnInputFrameReceived.VideoPublish T Env InVideoFrame p1
    { p2 with
      AjaThreadCurrentAncSample := none
      AjaThreadCurrentAncF2Sample := none
      AjaThreadCurrentAudioSample := none
      AjaThreadCurrentTextureSample := none }
  else p

/-- `FAjaMediaPlayer::OnInputFrameReceived`: the returned flag and the player. -/
def OnInputFrameReceived (p : FAjaMediaPlayer) (Env : FrameEnvironment)
    (InInputFrame : AJAInputFrameData) (InAncillaryFrame : AJAAncillaryFrameData)
    (InAudioFrame : AJAAudioFrameData) (InVideoFrame : AJAVideoFrameData) :
    Bool × FAjaMediaPlayer :=
  if p.AjaThreadNewState ≠ EMediaState.Playing then
    (false, p)
  else
    let T := OnInputFrameReceived.Decode p Env
    (true,
      OnInputFrameReceived.Video T Env InVideoFrame
        (OnInputFrameReceived.Audio T Env InAudioFrame
          (OnInputFrameReceived.AncField2 T Env InAncillaryFrame InVideoFrame
            (OnInputFrameReceived.AncField1 T Env InAncillaryFrame
              (OnInputFrameReceived.Header p InInputFrame InVideoFrame)))))

/-! ## Concrete players and frames used as inputs -/

/-- A blank sample with a given handle. -/
def Sample.Blank (Handle : Nat) : Sample :=
  { Handle := Handle, Time := 0, Timecode := none, Layout := ESampleLayout.Unset,
    Channels := 0, SampleRate := 0 }

/-- A constructed player whose metadata capacity is `-1` and whose metadata queue holds one
sample. -/
def NegativeCapacityPlayer : FAjaMediaPlayer :=
  { FAjaMediaPlayer.Constructed 400000 25 with
    MaxNumMetadataFrameBuffer := -1
    Samples := { Metadata := [Sample.Blank 0], Audio := [], Video := [] } }

/-- A playing player with audio capture on, drop logging off, audio capacity 1 and two audio
samples queued (the queue is at its soft cap). -/
def FlagOffPlayer : FAjaMediaPlayer :=
  { FAjaMediaPlayer.Constructed 400000 25 with
    CurrentState := EMediaState.Playing
    AjaThreadNewState := EMediaState.Playing
    bUseAudio := true
    bVerifyFrameDropCount := false
    MaxNumAudioFrameBuffer := 1
    Samples := { Metadata := [], Audio := [Sample.Blank 0, Sample.Blank 1], Video := [] }
    AudioSamplePool := { Created := 2, Tracked := [1, 0] } }

/-- A request for audio only. -/
def AudioOnlyRequest : AJARequestInputBufferData :=
  { bIsProgressivePicture := true, AncBufferSize := 0, AncF2BufferSize := 0,
    AudioBufferSize := 4096, VideoBufferSize := 0 }

/-- The response record before the player fills it: four null pointers. -/
def EmptyResponse : AJARequestedInputBufferData :=
  { AncBuffer := none, AncF2Buffer := none, AudioBuffer := none, VideoBuffer := none }

/-- The same player as `FlagOffPlayer` with drop logging on. -/
def FlagOnPlayer : FAjaMediaPlayer :=
  { FlagOffPlayer with bVerifyFrameDropCount := true }

/-- The options of `Open` at their defaults (no timecode, video capture only, drop logging on,
capacities 8). -/
def DefaultOptions : MediaOptions :=
  { TimecodeFormat := EMediaIOTimecodeFormat.None
    EncodeTimecodeInTexel := false
    SRGBInput := false
    CaptureAncillary := false
    CaptureAudio := false
    CaptureVideo := true
    LogDropFrame := true
    MaxAudioFrameBuffer := 8
    MaxAncillaryFrameBuffer := 8
    MaxVideoFrameBuffer := 8 }

/-- The card can be used and the base class opens, but the channel fails to initialize. -/
def ChannelFailsEnvironment : OpenEnvironment :=
  { bCanUseAJACard := true, bSuperOpened := true, bChannelInitialized := false }

/-- A player that `Open` left in `Preparing` and whose hardware reported success: the pending
state is `Playing`, the authoritative state still `Preparing`. -/
def PendingPlayingPlayer : FAjaMediaPlayer :=
  { FAjaMediaPlayer.Constructed 400000 25 with
    CurrentState := EMediaState.Preparing
    AjaThreadNewState := EMediaState.Playing
    bUseVideo := true
    Events := [EMediaEvent.MediaConnecting]
    InputChannel := some { bInitialized := true } }

/-- A player in `Preparing` whose hardware reported failure: the pending state is `Error`;
the pools have served samples and two slots hold one. -/
def PendingErrorPlayer : FAjaMediaPlayer :=
  { FAjaMediaPlayer.Constructed 400000 25 with
    CurrentState := EMediaState.Preparing
    AjaThreadNewState := EMediaState.Error
    bUseVideo := true
    Events := [EMediaEvent.MediaConnecting]
    InputChannel := some { bInitialized := true }
    AudioSamplePool := { Created := 1, Tracked := [0] }
    TextureSamplePool := { Created := 1, Tracked := [0] }
    AjaThreadCurrentAudioSample := some (Sample.Blank 0)
    AjaThreadCurrentTextureSample := some (Sample.Blank 0) }

/-- A frame environment: wall clock 1000, timecode 01:02:03:04 worth 37230000 ticks, every
finalizer accepts. -/
def AcceptingEnvironment : FrameEnvironment :=
  { Now := 1000
    ConvertedTimecode := { Hours := 1, Minutes := 2, Seconds := 3, Frames := 4 }
    ConvertedTimespan := 37230000
    bAncFinalized := true
    bAncF2Finalized := true
    bAudioFinalized := true
    bVideoFinalized := true
    bVideoOddFinalized := true }

/-- A frame header with no hardware drops. -/
def PlainInputFrame : AJAInputFrameData :=
  { FramesDropped := 0, Timecode := { Hours := 1, Minutes := 2, Seconds := 3, Frames := 4 } }

/-- A hardware frame part with no ancillary data. -/
def NoAncillaryFrame : AJAAncillaryFrameData :=
  { AncBuffer := none, AncF2Buffer := none }

/-- A hardware frame part with audio data in a driver buffer. -/
def DriverAudioFrame : AJAAudioFrameData :=
  { AudioBuffer := some (Buffer.Driver 0), NumChannels := 8, AudioRate := 48000 }

/-- A hardware frame part with no audio data. -/
def NoAudioFrame : AJAAudioFrameData :=
  { AudioBuffer := none, NumChannels := 8, AudioRate := 48000 }

/-- A hardware frame part with no video data. -/
def NoVideoFrame : AJAVideoFrameData :=
  { VideoBuffer := none, bIsProgressivePicture := true }

/-- `FlagOffPlayer` after one hardware frame that delivers audio: the audio queue is at its
soft cap and no sample was pre-acquired, so the frame-received phase counts a drop, although
drop logging is off. -/
def FlagOffPlayerAfterFrame : FAjaMediaPlayer :=
  (OnInputFrameReceived FlagOffPlayer AcceptingEnvironment PlainInputFrame NoAncillaryFrame
    DriverAudioFrame NoVideoFrame).2

/-- A playing player that captures audio and video with the default capacities (8) and drop
logging on, nothing queued yet. -/
def AudioScenarioStart : FAjaMediaPlayer :=
  { FAjaMediaPlayer.Constructed 400000 25 with
    CurrentState := EMediaState.Playing
    AjaThreadNewState := EMediaState.Playing
    bUseAudio := true
    bUseVideo := true
    InputChannel := some { bInitialized := true } }

/-- A request for an audio and a progressive video buffer. -/
def AudioVideoRequest : AJARequestInputBufferData :=
  { bIsProgressivePicture := true, AncBufferSize := 0, AncF2BufferSize := 0,
    AudioBufferSize := 4096, VideoBufferSize := 8294400 }

/-- A hardware frame part with a progressive picture. -/
def ProgressiveVideoFrame : AJAVideoFrameData :=
  { VideoBuffer := some (Buffer.Driver 1), bIsProgressivePicture := true }

/-- One hardware frame with audio and progressive video: the request-buffer call followed by
the frame-received call. -/
def AudioVideoFrameCycle (p : FAjaMediaPlayer) : FAjaMediaPlayer :=
  (OnInputFrameReceived (OnRequestInputBuffer p AudioVideoRequest EmptyResponse).2.1
    AcceptingEnvironment PlainInputFrame NoAncillaryFrame DriverAudioFrame
    ProgressiveVideoFrame).2

/-- The player after sixteen such frames with no consumer tick in between. -/
def SixteenFramesPlayer : FAjaMediaPlayer :=
  Nat.iterate AudioVideoFrameCycle 16 AudioScenarioStart

/-- A playing player that captures ancillary data and video, metadata capacity 1 (soft cap
2), video capacity 8, drop logging on, nothing queued. -/
def MetadataScenarioStart : FAjaMediaPlayer :=
  { FAjaMediaPlayer.Constructed 400000 25 with
    CurrentState := EMediaState.Playing
    AjaThreadNewState := EMediaState.Playing
    bUseAncillary := true
    bUseVideo := true
    MaxNumMetadataFrameBuffer := 1
    InputChannel := some { bInitialized := true } }

/-- A request of an interlaced frame for a field-1 ancillary buffer and a video buffer. -/
def Field1Request : AJARequestInputBufferData :=
  { bIsProgressivePicture := false, AncBufferSize := 256, AncF2BufferSize := 0,
    AudioBufferSize := 0, VideoBufferSize := 8294400 }

/-- A request of an interlaced frame for both ancillary buffers and a video buffer. -/
def BothFieldsRequest : AJARequestInputBufferData :=
  { bIsProgressivePicture := false, AncBufferSize := 256, AncF2BufferSize := 256,
    AudioBufferSize := 0, VideoBufferSize := 8294400 }

/-- Ancillary data for field 1 only. -/
def Field1AncillaryFrame : AJAAncillaryFrameData :=
  { AncBuffer := some (Buffer.Driver 2), AncF2Buffer := none }

/-- Ancillary data for both fields. -/
def BothFieldsAncillaryFrame : AJAAncillaryFrameData :=
  { AncBuffer := some (Buffer.Driver 2), AncF2Buffer := some (Buffer.Driver 3) }

/-- A hardware frame part with an interlaced picture. -/
def InterlacedVideoFrame : AJAVideoFrameData :=
  { VideoBuffer := some (Buffer.Driver 1), bIsProgressivePicture := false }

/-- The metadata scenario after its first hardware frame (interlaced, field-1 ancillary data):
request-buffer call, then frame-received call. -/
def MetadataScenarioFrame1 : FAjaMediaPlayer :=
  (OnInputFrameReceived (OnRequestInputBuffer MetadataScenarioStart Field1Request
      EmptyResponse).2.1
    AcceptingEnvironment PlainInputFrame Field1AncillaryFrame NoAudioFrame
    InterlacedVideoFrame).2

/-- The metadata scenario after the request-buffer call of its second hardware frame
(interlaced, ancillary data for both fields). -/
def MetadataScenarioRequest2 : FAjaMediaPlayer :=
  (OnRequestInputBuffer MetadataScenarioFrame1 BothFieldsRequest EmptyResponse).2.1

/-- The metadata scenario after its second hardware frame. -/
def MetadataScenarioFrame2 : FAjaMediaPlayer :=
  (OnInputFrameReceived MetadataScenarioRequest2 AcceptingEnvironment PlainInputFrame
    BothFieldsAncillaryFrame NoAudioFrame InterlacedVideoFrame).2

/-- The metadata scenario after the request-buffer call of its third hardware frame. -/
def MetadataScenarioRequest3 : FAjaMediaPlayer :=
  (OnRequestInputBuffer MetadataScenarioFrame2 BothFieldsRequest EmptyResponse).2.1

/-- One hardware frame as the driver presents it: the request it makes first and the frame
it delivers afterwards, with the results of the outside calls made while the frame is
handled. -/
structure HardwareFrame where
  Request : AJARequestInputBufferData
  Env : FrameEnvironment
  Input : AJAInputFrameData
  Ancillary : AJAAncillaryFrameData
  Audio : AJAAudioFrameData
  Video : AJAVideoFrameData
  deriving DecidableEq, Repr

/-- The per-frame protocol: `OnRequestInputBuffer` on a cleared response record, then
`OnInputFrameReceived`. -/
def DeliverFrame (p : FAjaMediaPlayer) (f : HardwareFrame) : FAjaMediaPlayer :=
  (OnInputFrameReceived (OnRequestInputBuffer p f.Request EmptyResponse).2.1 f.Env f.Input
    f.Ancillary f.Audio f.Video).2

/-- A sequence of hardware frames, oldest first, with no consumer tick in between. -/
def DeliverFrames (p : FAjaMediaPlayer) (fs : List HardwareFrame) : FAjaMediaPlayer :=
  fs.foldl DeliverFrame p

/-- A playing player that captures video with frame timecode on, video capacity 1 (soft cap
2) and one video sample queued; no video sample is pre-acquired. -/
def OneBelowCapPlayer : FAjaMediaPlayer :=
  { FAjaMediaPlayer.Constructed 400000 25 with
    CurrentState := EMediaState.Playing
    AjaThreadNewState := EMediaState.Playing
    bUseVideo := true
    bUseFrameTimecode := true
    MaxNumVideoFrameBuffer := 1
    Samples := { Metadata := [], Audio := [], Video := [Sample.Blank 0] }
    TextureSamplePool := { Created := 1, Tracked := [0] }
    InputChannel := some { bInitialized := true } }

/-- A playing player that captures video with frame timecode on and the default video
capacity 8, nothing queued. -/
def InterlacedScenarioStart : FAjaMediaPlayer :=
  { FAjaMediaPlayer.Constructed 400000 25 with
    CurrentState := EMediaState.Playing
    AjaThreadNewState := EMediaState.Playing
    bUseVideo := true
    bUseFrameTimecode := true
    InputChannel := some { bInitialized := true } }

/-- An interlaced hardware frame with video only. -/
def InterlacedHardwareFrame : HardwareFrame :=
  { Request := { bIsProgressivePicture := false, AncBufferSize := 0, AncF2BufferSize := 0,
                 AudioBufferSize := 0, VideoBufferSize := 8294400 }
    Env := AcceptingEnvironment
    Input := PlainInputFrame
    Ancillary := NoAncillaryFrame
    Audio := NoAudioFrame
    Video := InterlacedVideoFrame }

/-- The periodic line "Loosing frames ... The current count is n". -/
def LogLine.IsLoosingFrames : LogLine → Bool
  | LogLine.LoosingFrames _ => true
  | _ => false

/-- The final line "Lost n frames ... frame rate is too slow". -/
def LogLine.IsLostFrames : LogLine → Bool
  | LogLine.LostFrames _ => true
  | _ => false

/-- The line "Lost n metadata frames". -/
def LogLine.IsMetadataLoss : LogLine → Bool
  | LogLine.LostMetadataFrames _ => true
  | _ => false

/-- The line "Lost n audio frames". -/
def LogLine.IsAudioLoss : LogLine → Bool
  | LogLine.LostAudioFrames _ => true
  | _ => false

/-- The line "Lost n video frames". -/
def LogLine.IsVideoLoss : LogLine → Bool
  | LogLine.LostVideoFrames _ => true
  | _ => false

/-- A playing player with drop logging on whose hardware drop count stands at 7 as at the
last pass, with 3 frames counted as lost since the last recovery. -/
def QuietAfterLossPlayer : FAjaMediaPlayer :=
  { FAjaMediaPlayer.Constructed 400000 25 with
    CurrentState := EMediaState.Playing
    AjaThreadNewState := EMediaState.Playing
    bUseVideo := true
    AjaThreadFrameDropCount := 7
    LastFrameDropCount := 7
    PreviousFrameDropCount := 3
    InputChannel := some { bInitialized := true } }

/-- Either frame-level line of the hardware drop count, the periodic one or the final one. -/
def LogLine.IsFrameLoss : LogLine → Bool
  | LogLine.LoosingFrames _ => true
  | LogLine.LostFrames _ => true
  | _ => false

/-- One consumer tick seen from the queue: the hardware frames that arrived since the last
tick, then one reconciliation pass. -/
def ReconciliationTick (p : FAjaMediaPlayer) (fs : List HardwareFrame) : FAjaMediaPlayer :=
  VerifyFrameDropCount (DeliverFrames p fs)

/-- The hardware drop count read by each of a sequence of ticks is one above the count
remembered from the pass before. -/
def HardwareCountRisesByOne : FAjaMediaPlayer → List (List HardwareFrame) → Prop
  | _, [] => True
  | p, fs :: rest =>
    toUInt32 (DeliverFrames p fs).AjaThreadFrameDropCount = p.LastFrameDropCount + 1 ∧
    HardwareCountRisesByOne (ReconciliationTick p fs) rest

/-- Whether the count rises by one on every tick can be computed. -/
instance HardwareCountRisesByOne.instDecidable :
    (p : FAjaMediaPlayer) → (ticks : List (List HardwareFrame)) →
    Decidable (HardwareCountRisesByOne p ticks)
  | _, [] => isTrue trivial
  | p, fs :: rest =>
    have := HardwareCountRisesByOne.instDecidable (ReconciliationTick p fs) rest
    inferInstanceAs (Decidable (_ ∧ _))

/-- The frame-level lines written by the pass of each tick, one list per tick. -/
def FrameLossLines : FAjaMediaPlayer → List (List HardwareFrame) → List (List LogLine)
  | _, [] => []
  | p, fs :: rest =>
    (LogSince (DeliverFrames p fs) (ReconciliationTick p fs)).filter LogLine.IsFrameLoss ::
      FrameLossLines (ReconciliationTick p fs) rest

/-- A hardware frame that carries no data, only the header with the hardware drop count. -/
def HeaderOnlyFrame (FramesDropped : Int) : HardwareFrame :=
  { Request := { bIsProgressivePicture := true, AncBufferSize := 0, AncF2BufferSize := 0,
                 AudioBufferSize := 0, VideoBufferSize := 0 }
    Env := AcceptingEnvironment
    Input := { FramesDropped := FramesDropped
               Timecode := { Hours := 1, Minutes := 2, Seconds := 3, Frames := 4 } }
    Ancillary := NoAncillaryFrame
    Audio := NoAudioFrame
    Video := NoVideoFrame }

/-- Sixty ticks with one frame each; the frame of tick k reports k dropped frames. -/
def SixtyRisingTicks : List (List HardwareFrame) :=
  (List.range 60).map (fun k => [HeaderOnlyFrame (k + 1)])

/-- A playing player that captures audio only (video capture off), audio capacity 1 (soft
cap 2), drop logging on, nothing queued. -/
def AudioOnlyStart : FAjaMediaPlayer :=
  { FAjaMediaPlayer.Constructed 400000 25 with
    CurrentState := EMediaState.Playing
    AjaThreadNewState := EMediaState.Playing
    bUseAudio := true
    bUseVideo := false
    MaxNumAudioFrameBuffer := 1
    InputChannel := some { bInitialized := true } }

/-- A hardware frame that asks for an audio buffer and delivers audio data, no video. -/
def AudioOnlyHardwareFrame : HardwareFrame :=
  { Request := AudioOnlyRequest
    Env := AcceptingEnvironment
    Input := PlainInputFrame
    Ancillary := NoAncillaryFrame
    Audio := DriverAudioFrame
    Video := NoVideoFrame }

/-- The player of the sixteen-frame scenario after the request-buffer call of a seventeenth
frame with audio and progressive video. -/
def SeventeenthRequestPlayer : FAjaMediaPlayer :=
  (OnRequestInputBuffer SixteenFramesPlayer AudioVideoRequest EmptyResponse).2.1

/-- The player of the sixteen-frame scenario after the whole seventeenth frame, whose audio
and video data arrive in driver buffers. -/
def SeventeenFramesPlayer : FAjaMediaPlayer :=
  AudioVideoFrameCycle SixteenFramesPlayer


/-- The inputs of a frame-received call at which finalization of the even video field fails
and everything else finalizes. -/
def EvenFieldRefusedEnvironment : FrameEnvironment :=
  { AcceptingEnvironment with bVideoFinalized := false }
/-! ## Queue and loop lemmas -/

theorem iterate_PopMetadata (n : Nat) (S : FMediaIOCoreSamples) :
    Nat.iterate FMediaIOCoreSamples.PopMetadata n S = { S with Metadata := S.Metadata.drop n } := by
  induction n generalizing S with
  | zero => rfl
  | succ k ih =>
    rw [Function.iterate_succ_apply, ih]
    cases S with
    | mk m a v => cases m <;> simp [FMediaIOCoreSamples.PopMetadata]

theorem iterate_PopAudio (n : Nat) (S : FMediaIOCoreSamples) :
    Nat.iterate FMediaIOCoreSamples.PopAudio n S = { S with Audio := S.Audio.drop n } := by
  induction n generalizing S with
  | zero => rfl
  | succ k ih =>
    rw [Function.iterate_succ_apply, ih]
    cases S with
    | mk m a v => cases a <;> simp [FMediaIOCoreSamples.PopAudio]

theorem iterate_PopVideo (n : Nat) (S : FMediaIOCoreSamples) :
    Nat.iterate FMediaIOCoreSamples.PopVideo n S = { S with Video := S.Video.drop n } := by
  induction n generalizing S with
  | zero => rfl
  | succ k ih =>
    rw [Function.iterate_succ_apply, ih]
    cases S with
    | mk m a v => cases v <;> simp [FMediaIOCoreSamples.PopVideo]

/-- The three trimming loops, in closed form. -/
theorem Trim_eq (p : FAjaMediaPlayer) :
    VerifyFrameDropCount.Trim p =
      (max ((p.Samples.Metadata.length : Int) - p.MaxNumMetadataFrameBuffer) 0,
       max ((p.Samples.Audio.length : Int) - p.MaxNumAudioFrameBuffer) 0,
       max ((p.Samples.Video.length : Int) - p.MaxNumVideoFrameBuffer) 0,
       { Metadata := p.Samples.Metadata.drop
           (max ((p.Samples.Metadata.length : Int) - p.MaxNumMetadataFrameBuffer) 0).toNat
         Audio := p.Samples.Audio.drop
           (max ((p.Samples.Audio.length : Int) - p.MaxNumAudioFrameBuffer) 0).toNat
         Video := p.Samples.Video.drop
           (max ((p.Samples.Video.length : Int) - p.MaxNumVideoFrameBuffer) 0).toNat }) := by
  simp only [VerifyFrameDropCount.Trim, ForLoop, iterate_PopMetadata, iterate_PopAudio,
    iterate_PopVideo, FMediaIOCoreSamples.NumMetadataSamples,
    FMediaIOCoreSamples.NumAudioSamples, FMediaIOCoreSamples.NumVideoSamples]

/-- The hardware-count block leaves queue, capacities, flag and local counters alone. -/
theorem HardwareCount_frame (p : FAjaMediaPlayer) :
    (VerifyFrameDropCount.HardwareCount p).Samples = p.Samples ∧
    (VerifyFrameDropCount.HardwareCount p).bVerifyFrameDropCount = p.bVerifyFrameDropCount ∧
    (VerifyFrameDropCount.HardwareCount p).AjaThreadAutoCirculateMetadataFrameDropCount =
      p.AjaThreadAutoCirculateMetadataFrameDropCount ∧
    (VerifyFrameDropCount.HardwareCount p).AjaThreadAutoCirculateAudioFrameDropCount =
      p.AjaThreadAutoCirculateAudioFrameDropCount ∧
    (VerifyFrameDropCount.HardwareCount p).AjaThreadAutoCirculateVideoFrameDropCount =
      p.AjaThreadAutoCirculateVideoFrameDropCount ∧
    (VerifyFrameDropCount.HardwareCount p).MaxNumMetadataFrameBuffer =
      p.MaxNumMetadataFrameBuffer ∧
    (VerifyFrameDropCount.HardwareCount p).MaxNumAudioFrameBuffer = p.MaxNumAudioFrameBuffer ∧
    (VerifyFrameDropCount.HardwareCount p).MaxNumVideoFrameBuffer = p.MaxNumVideoFrameBuffer := by
  unfold VerifyFrameDropCount.HardwareCount FAjaMediaPlayer.WriteLog
  dsimp only
  split_ifs <;> simp

/-- The per-kind block leaves queue, capacities and flag alone and zeroes the counters. -/
theorem KindCounts_frame (m a v : Int) (p : FAjaMediaPlayer) :
    (VerifyFrameDropCount.KindCounts m a v p).Samples = p.Samples ∧
    (VerifyFrameDropCount.KindCounts m a v p).bVerifyFrameDropCount = p.bVerifyFrameDropCount ∧
    (VerifyFrameDropCount.KindCounts m a v p).AjaThreadAutoCirculateMetadataFrameDropCount = 0 ∧
    (VerifyFrameDropCount.KindCounts m a v p).AjaThreadAutoCirculateAudioFrameDropCount = 0 ∧
    (VerifyFrameDropCount.KindCounts m a v p).AjaThreadAutoCirculateVideoFrameDropCount = 0 ∧
    (VerifyFrameDropCount.KindCounts m a v p).MaxNumMetadataFrameBuffer =
      p.MaxNumMetadataFrameBuffer ∧
    (VerifyFrameDropCount.KindCounts m a v p).MaxNumAudioFrameBuffer = p.MaxNumAudioFrameBuffer ∧
    (VerifyFrameDropCount.KindCounts m a v p).MaxNumVideoFrameBuffer = p.MaxNumVideoFrameBuffer := by
  unfold VerifyFrameDropCount.KindCounts FAjaMediaPlayer.WriteLog
  dsimp only
  split_ifs <;> simp

/-- The queue after a reconciliation pass. -/
theorem VerifyFrameDropCount_Samples (p : FAjaMediaPlayer) :
    (VerifyFrameDropCount p).Samples = (VerifyFrameDropCount.Trim p).2.2.2 := by
  unfold VerifyFrameDropCount
  dsimp only
  split_ifs
  · rw [(KindCounts_frame _ _ _ _).1, (HardwareCount_frame _).1]
  · rfl

/-- Dropping the overflow from the front: what is left and how much went. -/
theorem drop_overflow {α : Type} (l : List α) (c : Int) :
    ((l.length : Int) - ((l.drop (max ((l.length : Int) - c) 0).toNat).length : Int) =
        min (l.length : Int) (max ((l.length : Int) - c) 0)) ∧
    (((l.drop (max ((l.length : Int) - c) 0).toNat).length : Int) ≤ max c 0) := by
  rw [List.length_drop]
  omega

/-! ## C1 -/

theorem RequestAncField1_eq (In : AJARequestInputBufferData)
    (s : FAjaMediaPlayer × AJARequestedInputBufferData) :
    OnRequestInputBuffer.AncField1 In s =
      ({ s.1 with
          MetadataSamplePool :=
            if s.1.bUseAncillary = true ∧ 0 < In.AncBufferSize ∧
                AtSoftCap s.1.Samples.NumMetadataSamples s.1.MaxNumMetadataFrameBuffer = false
            then s.1.MetadataSamplePool.AcquireShared.2 else s.1.MetadataSamplePool
          AjaThreadCurrentAncSample :=
            if s.1.bUseAncillary = true ∧ 0 < In.AncBufferSize ∧
                AtSoftCap s.1.Samples.NumMetadataSamples s.1.MaxNumMetadataFrameBuffer = false
            then some s.1.MetadataSamplePool.AcquireShared.1 else s.1.AjaThreadCurrentAncSample
          AjaThreadAutoCirculateMetadataFrameDropCount :=
            if s.1.bUseAncillary = true ∧ 0 < In.AncBufferSize ∧
                AtSoftCap s.1.Samples.NumMetadataSamples s.1.MaxNumMetadataFrameBuffer = true ∧
                s.1.bVerifyFrameDropCount = true
            then s.1.AjaThreadAutoCirculateMetadataFrameDropCount + 1
            else s.1.AjaThreadAutoCirculateMetadataFrameDropCount },
       { s.2 with
          AncBuffer :=
            if s.1.bUseAncillary = true ∧ 0 < In.AncBufferSize ∧
                AtSoftCap s.1.Samples.NumMetadataSamples s.1.MaxNumMetadataFrameBuffer = false
            then some (Buffer.Metadata s.1.MetadataSamplePool.AcquireShared.1.Handle)
            else s.2.AncBuffer }) := by
  obtain ⟨p, o⟩ := s
  cases p
  cases o
  simp only [OnRequestInputBuffer.AncField1]
  split_ifs <;> simp_all

theorem RequestAncField2_eq (In : AJARequestInputBufferData)
    (s : FAjaMediaPlayer × AJARequestedInputBufferData) :
    OnRequestInputBuffer.AncField2 In s =
      ({ s.1 with
          MetadataSamplePool :=
            if s.1.bUseAncillary = true ∧ 0 < In.AncF2BufferSize ∧
                AtSoftCap s.1.Samples.NumMetadataSamples s.1.MaxNumMetadataFrameBuffer = false
            then s.1.MetadataSamplePool.AcquireShared.2 else s.1.MetadataSamplePool
          AjaThreadCurrentAncF2Sample :=
            if s.1.bUseAncillary = true ∧ 0 < In.AncF2BufferSize ∧
                AtSoftCap s.1.Samples.NumMetadataSamples s.1.MaxNumMetadataFrameBuffer = false
            then some s.1.MetadataSamplePool.AcquireShared.1 else s.1.AjaThreadCurrentAncF2Sample
          AjaThreadAutoCirculateMetadataFrameDropCount :=
            if s.1.bUseAncillary = true ∧ 0 < In.AncF2BufferSize ∧
                AtSoftCap s.1.Samples.NumMetadataSamples s.1.MaxNumMetadataFrameBuffer = true ∧
                s.1.bVerifyFrameDropCount = true
            then s.1.AjaThreadAutoCirculateMetadataFrameDropCount + 1
            else s.1.AjaThreadAutoCirculateMetadataFrameDropCount },
       { s.2 with
          AncBuffer :=
            if s.1.bUseAncillary = true ∧ 0 < In.AncF2BufferSize ∧
                AtSoftCap s.1.Samples.NumMetadataSamples s.1.MaxNumMetadataFrameBuffer = false
            then some (Buffer.Metadata s.1.MetadataSamplePool.AcquireShared.1.Handle)
            else s.2.AncBuffer }) := by
  obtain ⟨p, o⟩ := s
  cases p
  cases o
  simp only [OnRequestInputBuffer.AncField2]
  split_ifs <;> simp_all

theorem RequestAudio_eq (In : AJARequestInputBufferData)
    (s : FAjaMediaPlayer × AJARequestedInputBufferData) :
    OnRequestInputBuffer.Audio In s =
      ({ s.1 with
          AudioSamplePool :=
            if s.1.bUseAudio = true ∧ 0 < In.AudioBufferSize ∧
                AtSoftCap s.1.Samples.NumAudioSamples s.1.MaxNumAudioFrameBuffer = false
            then s.1.AudioSamplePool.AcquireShared.2 else s.1.AudioSamplePool
          AjaThreadCurrentAudioSample :=
            if s.1.bUseAudio = true ∧ 0 < In.AudioBufferSize ∧
                AtSoftCap s.1.Samples.NumAudioSamples s.1.MaxNumAudioFrameBuffer = false
            then some s.1.AudioSamplePool.AcquireShared.1 else s.1.AjaThreadCurrentAudioSample
          AjaThreadAutoCirculateAudioFrameDropCount :=
            if s.1.bUseAudio = true ∧ 0 < In.AudioBufferSize ∧
                AtSoftCap s.1.Samples.NumAudioSamples s.1.MaxNumAudioFrameBuffer = true ∧
                s.1.bVerifyFrameDropCount = true
            then s.1.AjaThreadAutoCirculateAudioFrameDropCount + 1
            else s.1.AjaThreadAutoCirculateAudioFrameDropCount },
       { s.2 with
          AudioBuffer :=
            if s.1.bUseAudio = true ∧ 0 < In.AudioBufferSize ∧
                AtSoftCap s.1.Samples.NumAudioSamples s.1.MaxNumAudioFrameBuffer = false
            then some (Buffer.Audio s.1.AudioSamplePool.AcquireShared.1.Handle)
            else s.2.AudioBuffer }) := by
  obtain ⟨p, o⟩ := s
  cases p
  cases o
  simp only [OnRequestInputBuffer.Audio]
  split_ifs <;> simp_all

theorem RequestVideo_eq (In : AJARequestInputBufferData)
    (s : FAjaMediaPlayer × AJARequestedInputBufferData) :
    OnRequestInputBuffer.Video In s =
      ({ s.1 with
          TextureSamplePool :=
            if s.1.bUseVideo = true ∧ 0 < In.VideoBufferSize ∧ In.bIsProgressivePicture = true ∧
                AtSoftCap s.1.Samples.NumVideoSamples s.1.MaxNumVideoFrameBuffer = false
            then s.1.TextureSamplePool.AcquireShared.2 else s.1.TextureSamplePool
          AjaThreadCurrentTextureSample :=
            if s.1.bUseVideo = true ∧ 0 < In.VideoBufferSize ∧ In.bIsProgressivePicture = true ∧
                AtSoftCap s.1.Samples.NumVideoSamples s.1.MaxNumVideoFrameBuffer = false
            then some s.1.TextureSamplePool.AcquireShared.1
            else s.1.AjaThreadCurrentTextureSample
          AjaThreadAutoCirculateVideoFrameDropCount :=
            if s.1.bUseVideo = true ∧ 0 < In.VideoBufferSize ∧ In.bIsProgressivePicture = true ∧
                AtSoftCap s.1.Samples.NumVideoSamples s.1.MaxNumVideoFrameBuffer = true ∧
                s.1.bVerifyFrameDropCount = true
            then s.1.AjaThreadAutoCirculateVideoFrameDropCount + 1
            else s.1.AjaThreadAutoCirculateVideoFrameDropCount },
       { s.2 with
          VideoBuffer :=
            if s.1.bUseVideo = true ∧ 0 < In.VideoBufferSize ∧ In.bIsProgressivePicture = true ∧
                AtSoftCap s.1.Samples.NumVideoSamples s.1.MaxNumVideoFrameBuffer = false
            then some (Buffer.Texture s.1.TextureSamplePool.AcquireShared.1.Handle)
            else s.2.VideoBuffer }) := by
  obtain ⟨p, o⟩ := s
  cases p
  cases o
  simp only [OnRequestInputBuffer.Video]
  split_ifs <;> simp_all

/-- The soft cap test as an inequality between the depth and the `int32` product of the
capacity and 2. -/
theorem AtSoftCap_iff (Num Max : Int) :
    AtSoftCap Num Max = true ↔ toInt32 (Max * 2) ≤ Num := by
  simp [AtSoftCap, ToleratedExtraMaxBufferCount]

theorem AtSoftCap_false_iff (Num Max : Int) :
    AtSoftCap Num Max = false ↔ Num < toInt32 (Max * 2) := by
  simp [AtSoftCap, ToleratedExtraMaxBufferCount]

/-- The `int32` product of a capacity and 2 is the plain product for a capacity from `-2^30`
to `2^30 - 1`. -/
theorem toInt32_double (c : Int) (hLow : -1073741824 ≤ c) (hHigh : c < 1073741824) :
    toInt32 (c * 2) = c * 2 := by
  unfold toInt32
  omega

/-- At capacity `2^30` the `int32` product is `-2^31`: an empty queue is at its soft cap. -/
theorem AtSoftCap_wraps : AtSoftCap 0 1073741824 = true := by
  decide

/-- While playing, `OnRequestInputBuffer` is its four blocks in sequence. -/
theorem OnRequestInputBuffer_playing (p : FAjaMediaPlayer) (In : AJARequestInputBufferData)
    (Out : AJARequestedInputBufferData) (h : p.AjaThreadNewState = EMediaState.Playing) :
    OnRequestInputBuffer p In Out =
      (true,
        (OnRequestInputBuffer.Video In (OnRequestInputBuffer.Audio In
          (OnRequestInputBuffer.AncField2 In (OnRequestInputBuffer.AncField1 In (p, Out))))).1,
        (OnRequestInputBuffer.Video In (OnRequestInputBuffer.Audio In
          (OnRequestInputBuffer.AncField2 In (OnRequestInputBuffer.AncField1 In (p, Out))))).2) := by
  simp [OnRequestInputBuffer, h]


/-! ## C2 -/

/-- C2, counterexample.  Playing, audio enabled and requested, audio depth 2 at capacity 1
(so depth >= capacity × 2), drop logging off: the call returns true, acquires nothing, and
the audio drop counter is not incremented. -/
theorem C2_flag_off_counterexample :
    FlagOffPlayer.AjaThreadNewState = EMediaState.Playing ∧
    FlagOffPlayer.bUseAudio = true ∧ 0 < AudioOnlyRequest.AudioBufferSize ∧
    FlagOffPlayer.bVerifyFrameDropCount = false ∧
    (FlagOffPlayer.Samples.Audio.length : Int) ≥ FlagOffPlayer.MaxNumAudioFrameBuffer * 2 ∧
    (OnRequestInputBuffer FlagOffPlayer AudioOnlyRequest EmptyResponse).1 = true ∧
    (OnRequestInputBuffer FlagOffPlayer AudioOnlyRequest
        EmptyResponse).2.1.AjaThreadAutoCirculateAudioFrameDropCount =
      FlagOffPlayer.AjaThreadAutoCirculateAudioFrameDropCount ∧
    ¬ ((OnRequestInputBuffer FlagOffPlayer AudioOnlyRequest
        EmptyResponse).2.1.AjaThreadAutoCirculateAudioFrameDropCount =
      FlagOffPlayer.AjaThreadAutoCirculateAudioFrameDropCount + 1) ∧
    (OnRequestInputBuffer FlagOffPlayer AudioOnlyRequest EmptyResponse).2.1.AudioSamplePool =
      FlagOffPlayer.AudioSamplePool := by
  decide

/-- C2, amended.  In `OnRequestInputBuffer` while the state is Playing, for every enabled kind
whose requested size is positive (ancillary field 1, ancillary field 2, audio, and video only
when the frame is progressive): if the kind's queue depth is at least the soft cap, which is
capacity × 2 as an `int32` product, no pool sample is acquired for it (pool and
in-construction slot are as before) and the kind's local drop counter goes up by one for that
kind when the log-drop-frame flag is on and stays as it was when the flag is off; otherwise a
pool sample is acquired into the kind's in-construction slot and the drop counter is
unchanged.  The two ancillary fields share the metadata queue, pool and counter: at the cap
the counter goes up by one for each requested field (flag on), below the cap the pool serves
one acquisition for each requested field, field 1 first.  For a capacity from `-2^30` to
`2^30 - 1` the soft cap is the plain product capacity × 2. -/
theorem C2_OnRequestInputBuffer_decides_each_kind (p q : FAjaMediaPlayer)
    (In : AJARequestInputBufferData) (Out : AJARequestedInputBufferData)
    (hPlaying : p.AjaThreadNewState = EMediaState.Playing)
    (hq : q = (OnRequestInputBuffer p In Out).2.1) :
    (p.bUseAncillary = true ∧ 0 < In.AncBufferSize →
      (toInt32 (p.MaxNumMetadataFrameBuffer * 2) ≤ (p.Samples.Metadata.length : Int) →
        q.AjaThreadCurrentAncSample = p.AjaThreadCurrentAncSample) ∧
      ((p.Samples.Metadata.length : Int) < toInt32 (p.MaxNumMetadataFrameBuffer * 2) →
        q.AjaThreadCurrentAncSample = some p.MetadataSamplePool.AcquireShared.1)) ∧
    (p.bUseAncillary = true ∧ 0 < In.AncF2BufferSize →
      (toInt32 (p.MaxNumMetadataFrameBuffer * 2) ≤ (p.Samples.Metadata.length : Int) →
        q.AjaThreadCurrentAncF2Sample = p.AjaThreadCurrentAncF2Sample) ∧
      ((p.Samples.Metadata.length : Int) < toInt32 (p.MaxNumMetadataFrameBuffer * 2) →
        q.AjaThreadCurrentAncF2Sample =
          some (if 0 < In.AncBufferSize then p.MetadataSamplePool.AcquireShared.2
                else p.MetadataSamplePool).AcquireShared.1)) ∧
    (p.bUseAncillary = true →
      (toInt32 (p.MaxNumMetadataFrameBuffer * 2) ≤ (p.Samples.Metadata.length : Int) →
        q.MetadataSamplePool = p.MetadataSamplePool ∧
        q.AjaThreadAutoCirculateMetadataFrameDropCount =
          p.AjaThreadAutoCirculateMetadataFrameDropCount +
            (if p.bVerifyFrameDropCount = true then
              (if 0 < In.AncBufferSize then 1 else 0) + (if 0 < In.AncF2BufferSize then 1 else 0)
             else 0)) ∧
      ((p.Samples.Metadata.length : Int) < toInt32 (p.MaxNumMetadataFrameBuffer * 2) →
        q.AjaThreadAutoCirculateMetadataFrameDropCount =
          p.AjaThreadAutoCirculateMetadataFrameDropCount ∧
        q.MetadataSamplePool.Created = p.MetadataSamplePool.Created +
          ((if 0 < In.AncBufferSize then 1 else 0) + (if 0 < In.AncF2BufferSize then 1 else 0)))) ∧
    (p.bUseAudio = true ∧ 0 < In.AudioBufferSize →
      (toInt32 (p.MaxNumAudioFrameBuffer * 2) ≤ (p.Samples.Audio.length : Int) →
        q.AjaThreadAutoCirculateAudioFrameDropCount =
          p.AjaThreadAutoCirculateAudioFrameDropCount +
            (if p.bVerifyFrameDropCount = true then 1 else 0) ∧
        q.AudioSamplePool = p.AudioSamplePool ∧
        q.AjaThreadCurrentAudioSample = p.AjaThreadCurrentAudioSample) ∧
      ((p.Samples.Audio.length : Int) < toInt32 (p.MaxNumAudioFrameBuffer * 2) →
        q.AjaThreadAutoCirculateAudioFrameDropCount =
          p.AjaThreadAutoCirculateAudioFrameDropCount ∧
        q.AudioSamplePool = p.AudioSamplePool.AcquireShared.2 ∧
        q.AjaThreadCurrentAudioSample = some p.AudioSamplePool.AcquireShared.1)) ∧
    (p.bUseVideo = true ∧ 0 < In.VideoBufferSize ∧ In.bIsProgressivePicture = true →
      (toInt32 (p.MaxNumVideoFrameBuffer * 2) ≤ (p.Samples.Video.length : Int) →
        q.AjaThreadAutoCirculateVideoFrameDropCount =
          p.AjaThreadAutoCirculateVideoFrameDropCount +
            (if p.bVerifyFrameDropCount = true then 1 else 0) ∧
        q.TextureSamplePool = p.TextureSamplePool ∧
        q.AjaThreadCurrentTextureSample = p.AjaThreadCurrentTextureSample) ∧
      ((p.Samples.Video.length : Int) < toInt32 (p.MaxNumVideoFrameBuffer * 2) →
        q.AjaThreadAutoCirculateVideoFrameDropCount =
          p.AjaThreadAutoCirculateVideoFrameDropCount ∧
        q.TextureSamplePool = p.TextureSamplePool.AcquireShared.2 ∧
        q.AjaThreadCurrentTextureSample = some p.TextureSamplePool.AcquireShared.1)) ∧
    ((-1073741824 ≤ p.MaxNumMetadataFrameBuffer ∧ p.MaxNumMetadataFrameBuffer < 1073741824 →
        toInt32 (p.MaxNumMetadataFrameBuffer * 2) = p.MaxNumMetadataFrameBuffer * 2) ∧
      (-1073741824 ≤ p.MaxNumAudioFrameBuffer ∧ p.MaxNumAudioFrameBuffer < 1073741824 →
        toInt32 (p.MaxNumAudioFrameBuffer * 2) = p.MaxNumAudioFrameBuffer * 2) ∧
      (-1073741824 ≤ p.MaxNumVideoFrameBuffer ∧ p.MaxNumVideoFrameBuffer < 1073741824 →
        toInt32 (p.MaxNumVideoFrameBuffer * 2) = p.MaxNumVideoFrameBuffer * 2)) := by
  subst hq
  rw [OnRequestInputBuffer_playing p In Out hPlaying]
  simp only [RequestVideo_eq, RequestAudio_eq, RequestAncField2_eq, RequestAncField1_eq,
    AtSoftCap_iff, AtSoftCap_false_iff, FMediaIOCoreSamples.NumMetadataSamples,
    FMediaIOCoreSamples.NumAudioSamples, FMediaIOCoreSamples.NumVideoSamples]
  refine ⟨?_, ?_, ?_, ?_, ?_,
    fun h => toInt32_double _ h.1 h.2, fun h => toInt32_double _ h.1 h.2,
    fun h => toInt32_double _ h.1 h.2⟩
  · rintro ⟨h1, h2⟩
    constructor
    · intro h3
      have : ¬ ((p.Samples.Metadata.length : Int) < toInt32 (p.MaxNumMetadataFrameBuffer * 2)) := by
        omega
      simp [this]
    · intro h3
      simp [h1, h2, h3]
  · rintro ⟨h1, h2⟩
    constructor
    · intro h3
      have : ¬ ((p.Samples.Metadata.length : Int) < toInt32 (p.MaxNumMetadataFrameBuffer * 2)) := by
        omega
      simp [this]
    · intro h3
      simp [h1, h2, h3]
  · intro h1
    constructor
    · intro h3
      have : ¬ ((p.Samples.Metadata.length : Int) < toInt32 (p.MaxNumMetadataFrameBuffer * 2)) := by
        omega
      by_cases ha : 0 < In.AncBufferSize <;> by_cases hb : 0 < In.AncF2BufferSize <;>
        by_cases hf : p.bVerifyFrameDropCount = true <;>
        simp [this, h1, h3, ha, hb, hf]
      omega
    · intro h3
      have : ¬ (toInt32 (p.MaxNumMetadataFrameBuffer * 2) ≤ (p.Samples.Metadata.length : Int)) := by
        omega
      by_cases ha : 0 < In.AncBufferSize <;> by_cases hb : 0 < In.AncF2BufferSize <;>
        simp [this, h1, h3, ha, hb, SamplePool.AcquireShared]
  · rintro ⟨h1, h2⟩
    constructor
    · intro h3
      have : ¬ ((p.Samples.Audio.length : Int) < toInt32 (p.MaxNumAudioFrameBuffer * 2)) := by
        omega
      by_cases hf : p.bVerifyFrameDropCount = true <;> simp [this, h1, h2, h3, hf]
    · intro h3
      have : ¬ (toInt32 (p.MaxNumAudioFrameBuffer * 2) ≤ (p.Samples.Audio.length : Int)) := by
        omega
      simp [this, h1, h2, h3]
  · rintro ⟨h1, h2, h4⟩
    constructor
    · intro h3
      have : ¬ ((p.Samples.Video.length : Int) < toInt32 (p.MaxNumVideoFrameBuffer * 2)) := by
        omega
      by_cases hf : p.bVerifyFrameDropCount = true <;> simp [this, h1, h2, h3, h4, hf]
    · intro h3
      have : ¬ (toInt32 (p.MaxNumVideoFrameBuffer * 2) ≤ (p.Samples.Video.length : Int)) := by
        omega
      simp [this, h1, h2, h3, h4]

/-- C2, the amended statement at a concrete input: with drop logging on, the refused audio
request counts one drop and acquires nothing. -/
theorem C2_OnRequestInputBuffer_decides_each_kind_witness :
    FlagOnPlayer.AjaThreadNewState = EMediaState.Playing ∧
    (OnRequestInputBuffer FlagOnPlayer AudioOnlyRequest
        EmptyResponse).2.1.AjaThreadAutoCirculateAudioFrameDropCount = 0 + 1 ∧
    (OnRequestInputBuffer FlagOnPlayer AudioOnlyRequest EmptyResponse).2.1.AudioSamplePool =
      FlagOnPlayer.AudioSamplePool :=
  have h := (C2_OnRequestInputBuffer_decides_each_kind FlagOnPlayer
    (OnRequestInputBuffer FlagOnPlayer AudioOnlyRequest EmptyResponse).2.1 AudioOnlyRequest
    EmptyResponse (by decide) rfl).2.2.2.1 ⟨by decide, by decide⟩
  ⟨by decide, (h.1 (by decide)).1, (h.1 (by decide)).2.1⟩


/-! ## C3 -/

/-- C3.  `OnRequestInputBuffer` and `OnInputFrameReceived` each return false exactly when the
producer-visible state `AjaThreadNewState` is not Playing and true exactly when it is; when
they return false the whole player (sample queues, the drop counters, the hardware drop
count, the in-construction slots and everything else) and the response record are as they
were before the call. -/
theorem C3_callbacks_reject_unless_playing (p : FAjaMediaPlayer)
    (In : AJARequestInputBufferData) (Out : AJARequestedInputBufferData)
    (Env : FrameEnvironment) (InInputFrame : AJAInputFrameData)
    (InAncillaryFrame : AJAAncillaryFrameData) (InAudioFrame : AJAAudioFrameData)
    (InVideoFrame : AJAVideoFrameData) :
    (((OnRequestInputBuffer p In Out).1 = false ↔ p.AjaThreadNewState ≠ EMediaState.Playing) ∧
      ((OnRequestInputBuffer p In Out).1 = true ↔ p.AjaThreadNewState = EMediaState.Playing) ∧
      ((OnRequestInputBuffer p In Out).1 = false →
        (OnRequestInputBuffer p In Out).2.1 = p ∧ (OnRequestInputBuffer p In Out).2.2 = Out)) ∧
    (((OnInputFrameReceived p Env InInputFrame InAncillaryFrame InAudioFrame InVideoFrame).1 =
          false ↔ p.AjaThreadNewState ≠ EMediaState.Playing) ∧
      ((OnInputFrameReceived p Env InInputFrame InAncillaryFrame InAudioFrame InVideoFrame).1 =
          true ↔ p.AjaThreadNewState = EMediaState.Playing) ∧
      ((OnInputFrameReceived p Env InInputFrame InAncillaryFrame InAudioFrame InVideoFrame).1 =
          false →
        (OnInputFrameReceived p Env InInputFrame InAncillaryFrame InAudioFrame InVideoFrame).2 =
          p)) := by
  unfold OnRequestInputBuffer OnInputFrameReceived
  by_cases h : p.AjaThreadNewState = EMediaState.Playing <;> simp [h]

/-! ## C4 -/

/-- C4, the code at the failing input.  `Open` on a freshly constructed player, with the card
usable and the base class open but the channel failing to initialize, returns true with both
states `Preparing` (not `Error`), no channel held, the port warning logged and the
"connecting" notification sent. -/
theorem C4_Open_after_failed_initialization :
    (Open (FAjaMediaPlayer.Constructed 400000 25) ChannelFailsEnvironment DefaultOptions).map
        (fun r => (r.1, r.2.CurrentState, r.2.AjaThreadNewState, r.2.InputChannel, r.2.Events,
          r.2.Log)) =
      some (true, EMediaState.Preparing, EMediaState.Preparing, none,
        [EMediaEvent.MediaConnecting], [LogLine.PortNotOpened]) := by
  rfl

/-! ## C5 -/

/-- C5.  In `TickInput`, when the pending state is Playing and the authoritative state is any
state other than Playing, the authoritative state becomes Playing and exactly three
notifications are sent, tracks-changed, opened, playback-resumed, in that order; when the
pending state equals the authoritative state, no notification is sent and neither state
changes (the call is the base-class time management when Playing and nothing otherwise). -/
theorem C5_TickInput_adopts_playing (p : FAjaMediaPlayer) :
    (p.AjaThreadNewState = EMediaState.Playing → p.CurrentState ≠ EMediaState.Playing →
      (TickInput p).CurrentState = EMediaState.Playing ∧
      (TickInput p).AjaThreadNewState = EMediaState.Playing ∧
      (TickInput p).Events = p.Events ++
        [EMediaEvent.TracksChanged, EMediaEvent.MediaOpened, EMediaEvent.PlaybackResumed]) ∧
    (p.AjaThreadNewState = p.CurrentState →
      (TickInput p).Events = p.Events ∧
      (TickInput p).CurrentState = p.CurrentState ∧
      (TickInput p).AjaThreadNewState = p.AjaThreadNewState ∧
      (TickInput p = p ∨ TickInput p = TickTimeManagement p)) := by
  constructor
  · intro h1 h2
    have h3 : ¬ (EMediaState.Playing = p.CurrentState) := fun h => h2 h.symm
    simp [TickInput, h1, h3, FAjaMediaPlayer.ReceiveMediaEvent, TickTimeManagement]
  · intro h
    by_cases hp : p.CurrentState = EMediaState.Playing
    · simp [TickInput, h, hp, TickTimeManagement]
    · simp [TickInput, h, hp]

/-- C5 at a concrete player: pending Playing over authoritative Preparing. -/
theorem C5_TickInput_adopts_playing_witness :
    (TickInput PendingPlayingPlayer).CurrentState = EMediaState.Playing ∧
    (TickInput PendingPlayingPlayer).Events =
      [EMediaEvent.MediaConnecting, EMediaEvent.TracksChanged, EMediaEvent.MediaOpened,
        EMediaEvent.PlaybackResumed] :=
  have h := (C5_TickInput_adopts_playing PendingPlayingPlayer).1 (by decide) (by decide)
  ⟨h.1, h.2.2⟩

/-! ## C6 -/

/-- `Close` in closed form. -/
theorem Close_eq (p : FAjaMediaPlayer) :
    Close p =
      { p with
        CurrentState := EMediaState.Closed
        SuperCloseCalls := p.SuperCloseCalls + 1
        AjaThreadNewState := EMediaState.Closed
        InputChannel := none
        AudioSamplePool := p.AudioSamplePool.Reset
        MetadataSamplePool := p.MetadataSamplePool.Reset
        TextureSamplePool := p.TextureSamplePool.Reset
        AjaThreadCurrentAncSample := none
        AjaThreadCurrentAncF2Sample := none
        AjaThreadCurrentAudioSample := none
        AjaThreadCurrentTextureSample := none } := by
  cases p with
  | mk =>
    simp only [Close, SuperClose]
    split_ifs with h
    · rfl
    · simp only [ne_eq, not_not] at h
      subst h
      rfl

/-- C6.  In `TickInput`, when the pending state is Error and the authoritative state is not
Error, exactly one notification, open-failed, is sent and then `Close` runs on the player so
obtained: afterwards the pending state is Closed, the authoritative state is Closed (set by
the base-class close), the three sample pools have been reset, the four in-construction slots
are empty and no channel is held. -/
theorem C6_TickInput_error_closes (p : FAjaMediaPlayer)
    (hPending : p.AjaThreadNewState = EMediaState.Error)
    (hCurrent : p.CurrentState ≠ EMediaState.Error) :
    TickInput p =
      Close ({ p with CurrentState := EMediaState.Error }.ReceiveMediaEvent
        EMediaEvent.MediaOpenFailed) ∧
    (TickInput p).Events = p.Events ++ [EMediaEvent.MediaOpenFailed] ∧
    (TickInput p).AjaThreadNewState = EMediaState.Closed ∧
    (TickInput p).CurrentState = EMediaState.Closed ∧
    (TickInput p).AudioSamplePool = p.AudioSamplePool.Reset ∧
    (TickInput p).MetadataSamplePool = p.MetadataSamplePool.Reset ∧
    (TickInput p).TextureSamplePool = p.TextureSamplePool.Reset ∧
    (TickInput p).AjaThreadCurrentAncSample = none ∧
    (TickInput p).AjaThreadCurrentAncF2Sample = none ∧
    (TickInput p).AjaThreadCurrentAudioSample = none ∧
    (TickInput p).AjaThreadCurrentTextureSample = none ∧
    (TickInput p).InputChannel = none := by
  have h3 : ¬ (EMediaState.Error = p.CurrentState) := fun h => hCurrent h.symm
  have hT : TickInput p =
      Close ({ p with CurrentState := EMediaState.Error }.ReceiveMediaEvent
        EMediaEvent.MediaOpenFailed) := by
    simp [TickInput, hPending, h3, Close_eq]
  rw [hT, Close_eq]
  refine ⟨rfl, ?_, ?_, ?_, ?_, ?_, ?_, ?_, ?_, ?_, ?_, ?_⟩ <;> rfl

/-- C6 at a concrete player: pending Error over authoritative Preparing. -/
theorem C6_TickInput_error_closes_witness :
    PendingErrorPlayer.AjaThreadNewState = EMediaState.Error ∧
    (TickInput PendingErrorPlayer).Events =
      [EMediaEvent.MediaConnecting, EMediaEvent.MediaOpenFailed] ∧
    (TickInput PendingErrorPlayer).AjaThreadNewState = EMediaState.Closed ∧
    (TickInput PendingErrorPlayer).AudioSamplePool = { Created := 1, Tracked := [] } ∧
    (TickInput PendingErrorPlayer).AjaThreadCurrentAudioSample = none :=
  have h := C6_TickInput_error_closes PendingErrorPlayer (by decide) (by decide)
  ⟨by decide, h.2.1, h.2.2.1, h.2.2.2.2.1, h.2.2.2.2.2.2.2.2.2.1⟩


/-! ## The reconciliation pass in closed form -/

/-- With drop logging on, a pass is the trim, then the hardware-count block, then the
per-kind block. -/
theorem VerifyFrameDropCount_flag_on (p : FAjaMediaPlayer)
    (h : p.bVerifyFrameDropCount = true) :
    VerifyFrameDropCount p =
      VerifyFrameDropCount.KindCounts (VerifyFrameDropCount.Trim p).1
        (VerifyFrameDropCount.Trim p).2.1 (VerifyFrameDropCount.Trim p).2.2.1
        (VerifyFrameDropCount.HardwareCount
          { p with Samples := (VerifyFrameDropCount.Trim p).2.2.2 }) := by
  simp [VerifyFrameDropCount, h]

/-- With drop logging off, a pass is the trim alone. -/
theorem VerifyFrameDropCount_flag_off (p : FAjaMediaPlayer)
    (h : p.bVerifyFrameDropCount = false) :
    VerifyFrameDropCount p = { p with Samples := (VerifyFrameDropCount.Trim p).2.2.2 } := by
  simp [VerifyFrameDropCount, h]

/-- The lines the hardware-count block writes. -/
theorem HardwareCount_Log (p : FAjaMediaPlayer) :
    (VerifyFrameDropCount.HardwareCount p).Log = p.Log ++
      (if toUInt32 p.AjaThreadFrameDropCount > p.LastFrameDropCount then
        (if ((p.PreviousFrameDropCount +
              (toUInt32 p.AjaThreadFrameDropCount - p.LastFrameDropCount)) % 4294967296) %
              NumMaxFrameBeforeWarning = 0 then
          [LogLine.LoosingFrames ((p.PreviousFrameDropCount +
              (toUInt32 p.AjaThreadFrameDropCount - p.LastFrameDropCount)) % 4294967296)]
        else [])
      else if p.PreviousFrameDropCount > 0 then [LogLine.LostFrames p.PreviousFrameDropCount]
      else []) := by
  unfold VerifyFrameDropCount.HardwareCount FAjaMediaPlayer.WriteLog
  dsimp only
  split_ifs <;> simp

/-- The lines the per-kind block writes. -/
theorem KindCounts_Log (m a v : Int) (p : FAjaMediaPlayer) :
    (VerifyFrameDropCount.KindCounts m a v p).Log = p.Log ++
      ((if m + p.AjaThreadAutoCirculateMetadataFrameDropCount > 0 then
          [LogLine.LostMetadataFrames (m + p.AjaThreadAutoCirculateMetadataFrameDropCount)]
        else []) ++
       (if a + p.AjaThreadAutoCirculateAudioFrameDropCount > 0 then
          [LogLine.LostAudioFrames (a + p.AjaThreadAutoCirculateAudioFrameDropCount)]
        else []) ++
       (if p.bVerifyFrameDropCount = true ∧
            v + p.AjaThreadAutoCirculateVideoFrameDropCount > 0 then
          [LogLine.LostVideoFrames (v + p.AjaThreadAutoCirculateVideoFrameDropCount)]
        else [])) := by
  unfold VerifyFrameDropCount.KindCounts FAjaMediaPlayer.WriteLog
  dsimp only
  split_ifs <;> simp_all

/-- The log only grows in the hardware-count block, by lines that are not per-kind lines. -/
theorem HardwareCount_Log_lines (p : FAjaMediaPlayer) :
    ∃ extra, (VerifyFrameDropCount.HardwareCount p).Log = p.Log ++ extra ∧
      ∀ l ∈ extra, l.IsKindLoss = false := by
  rw [HardwareCount_Log]
  refine ⟨_, rfl, ?_⟩
  intro l hl
  split_ifs at hl <;> simp at hl <;> subst hl <;> rfl

/-- Lines since a player whose log is a prefix. -/
theorem LogSince_of_append (p q : FAjaMediaPlayer) (extra : List LogLine)
    (h : q.Log = p.Log ++ extra) : LogSince p q = extra := by
  simp [LogSince, h]

/-! ## C7 -/

/-- C7, counterexample.  First: with drop logging off, a frame-received call on a full audio
queue leaves the audio drop counter at 1, and a reconciliation pass leaves it at 1, not 0.
Second: with drop logging on, metadata capacity `-1` and one queued metadata sample, the
second of two immediately consecutive passes still writes a "lost 1 metadata frames" line. -/
theorem C7_counterexample :
    (FlagOffPlayerAfterFrame.bVerifyFrameDropCount = false ∧
      FlagOffPlayerAfterFrame.AjaThreadAutoCirculateAudioFrameDropCount = 1 ∧
      (VerifyFrameDropCount FlagOffPlayerAfterFrame).AjaThreadAutoCirculateAudioFrameDropCount
        = 1) ∧
    (NegativeCapacityPlayer.bVerifyFrameDropCount = true ∧
      LogSince (VerifyFrameDropCount NegativeCapacityPlayer)
        (VerifyFrameDropCount (VerifyFrameDropCount NegativeCapacityPlayer)) =
        [LogLine.LostMetadataFrames 1]) := by
  decide

/-- C7, amended.  With drop logging enabled, a reconciliation pass reads and resets the
per-kind local drop counters: after `VerifyFrameDropCount` the audio, metadata and video local
drop counters are zero; and when no capacity is negative, a second pass run immediately
afterwards trims nothing, finds every counter at zero, leaves it at zero and writes no
per-kind "lost frames" line.  (With drop logging disabled the pass does not touch the
counters.  The frame-level line of the hardware drop count is not a per-kind line and is not
covered here.) -/
theorem C7_VerifyFrameDropCount_resets_local_counters (p : FAjaMediaPlayer)
    (hFlag : p.bVerifyFrameDropCount = true) :
    ((VerifyFrameDropCount p).AjaThreadAutoCirculateAudioFrameDropCount = 0 ∧
      (VerifyFrameDropCount p).AjaThreadAutoCirculateMetadataFrameDropCount = 0 ∧
      (VerifyFrameDropCount p).AjaThreadAutoCirculateVideoFrameDropCount = 0) ∧
    (0 ≤ p.MaxNumMetadataFrameBuffer → 0 ≤ p.MaxNumAudioFrameBuffer →
      0 ≤ p.MaxNumVideoFrameBuffer →
      (VerifyFrameDropCount (VerifyFrameDropCount p)).Samples =
        (VerifyFrameDropCount p).Samples ∧
      (VerifyFrameDropCount (VerifyFrameDropCount p)).AjaThreadAutoCirculateAudioFrameDropCount
        = 0 ∧
      (VerifyFrameDropCount
        (VerifyFrameDropCount p)).AjaThreadAutoCirculateMetadataFrameDropCount = 0 ∧
      (VerifyFrameDropCount (VerifyFrameDropCount p)).AjaThreadAutoCirculateVideoFrameDropCount
        = 0 ∧
      ∀ l ∈ LogSince (VerifyFrameDropCount p) (VerifyFrameDropCount (VerifyFrameDropCount p)),
        l.IsKindLoss = false) := by
  have hq := VerifyFrameDropCount_flag_on p hFlag
  have hk := KindCounts_frame (VerifyFrameDropCount.Trim p).1
    (VerifyFrameDropCount.Trim p).2.1 (VerifyFrameDropCount.Trim p).2.2.1
    (VerifyFrameDropCount.HardwareCount
      { p with Samples := (VerifyFrameDropCount.Trim p).2.2.2 })
  have hh := HardwareCount_frame { p with Samples := (VerifyFrameDropCount.Trim p).2.2.2 }
  rw [← hq] at hk
  obtain ⟨hkS, hkF, hkM, hkA, hkV, hkCm, hkCa, hkCv⟩ := hk
  obtain ⟨hhS, hhF, -, -, -, hhCm, hhCa, hhCv⟩ := hh
  refine ⟨⟨hkA, hkM, hkV⟩, ?_⟩
  intro hm ha hv
  -- the player after the first pass
  have hFlag2 : (VerifyFrameDropCount p).bVerifyFrameDropCount = true := by
    rw [hkF, hhF]; exact hFlag
  have hCm : (VerifyFrameDropCount p).MaxNumMetadataFrameBuffer = p.MaxNumMetadataFrameBuffer := by
    rw [hkCm, hhCm]
  have hCa : (VerifyFrameDropCount p).MaxNumAudioFrameBuffer = p.MaxNumAudioFrameBuffer := by
    rw [hkCa, hhCa]
  have hCv : (VerifyFrameDropCount p).MaxNumVideoFrameBuffer = p.MaxNumVideoFrameBuffer := by
    rw [hkCv, hhCv]
  have hS := VerifyFrameDropCount_Samples p
  rw [Trim_eq] at hS
  dsimp only at hS
  have dm := (drop_overflow p.Samples.Metadata p.MaxNumMetadataFrameBuffer).2
  have da := (drop_overflow p.Samples.Audio p.MaxNumAudioFrameBuffer).2
  have dv := (drop_overflow p.Samples.Video p.MaxNumVideoFrameBuffer).2
  have lm : ((VerifyFrameDropCount p).Samples.Metadata.length : Int) ≤
      (VerifyFrameDropCount p).MaxNumMetadataFrameBuffer := by
    rw [hS, hCm]; dsimp only; omega
  have la : ((VerifyFrameDropCount p).Samples.Audio.length : Int) ≤
      (VerifyFrameDropCount p).MaxNumAudioFrameBuffer := by
    rw [hS, hCa]; dsimp only; omega
  have lv : ((VerifyFrameDropCount p).Samples.Video.length : Int) ≤
      (VerifyFrameDropCount p).MaxNumVideoFrameBuffer := by
    rw [hS, hCv]; dsimp only; omega
  -- the second pass
  have hT := Trim_eq (VerifyFrameDropCount p)
  have zm : max (((VerifyFrameDropCount p).Samples.Metadata.length : Int) -
      (VerifyFrameDropCount p).MaxNumMetadataFrameBuffer) 0 = 0 := by omega
  have za : max (((VerifyFrameDropCount p).Samples.Audio.length : Int) -
      (VerifyFrameDropCount p).MaxNumAudioFrameBuffer) 0 = 0 := by omega
  have zv : max (((VerifyFrameDropCount p).Samples.Video.length : Int) -
      (VerifyFrameDropCount p).MaxNumVideoFrameBuffer) 0 = 0 := by omega
  rw [zm, za, zv] at hT
  simp only [Int.toNat_zero, List.drop_zero] at hT
  have hq2 := VerifyFrameDropCount_flag_on (VerifyFrameDropCount p) hFlag2
  rw [hT] at hq2
  dsimp only at hq2
  have hk2 := KindCounts_frame 0 0 0 (VerifyFrameDropCount.HardwareCount (VerifyFrameDropCount p))
  have hh2 := HardwareCount_frame (VerifyFrameDropCount p)
  have hl2 := KindCounts_Log 0 0 0 (VerifyFrameDropCount.HardwareCount (VerifyFrameDropCount p))
  rw [hh2.2.2.1, hh2.2.2.2.1, hh2.2.2.2.2.1, hkM, hkA, hkV] at hl2
  simp only [add_zero, gt_iff_lt, lt_self_iff_false, and_false, if_false, List.append_nil]
    at hl2
  have hsame : VerifyFrameDropCount (VerifyFrameDropCount p) =
      VerifyFrameDropCount.KindCounts 0 0 0
        (VerifyFrameDropCount.HardwareCount (VerifyFrameDropCount p)) := by
    rw [hq2]
  rw [hsame]
  refine ⟨?_, hk2.2.2.2.1, hk2.2.2.1, hk2.2.2.2.2.1, ?_⟩
  · rw [hk2.1, hh2.1]
  · obtain ⟨extra, hex, hno⟩ := HardwareCount_Log_lines (VerifyFrameDropCount p)
    rw [LogSince_of_append _ _ extra (by rw [hl2, hex])]
    exact hno

/-- C7, the amended statement at a concrete player: drop logging on, audio counter 1 before
the pass. -/
theorem C7_VerifyFrameDropCount_resets_local_counters_witness :
    ({ FlagOffPlayerAfterFrame with bVerifyFrameDropCount := true } :
        FAjaMediaPlayer).AjaThreadAutoCirculateAudioFrameDropCount = 1 ∧
    (VerifyFrameDropCount { FlagOffPlayerAfterFrame with
        bVerifyFrameDropCount := true }).AjaThreadAutoCirculateAudioFrameDropCount = 0 :=
  ⟨by decide,
   (C7_VerifyFrameDropCount_resets_local_counters
      { FlagOffPlayerAfterFrame with bVerifyFrameDropCount := true } (by decide)).1.1⟩


/-! ## What each block of `OnInputFrameReceived` can change -/

/-- A guarded log statement appends its line or nothing. -/
theorem WriteLogIf_eq (p : FAjaMediaPlayer) (c : Bool) (l : LogLine) :
    p.WriteLogIf c l = { p with Log := p.Log ++ (if c then [l] else []) } := by
  cases c <;> simp [FAjaMediaPlayer.WriteLogIf, FAjaMediaPlayer.WriteLog]

/-- The head of `OnInputFrameReceived` writes the hardware drop count, the log and the
previous timecode, nothing else. -/
theorem ReceivedHeader_frame (p : FAjaMediaPlayer) (F : AJAInputFrameData)
    (V : AJAVideoFrameData) :
    ∃ L tc, OnInputFrameReceived.Header p F V =
      { p with AjaThreadFrameDropCount := F.FramesDropped, Log := L,
               AjaThreadPreviousFrameTimecode := tc } := by
  unfold OnInputFrameReceived.Header
  by_cases h : p.bUseFrameTimecode = true
  · rw [if_pos h]
    exact ⟨_, _, by rw [WriteLogIf_eq, WriteLogIf_eq]⟩
  · rw [if_neg h]
    exact ⟨_, _, rfl⟩

/-- The "Anc Field 1" block writes the field-1 slot, the metadata queue, the metadata drop
counter and the metadata pool, nothing else. -/
theorem ReceivedAncField1_frame (T : DecodedFrameTime) (Env : FrameEnvironment)
    (A : AJAAncillaryFrameData) (p : FAjaMediaPlayer) :
    ∃ slot md c pool, OnInputFrameReceived.AncField1 T Env A p =
      { p with AjaThreadCurrentAncSample := slot
               Samples := { p.Samples with Metadata := md }
               AjaThreadAutoCirculateMetadataFrameDropCount := c
               MetadataSamplePool := pool } := by
  unfold OnInputFrameReceived.AncField1
  split_ifs
  · split
    · dsimp only
      split_ifs <;> exact ⟨_, _, _, _, rfl⟩
    · dsimp only
      split_ifs <;> exact ⟨_, _, _, _, rfl⟩
  · exact ⟨_, _, _, _, rfl⟩

/-- The "Anc Field 2" block writes the field-2 slot, the metadata queue, the metadata drop
counter and the metadata pool, nothing else. -/
theorem ReceivedAncField2_frame (T : DecodedFrameTime) (Env : FrameEnvironment)
    (A : AJAAncillaryFrameData) (V : AJAVideoFrameData) (p : FAjaMediaPlayer) :
    ∃ slot md c pool, OnInputFrameReceived.AncField2 T Env A V p =
      { p with AjaThreadCurrentAncF2Sample := slot
               Samples := { p.Samples with Metadata := md }
               AjaThreadAutoCirculateMetadataFrameDropCount := c
               MetadataSamplePool := pool } := by
  unfold OnInputFrameReceived.AncField2
  split_ifs
  · split
    · dsimp only
      split_ifs <;> exact ⟨_, _, _, _, rfl⟩
    · dsimp only
      split_ifs <;> exact ⟨_, _, _, _, rfl⟩
  · exact ⟨_, _, _, _, rfl⟩

/-- The "Audio" block writes the audio slot, the audio queue, the audio drop counter, the
audio pool and the two audio format members, nothing else. -/
theorem ReceivedAudio_frame (T : DecodedFrameTime) (Env : FrameEnvironment)
    (Au : AJAAudioFrameData) (p : FAjaMediaPlayer) :
    ∃ slot au c pool ch sr, OnInputFrameReceived.Audio T Env Au p =
      { p with AjaThreadCurrentAudioSample := slot
               Samples := { p.Samples with Audio := au }
               AjaThreadAutoCirculateAudioFrameDropCount := c
               AudioSamplePool := pool
               AjaThreadAudioChannels := ch
               AjaThreadAudioSampleRate := sr } := by
  unfold OnInputFrameReceived.Audio
  split_ifs
  · split
    · dsimp only
      split_ifs <;> exact ⟨_, _, _, _, _, _, rfl⟩
    · exact ⟨_, _, _, _, _, _, rfl⟩
  · split
    · dsimp only
      split_ifs <;> exact ⟨_, _, _, _, _, _, rfl⟩
    · dsimp only
      split_ifs <;> exact ⟨_, _, _, _, _, _, rfl⟩
  · exact ⟨_, _, _, _, _, _, rfl⟩

/-- Without audio data in the frame the "Audio" block does nothing. -/
theorem ReceivedAudio_no_data (T : DecodedFrameTime) (Env : FrameEnvironment)
    (Au : AJAAudioFrameData) (p : FAjaMediaPlayer) (h : Au.AudioBuffer = none) :
    OnInputFrameReceived.Audio T Env Au p = p := by
  simp [OnInputFrameReceived.Audio, h]

/-- The publishing part of the "Video" block writes the video slot, the video queue, the
video drop counter and the texture pool, nothing else. -/
theorem ReceivedVideoPublish_frame (T : DecodedFrameTime) (Env : FrameEnvironment)
    (V : AJAVideoFrameData) (p : FAjaMediaPlayer) :
    ∃ slot vd c pool, OnInputFrameReceived.VideoPublish T Env V p =
      { p with AjaThreadCurrentTextureSample := slot
               Samples := { p.Samples with Video := vd }
               AjaThreadAutoCirculateVideoFrameDropCount := c
               TextureSamplePool := pool } := by
  unfold OnInputFrameReceived.VideoPublish
  split
  · dsimp only
    split_ifs <;> exact ⟨_, _, _, _, rfl⟩
  · dsimp only
    split_ifs <;> exact ⟨_, _, _, _, rfl⟩

/-- The "Video" block writes the four slots, the video queue, the video drop counter, the
texture pool and the raw-dump members, nothing else. -/
theorem ReceivedVideo_frame (T : DecodedFrameTime) (Env : FrameEnvironment)
    (V : AJAVideoFrameData) (p : FAjaMediaPlayer) :
    ∃ s1 s2 s3 s4 vd c pool n b, OnInputFrameReceived.Video T Env V p =
      { p with AjaThreadCurrentAncSample := s1
               AjaThreadCurrentAncF2Sample := s2
               AjaThreadCurrentAudioSample := s3
               AjaThreadCurrentTextureSample := s4
               Samples := { p.Samples with Video := vd }
               AjaThreadAutoCirculateVideoFrameDropCount := c
               TextureSamplePool := pool
               RawFilesWritten := n
               bAjaWriteOutputRawDataCmdEnable := b } := by
  unfold OnInputFrameReceived.Video
  split_ifs with h1 h2
  · obtain ⟨slot, vd, c, pool, h⟩ := ReceivedVideoPublish_frame T Env V
      { p with RawFilesWritten := p.RawFilesWritten + 1, bAjaWriteOutputRawDataCmdEnable := false }
    dsimp only
    rw [h]
    exact ⟨_, _, _, _, _, _, _, _, _, rfl⟩
  · obtain ⟨slot, vd, c, pool, h⟩ := ReceivedVideoPublish_frame T Env V p
    dsimp only
    rw [h]
    exact ⟨_, _, _, _, _, _, _, _, _, rfl⟩
  · exact ⟨_, _, _, _, _, _, _, _, _, rfl⟩

/-- While playing, `OnInputFrameReceived` is its blocks in sequence. -/
theorem OnInputFrameReceived_playing (p : FAjaMediaPlayer) (Env : FrameEnvironment)
    (F : AJAInputFrameData) (A : AJAAncillaryFrameData) (Au : AJAAudioFrameData)
    (V : AJAVideoFrameData) (h : p.AjaThreadNewState = EMediaState.Playing) :
    OnInputFrameReceived p Env F A Au V =
      (true,
        OnInputFrameReceived.Video (OnInputFrameReceived.Decode p Env) Env V
          (OnInputFrameReceived.Audio (OnInputFrameReceived.Decode p Env) Env Au
            (OnInputFrameReceived.AncField2 (OnInputFrameReceived.Decode p Env) Env A V
              (OnInputFrameReceived.AncField1 (OnInputFrameReceived.Decode p Env) Env A
                (OnInputFrameReceived.Header p F V))))) := by
  simp [OnInputFrameReceived, h]


/-- The lines one pass writes when drop logging is on: the hardware-count line, then one line
for each kind whose overflow plus local drop counter is positive. -/
theorem VerifyFrameDropCount_Log (p : FAjaMediaPlayer) (h : p.bVerifyFrameDropCount = true) :
    (VerifyFrameDropCount p).Log = p.Log ++
      ((if toUInt32 p.AjaThreadFrameDropCount > p.LastFrameDropCount then
          (if ((p.PreviousFrameDropCount +
                (toUInt32 p.AjaThreadFrameDropCount - p.LastFrameDropCount)) % 4294967296) %
                NumMaxFrameBeforeWarning = 0 then
            [LogLine.LoosingFrames ((p.PreviousFrameDropCount +
                (toUInt32 p.AjaThreadFrameDropCount - p.LastFrameDropCount)) % 4294967296)]
          else [])
        else if p.PreviousFrameDropCount > 0 then [LogLine.LostFrames p.PreviousFrameDropCount]
        else []) ++
       ((if max ((p.Samples.Metadata.length : Int) - p.MaxNumMetadataFrameBuffer) 0 +
              p.AjaThreadAutoCirculateMetadataFrameDropCount > 0 then
          [LogLine.LostMetadataFrames
            (max ((p.Samples.Metadata.length : Int) - p.MaxNumMetadataFrameBuffer) 0 +
              p.AjaThreadAutoCirculateMetadataFrameDropCount)]
        else []) ++
       (if max ((p.Samples.Audio.length : Int) - p.MaxNumAudioFrameBuffer) 0 +
              p.AjaThreadAutoCirculateAudioFrameDropCount > 0 then
          [LogLine.LostAudioFrames
            (max ((p.Samples.Audio.length : Int) - p.MaxNumAudioFrameBuffer) 0 +
              p.AjaThreadAutoCirculateAudioFrameDropCount)]
        else []) ++
       (if max ((p.Samples.Video.length : Int) - p.MaxNumVideoFrameBuffer) 0 +
              p.AjaThreadAutoCirculateVideoFrameDropCount > 0 then
          [LogLine.LostVideoFrames
            (max ((p.Samples.Video.length : Int) - p.MaxNumVideoFrameBuffer) 0 +
              p.AjaThreadAutoCirculateVideoFrameDropCount)]
        else []))) := by
  have hh := HardwareCount_frame { p with Samples := (VerifyFrameDropCount.Trim p).2.2.2 }
  rw [VerifyFrameDropCount_flag_on p h, KindCounts_Log, HardwareCount_Log, hh.2.1, hh.2.2.1,
    hh.2.2.2.1, hh.2.2.2.2.1, Trim_eq]
  simp only [h, true_and, List.append_assoc]

/-- A frame-received call without audio data leaves the audio queue, the audio drop counter,
the audio capacity and the drop-logging flag as they were. -/
theorem Received_without_audio (p : FAjaMediaPlayer) (Env : FrameEnvironment)
    (F : AJAInputFrameData) (A : AJAAncillaryFrameData) (Au : AJAAudioFrameData)
    (V : AJAVideoFrameData) (hPlaying : p.AjaThreadNewState = EMediaState.Playing)
    (hNo : Au.AudioBuffer = none) :
    (OnInputFrameReceived p Env F A Au V).2.Samples.Audio = p.Samples.Audio ∧
    (OnInputFrameReceived p Env F A Au V).2.AjaThreadAutoCirculateAudioFrameDropCount =
      p.AjaThreadAutoCirculateAudioFrameDropCount ∧
    (OnInputFrameReceived p Env F A Au V).2.bVerifyFrameDropCount = p.bVerifyFrameDropCount ∧
    (OnInputFrameReceived p Env F A Au V).2.MaxNumAudioFrameBuffer = p.MaxNumAudioFrameBuffer := by
  rw [OnInputFrameReceived_playing p Env F A Au V hPlaying, ReceivedAudio_no_data _ _ _ _ hNo]
  dsimp only
  obtain ⟨s1, s2, s3, s4, vd, c, pool, n, b, hV⟩ := ReceivedVideo_frame
    (OnInputFrameReceived.Decode p Env) Env V
    (OnInputFrameReceived.AncField2 (OnInputFrameReceived.Decode p Env) Env A V
      (OnInputFrameReceived.AncField1 (OnInputFrameReceived.Decode p Env) Env A
        (OnInputFrameReceived.Header p F V)))
  obtain ⟨t2, md2, c2, pool2, h2⟩ := ReceivedAncField2_frame
    (OnInputFrameReceived.Decode p Env) Env A V
    (OnInputFrameReceived.AncField1 (OnInputFrameReceived.Decode p Env) Env A
      (OnInputFrameReceived.Header p F V))
  obtain ⟨t1, md1, c1, pool1, h1⟩ := ReceivedAncField1_frame
    (OnInputFrameReceived.Decode p Env) Env A (OnInputFrameReceived.Header p F V)
  obtain ⟨L, tc, h0⟩ := ReceivedHeader_frame p F V
  rw [hV, h2, h1, h0]
  exact ⟨rfl, rfl, rfl, rfl⟩

/-! ## C8 -/

set_option maxRecDepth 100000 in
/-- C8, the code at the failing input.  Audio capacity 8 (soft cap 16), Playing, audio and
video captured, drop logging on.  Sixteen hardware frames with audio data queue sixteen audio
samples and leave the audio drop counter at 0.  The seventeenth frame delivers audio data like
the sixteen before it: its request-buffer call is refused and counts one drop, and its
frame-received call, finding the data and the queue still at the soft cap, counts a second
one.  The attempt queues nothing (depth stays 16) but leaves the audio drop counter at 2, not
1.  The reconciliation pass that follows leaves the 8 newest samples and the counter at 0,
and its audio line reports 8 + 2 = 10 lost audio frames, not 9. -/
theorem C8_seventeenth_attempt_counts_two :
    AudioScenarioStart.MaxNumAudioFrameBuffer = 8 ∧
    AudioScenarioStart.bVerifyFrameDropCount = true ∧
    AudioScenarioStart.Samples.Audio.length = 0 ∧
    SixteenFramesPlayer.AjaThreadNewState = EMediaState.Playing ∧
    SixteenFramesPlayer.Samples.Audio.length = 16 ∧
    SixteenFramesPlayer.AjaThreadAutoCirculateAudioFrameDropCount = 0 ∧
    DriverAudioFrame.AudioBuffer ≠ none ∧
    SeventeenthRequestPlayer.AjaThreadCurrentAudioSample = none ∧
    SeventeenthRequestPlayer.AjaThreadAutoCirculateAudioFrameDropCount = 1 ∧
    SeventeenFramesPlayer.Samples.Audio = SixteenFramesPlayer.Samples.Audio ∧
    SeventeenFramesPlayer.AjaThreadAutoCirculateAudioFrameDropCount = 2 ∧
    (VerifyFrameDropCount SeventeenFramesPlayer).Samples.Audio =
      SixteenFramesPlayer.Samples.Audio.drop 8 ∧
    (VerifyFrameDropCount SeventeenFramesPlayer).Samples.Audio.length = 8 ∧
    (LogSince SeventeenFramesPlayer (VerifyFrameDropCount SeventeenFramesPlayer)).filter
      LogLine.IsAudioLoss = [LogLine.LostAudioFrames 10] ∧
    (VerifyFrameDropCount
      SeventeenFramesPlayer).AjaThreadAutoCirculateAudioFrameDropCount = 0 := by
  decide


/-! ## C9 -/

/-- C9, the code at the failing input.  Metadata capacity 1 (soft cap 2), ancillary and video
capture on, every frame interlaced with a video buffer (so the in-construction slots are
cleared after every frame).  Frame 1 carries field-1 ancillary data: depth 1.  The request of
frame 2 finds depth 1 < 2 for field 1 and again for field 2 and acquires a sample for each;
the frame is received and both are published: depth 3.  Immediately after the next
`OnRequestInputBuffer` call the metadata depth is 3, above capacity × 2 = 2. -/
theorem C9_metadata_exceeds_soft_cap :
    MetadataScenarioStart.Samples.Metadata.length = 0 ∧
    MetadataScenarioStart.MaxNumMetadataFrameBuffer = 1 ∧
    MetadataScenarioFrame1.Samples.Metadata.length = 1 ∧
    MetadataScenarioFrame1.AjaThreadCurrentAncSample = none ∧
    MetadataScenarioFrame1.AjaThreadCurrentAncF2Sample = none ∧
    (MetadataScenarioRequest2.AjaThreadCurrentAncSample).isSome = true ∧
    (MetadataScenarioRequest2.AjaThreadCurrentAncF2Sample).isSome = true ∧
    MetadataScenarioFrame2.Samples.Metadata.length = 3 ∧
    (OnRequestInputBuffer MetadataScenarioFrame2 BothFieldsRequest EmptyResponse).1 = true ∧
    MetadataScenarioRequest3.Samples.Metadata.length = 3 ∧
    MetadataScenarioRequest3.MaxNumMetadataFrameBuffer * 2 = 2 ∧
    ¬ ((MetadataScenarioRequest3.Samples.Metadata.length : Int) ≤
        MetadataScenarioRequest3.MaxNumMetadataFrameBuffer * 2) := by
  decide


/-! ## Timestamps and the interlaced video path -/

/-- The field-2 timestamp is the field-1 timestamp plus one frame interval, in wall-clock
mode and in time-synchronization mode. -/
theorem Decode_DecodedTimeF2 (p : FAjaMediaPlayer) (Env : FrameEnvironment) :
    (OnInputFrameReceived.Decode p Env).DecodedTimeF2 =
      (OnInputFrameReceived.Decode p Env).DecodedTime + p.VideoFrameInterval := by
  unfold OnInputFrameReceived.Decode
  dsimp only
  split_ifs <;> rfl

/-- The field-1 timestamp: the timecode's timespan in time-synchronization mode with frame
timecode on, the wall clock otherwise. -/
theorem Decode_DecodedTime (p : FAjaMediaPlayer) (Env : FrameEnvironment) :
    (OnInputFrameReceived.Decode p Env).DecodedTime =
      if p.bUseFrameTimecode = true ∧ p.bUseTimeSynchronization = true then
        Env.ConvertedTimespan
      else Env.Now := by
  unfold OnInputFrameReceived.Decode
  dsimp only
  split_ifs <;> simp_all

/-- The two timecodes: absent without frame-timecode mode, otherwise the converted timecode
and the same timecode with the frame number advanced by one. -/
theorem Decode_timecodes (p : FAjaMediaPlayer) (Env : FrameEnvironment) :
    (OnInputFrameReceived.Decode p Env).DecodedTimecode =
        (if p.bUseFrameTimecode = true then some Env.ConvertedTimecode else none) ∧
    (OnInputFrameReceived.Decode p Env).DecodedTimecodeF2 =
        (if p.bUseFrameTimecode = true then
          some { Env.ConvertedTimecode with Frames := Env.ConvertedTimecode.Frames + 1 }
         else none) := by
  unfold OnInputFrameReceived.Decode
  dsimp only
  split_ifs <;> exact ⟨rfl, rfl⟩

/-- The same-call acquisition path for an interlaced picture with room for two samples and
both finalizers accepting: two acquisitions, the even field published first, the odd field
second. -/
theorem VideoPublish_interlaced (T : DecodedFrameTime) (Env : FrameEnvironment)
    (V : AJAVideoFrameData) (p : FAjaMediaPlayer)
    (hSlot : p.AjaThreadCurrentTextureSample = none)
    (hInterlaced : V.bIsProgressivePicture = false)
    (hRoom : (p.Samples.Video.length : Int) + 1 < toInt32 (p.MaxNumVideoFrameBuffer * 2))
    (hEven : Env.bVideoFinalized = true) (hOdd : Env.bVideoOddFinalized = true) :
    OnInputFrameReceived.VideoPublish T Env V p =
      { p with
        TextureSamplePool := p.TextureSamplePool.AcquireShared.2.AcquireShared.2
        Samples := { p.Samples with Video := p.Samples.Video ++
          [{ Handle := p.TextureSamplePool.Created, Time := T.DecodedTime,
             Timecode := T.DecodedTimecode, Layout := ESampleLayout.EvenField,
             Channels := 0, SampleRate := 0 },
           { Handle := p.TextureSamplePool.Created + 1, Time := T.DecodedTimeF2,
             Timecode := T.DecodedTimecodeF2, Layout := ESampleLayout.OddField,
             Channels := 0, SampleRate := 0 }] } } := by
  have hcap : AtSoftCap (p.Samples.NumVideoSamples +
      (if ¬ V.bIsProgressivePicture = true then 1 else 0)) p.MaxNumVideoFrameBuffer = false := by
    rw [AtSoftCap_false_iff, FMediaIOCoreSamples.NumVideoSamples, hInterlaced]
    simpa using hRoom
  unfold OnInputFrameReceived.VideoPublish
  rw [hSlot]
  dsimp only
  rw [hcap, hInterlaced, hEven, hOdd]
  simp [Sample.Finalize, SamplePool.AcquireShared, FMediaIOCoreSamples.AddVideo]


/-- The "Video" block on an interlaced picture with room for two samples, no pre-acquired
sample and both finalizers accepting. -/
theorem ReceivedVideo_interlaced (T : DecodedFrameTime) (Env : FrameEnvironment)
    (V : AJAVideoFrameData) (p : FAjaMediaPlayer)
    (hUse : p.bUseVideo = true) (hBuf : V.VideoBuffer ≠ none)
    (hSlot : p.AjaThreadCurrentTextureSample = none)
    (hInterlaced : V.bIsProgressivePicture = false)
    (hRoom : (p.Samples.Video.length : Int) + 1 < toInt32 (p.MaxNumVideoFrameBuffer * 2))
    (hEven : Env.bVideoFinalized = true) (hOdd : Env.bVideoOddFinalized = true) :
    (OnInputFrameReceived.Video T Env V p).Samples.Video = p.Samples.Video ++
        [{ Handle := p.TextureSamplePool.Created, Time := T.DecodedTime,
           Timecode := T.DecodedTimecode, Layout := ESampleLayout.EvenField,
           Channels := 0, SampleRate := 0 },
         { Handle := p.TextureSamplePool.Created + 1, Time := T.DecodedTimeF2,
           Timecode := T.DecodedTimecodeF2, Layout := ESampleLayout.OddField,
           Channels := 0, SampleRate := 0 }] ∧
    (OnInputFrameReceived.Video T Env V p).AjaThreadCurrentTextureSample = none ∧
    (OnInputFrameReceived.Video T Env V p).AjaThreadAutoCirculateVideoFrameDropCount =
      p.AjaThreadAutoCirculateVideoFrameDropCount ∧
    (OnInputFrameReceived.Video T Env V p).AjaThreadNewState = p.AjaThreadNewState ∧
    (OnInputFrameReceived.Video T Env V p).bUseVideo = p.bUseVideo ∧
    (OnInputFrameReceived.Video T Env V p).MaxNumVideoFrameBuffer = p.MaxNumVideoFrameBuffer := by
  unfold OnInputFrameReceived.Video
  rw [if_pos ⟨hUse, hBuf⟩]
  dsimp only
  by_cases hDump : p.bAjaWriteOutputRawDataCmdEnable = true
  · rw [if_pos hDump, VideoPublish_interlaced T Env V
      { p with RawFilesWritten := p.RawFilesWritten + 1
               bAjaWriteOutputRawDataCmdEnable := false }
      hSlot hInterlaced hRoom hEven hOdd]
    exact ⟨rfl, rfl, rfl, rfl, rfl, rfl⟩
  · rw [if_neg hDump, VideoPublish_interlaced T Env V p hSlot hInterlaced hRoom hEven hOdd]
    exact ⟨rfl, rfl, rfl, rfl, rfl, rfl⟩

/-- The blocks of `OnInputFrameReceived` that run before the "Video" block leave everything
the "Video" block reads or writes as it was. -/
theorem Received_before_video (p : FAjaMediaPlayer) (T : DecodedFrameTime)
    (Env : FrameEnvironment) (F : AJAInputFrameData) (A : AJAAncillaryFrameData)
    (Au : AJAAudioFrameData) (V : AJAVideoFrameData) (X : FAjaMediaPlayer)
    (hX : X = OnInputFrameReceived.Audio T Env Au
      (OnInputFrameReceived.AncField2 T Env A V
        (OnInputFrameReceived.AncField1 T Env A (OnInputFrameReceived.Header p F V)))) :
    X.Samples.Video = p.Samples.Video ∧
    X.AjaThreadCurrentTextureSample = p.AjaThreadCurrentTextureSample ∧
    X.TextureSamplePool = p.TextureSamplePool ∧
    X.AjaThreadAutoCirculateVideoFrameDropCount = p.AjaThreadAutoCirculateVideoFrameDropCount ∧
    X.bUseVideo = p.bUseVideo ∧
    X.MaxNumVideoFrameBuffer = p.MaxNumVideoFrameBuffer ∧
    X.AjaThreadNewState = p.AjaThreadNewState := by
  obtain ⟨s3, au3, c3, pool3, ch, sr, h3⟩ := ReceivedAudio_frame T Env Au
    (OnInputFrameReceived.AncField2 T Env A V
      (OnInputFrameReceived.AncField1 T Env A (OnInputFrameReceived.Header p F V)))
  obtain ⟨t2, md2, c2, pool2, h2⟩ := ReceivedAncField2_frame T Env A V
    (OnInputFrameReceived.AncField1 T Env A (OnInputFrameReceived.Header p F V))
  obtain ⟨t1, md1, c1, pool1, h1⟩ := ReceivedAncField1_frame T Env A
    (OnInputFrameReceived.Header p F V)
  obtain ⟨L, tc, h0⟩ := ReceivedHeader_frame p F V
  rw [hX, h3, h2, h1, h0]
  exact ⟨rfl, rfl, rfl, rfl, rfl, rfl, rfl⟩

/-- A request of a frame that is not progressive leaves the queue, the video slot, the
texture pool, the pending state and the video configuration as they were. -/
theorem Request_interlaced_keeps_video (p : FAjaMediaPlayer) (In : AJARequestInputBufferData)
    (Out : AJARequestedInputBufferData) (hPlaying : p.AjaThreadNewState = EMediaState.Playing)
    (hInterlaced : In.bIsProgressivePicture = false) :
    (OnRequestInputBuffer p In Out).2.1.Samples = p.Samples ∧
    (OnRequestInputBuffer p In Out).2.1.AjaThreadCurrentTextureSample =
      p.AjaThreadCurrentTextureSample ∧
    (OnRequestInputBuffer p In Out).2.1.AjaThreadNewState = p.AjaThreadNewState ∧
    (OnRequestInputBuffer p In Out).2.1.bUseVideo = p.bUseVideo ∧
    (OnRequestInputBuffer p In Out).2.1.MaxNumVideoFrameBuffer = p.MaxNumVideoFrameBuffer := by
  rw [OnRequestInputBuffer_playing p In Out hPlaying]
  simp only [RequestVideo_eq, RequestAudio_eq, RequestAncField2_eq, RequestAncField1_eq]
  simp [hInterlaced]


/-- One interlaced frame received with room for two video samples and no pre-acquired video
sample: the video queue gains the even field and then the odd field. -/
theorem Received_interlaced (p : FAjaMediaPlayer) (Env : FrameEnvironment)
    (F : AJAInputFrameData) (A : AJAAncillaryFrameData) (Au : AJAAudioFrameData)
    (V : AJAVideoFrameData)
    (hPlaying : p.AjaThreadNewState = EMediaState.Playing)
    (hUse : p.bUseVideo = true) (hSlot : p.AjaThreadCurrentTextureSample = none)
    (hBuf : V.VideoBuffer ≠ none) (hInterlaced : V.bIsProgressivePicture = false)
    (hEven : Env.bVideoFinalized = true) (hOdd : Env.bVideoOddFinalized = true)
    (hRoom : (p.Samples.Video.length : Int) + 1 < toInt32 (p.MaxNumVideoFrameBuffer * 2)) :
    (OnInputFrameReceived p Env F A Au V).2.Samples.Video = p.Samples.Video ++
        [{ Handle := p.TextureSamplePool.Created
           Time := (OnInputFrameReceived.Decode p Env).DecodedTime
           Timecode := (OnInputFrameReceived.Decode p Env).DecodedTimecode
           Layout := ESampleLayout.EvenField, Channels := 0, SampleRate := 0 },
         { Handle := p.TextureSamplePool.Created + 1
           Time := (OnInputFrameReceived.Decode p Env).DecodedTimeF2
           Timecode := (OnInputFrameReceived.Decode p Env).DecodedTimecodeF2
           Layout := ESampleLayout.OddField, Channels := 0, SampleRate := 0 }] ∧
    (OnInputFrameReceived p Env F A Au V).2.AjaThreadCurrentTextureSample = none ∧
    (OnInputFrameReceived p Env F A Au V).2.AjaThreadAutoCirculateVideoFrameDropCount =
      p.AjaThreadAutoCirculateVideoFrameDropCount ∧
    (OnInputFrameReceived p Env F A Au V).2.AjaThreadNewState = EMediaState.Playing ∧
    (OnInputFrameReceived p Env F A Au V).2.bUseVideo = true ∧
    (OnInputFrameReceived p Env F A Au V).2.MaxNumVideoFrameBuffer =
      p.MaxNumVideoFrameBuffer := by
  rw [OnInputFrameReceived_playing p Env F A Au V hPlaying]
  dsimp only
  obtain ⟨x1, x2, x3, x4, x5, x6, x7⟩ := Received_before_video p
    (OnInputFrameReceived.Decode p Env) Env F A Au V _ rfl
  have hv := ReceivedVideo_interlaced (OnInputFrameReceived.Decode p Env) Env V _
    (x5.trans hUse) hBuf (x2.trans hSlot) hInterlaced (by rw [x1, x6]; exact hRoom) hEven hOdd
  obtain ⟨v1, v2, v3, v4, v5, v6⟩ := hv
  refine ⟨?_, v2, v3.trans x4, ?_, ?_, v6.trans x6⟩
  · rw [v1, x1, x3]
  · rw [v4, x7, hPlaying]
  · rw [v5, x5, hUse]

/-- One interlaced hardware frame through the per-frame protocol: two more video samples, and
the player is again ready for the next one. -/
theorem DeliverFrame_interlaced (p : FAjaMediaPlayer) (f : HardwareFrame)
    (hPlaying : p.AjaThreadNewState = EMediaState.Playing)
    (hUse : p.bUseVideo = true) (hSlot : p.AjaThreadCurrentTextureSample = none)
    (hReq : f.Request.bIsProgressivePicture = false)
    (hBuf : f.Video.VideoBuffer ≠ none) (hInterlaced : f.Video.bIsProgressivePicture = false)
    (hEven : f.Env.bVideoFinalized = true) (hOdd : f.Env.bVideoOddFinalized = true)
    (hRoom : (p.Samples.Video.length : Int) + 1 < toInt32 (p.MaxNumVideoFrameBuffer * 2)) :
    (DeliverFrame p f).Samples.Video.length = p.Samples.Video.length + 2 ∧
    (DeliverFrame p f).AjaThreadCurrentTextureSample = none ∧
    (DeliverFrame p f).AjaThreadNewState = EMediaState.Playing ∧
    (DeliverFrame p f).bUseVideo = true ∧
    (DeliverFrame p f).MaxNumVideoFrameBuffer = p.MaxNumVideoFrameBuffer := by
  obtain ⟨r1, r2, r3, r4, r5⟩ :=
    Request_interlaced_keeps_video p f.Request EmptyResponse hPlaying hReq
  have h := Received_interlaced (OnRequestInputBuffer p f.Request EmptyResponse).2.1 f.Env
    f.Input f.Ancillary f.Audio f.Video (r3.trans hPlaying) (r4.trans hUse) (r2.trans hSlot)
    hBuf hInterlaced hEven hOdd (by rw [r1, r5]; exact hRoom)
  obtain ⟨h1, h2, -, h4, h5, h6⟩ := h
  unfold DeliverFrame
  refine ⟨?_, h2, h4, h5, h6.trans r5⟩
  rw [h1, r1]
  simp

/-- N interlaced hardware frames in a row, with room for all their samples: exactly 2N more
video samples. -/
theorem DeliverFrames_interlaced (fs : List HardwareFrame) :
    ∀ p : FAjaMediaPlayer,
      p.AjaThreadNewState = EMediaState.Playing → p.bUseVideo = true →
      p.AjaThreadCurrentTextureSample = none →
      (∀ f ∈ fs, f.Request.bIsProgressivePicture = false ∧ f.Video.VideoBuffer ≠ none ∧
        f.Video.bIsProgressivePicture = false ∧ f.Env.bVideoFinalized = true ∧
        f.Env.bVideoOddFinalized = true) →
      (p.Samples.Video.length : Int) + 2 * fs.length ≤ toInt32 (p.MaxNumVideoFrameBuffer * 2) →
      (DeliverFrames p fs).Samples.Video.length = p.Samples.Video.length + 2 * fs.length := by
  induction fs with
  | nil => intro p _ _ _ _ _; rfl
  | cons f rest ih =>
    intro p hPlaying hUse hSlot hAll hRoom
    obtain ⟨a1, a2, a3, a4, a5⟩ := hAll f (List.mem_cons_self f rest)
    have hlen : ((f :: rest).length : Int) = (rest.length : Int) + 1 := by simp
    obtain ⟨d1, d2, d3, d4, d5⟩ := DeliverFrame_interlaced p f hPlaying hUse hSlot a1 a2 a3 a4
      a5 (by omega)
    have hrest := ih (DeliverFrame p f) d3 d4 d2
      (fun g hg => hAll g (List.mem_cons_of_mem f hg))
      (by rw [d1, d5]; push_cast; omega)
    show (DeliverFrames (DeliverFrame p f) rest).Samples.Video.length = _
    rw [hrest, d1, List.length_cons]
    omega

/-! ## C10 -/

/-- C10, counterexample.  Playing, video enabled, frame timecode on, no pre-acquired sample,
video capacity 1 and one video sample queued, so the video queue (depth 1) is below its soft
cap (2).  An interlaced frame with a video buffer arrives and every finalizer accepts: the
call returns true, publishes no video sample, and counts one video drop. -/
theorem C10_one_below_soft_cap_counterexample :
    OneBelowCapPlayer.AjaThreadNewState = EMediaState.Playing ∧
    OneBelowCapPlayer.bUseVideo = true ∧
    (OneBelowCapPlayer.Samples.Video.length : Int) <
      OneBelowCapPlayer.MaxNumVideoFrameBuffer * 2 ∧
    InterlacedVideoFrame.VideoBuffer ≠ none ∧
    InterlacedVideoFrame.bIsProgressivePicture = false ∧
    (OnInputFrameReceived OneBelowCapPlayer AcceptingEnvironment PlainInputFrame
      NoAncillaryFrame NoAudioFrame InterlacedVideoFrame).1 = true ∧
    (OnInputFrameReceived OneBelowCapPlayer AcceptingEnvironment PlainInputFrame
      NoAncillaryFrame NoAudioFrame InterlacedVideoFrame).2.Samples.Video =
      OneBelowCapPlayer.Samples.Video ∧
    (OnInputFrameReceived OneBelowCapPlayer AcceptingEnvironment PlainInputFrame
      NoAncillaryFrame NoAudioFrame
      InterlacedVideoFrame).2.AjaThreadAutoCirculateVideoFrameDropCount = 1 := by
  decide

/-- C10, amended.  For every interlaced hardware frame received while Playing with video
enabled, a non-null video buffer, no pre-acquired video sample in the in-construction slot,
room for two more samples below the soft cap (depth + 1 < capacity × 2), a capacity below
2^30 (so that the `int32` product capacity × 2 is the plain product) and both field
finalizations succeeding, `OnInputFrameReceived` publishes exactly two video samples, the
even field first and the odd field second, from two distinct acquisitions and without
counting a drop.  The second sample's timestamp is the first's plus one frame interval, the
first being the wall clock, or the timecode's timespan in time-synchronization mode; with
frame-timecode mode on the first carries the converted timecode and the second the same
hours, minutes and seconds and the frame number plus 1, and with it off neither carries a
timecode.  Hence N such frames in a row through the per-frame protocol, with room for all of
them (depth + 2N <= capacity × 2), yield exactly 2N more video samples. -/
theorem C10_interlaced_frame_publishes_two_fields (p : FAjaMediaPlayer)
    (hPlaying : p.AjaThreadNewState = EMediaState.Playing)
    (hVideo : p.bUseVideo = true)
    (hSlot : p.AjaThreadCurrentTextureSample = none)
    (hCap : p.MaxNumVideoFrameBuffer < 1073741824) :
    (∀ (q : FAjaMediaPlayer) (Env : FrameEnvironment) (F : AJAInputFrameData)
        (A : AJAAncillaryFrameData) (Au : AJAAudioFrameData) (V : AJAVideoFrameData),
      V.VideoBuffer ≠ none → V.bIsProgressivePicture = false →
      Env.bVideoFinalized = true → Env.bVideoOddFinalized = true →
      (p.Samples.Video.length : Int) + 1 < p.MaxNumVideoFrameBuffer * 2 →
      q = (OnInputFrameReceived p Env F A Au V).2 →
      ∃ Even Odd : Sample,
        q.Samples.Video = p.Samples.Video ++ [Even, Odd] ∧
        Even.Layout = ESampleLayout.EvenField ∧ Odd.Layout = ESampleLayout.OddField ∧
        Even.Handle ≠ Odd.Handle ∧
        Even.Time = (if p.bUseFrameTimecode = true ∧ p.bUseTimeSynchronization = true then
          Env.ConvertedTimespan else Env.Now) ∧
        Odd.Time = Even.Time + p.VideoFrameInterval ∧
        (p.bUseFrameTimecode = true →
          ∃ t1 t2 : FTimecode, Even.Timecode = some t1 ∧ Odd.Timecode = some t2 ∧
            t1 = Env.ConvertedTimecode ∧ t2.Hours = t1.Hours ∧ t2.Minutes = t1.Minutes ∧
            t2.Seconds = t1.Seconds ∧ t2.Frames = t1.Frames + 1) ∧
        (p.bUseFrameTimecode = false → Even.Timecode = none ∧ Odd.Timecode = none) ∧
        q.AjaThreadAutoCirculateVideoFrameDropCount =
          p.AjaThreadAutoCirculateVideoFrameDropCount) ∧
    (∀ fs : List HardwareFrame,
      (∀ f ∈ fs, f.Request.bIsProgressivePicture = false ∧ f.Video.VideoBuffer ≠ none ∧
        f.Video.bIsProgressivePicture = false ∧ f.Env.bVideoFinalized = true ∧
        f.Env.bVideoOddFinalized = true) →
      (p.Samples.Video.length : Int) + 2 * fs.length ≤ p.MaxNumVideoFrameBuffer * 2 →
      (DeliverFrames p fs).Samples.Video.length = p.Samples.Video.length + 2 * fs.length) := by
  constructor
  · intro q Env F A Au V hBuf hInterlaced hEven hOdd hRoom hq
    have hRoom32 : (p.Samples.Video.length : Int) + 1 <
        toInt32 (p.MaxNumVideoFrameBuffer * 2) := by
      rw [toInt32_double _ (by omega) hCap]
      exact hRoom
    obtain ⟨h1, -, h3, -, -, -⟩ := Received_interlaced p Env F A Au V hPlaying hVideo hSlot
      hBuf hInterlaced hEven hOdd hRoom32
    obtain ⟨tc1, tc2⟩ := Decode_timecodes p Env
    refine ⟨_, _, by rw [hq, h1], rfl, rfl, ?_, ?_, ?_, ?_, ?_, by rw [hq, h3]⟩
    · show p.TextureSamplePool.Created ≠ p.TextureSamplePool.Created + 1
      omega
    · exact Decode_DecodedTime p Env
    · exact Decode_DecodedTimeF2 p Env
    · intro hTc
      refine ⟨Env.ConvertedTimecode,
        { Env.ConvertedTimecode with Frames := Env.ConvertedTimecode.Frames + 1 },
        ?_, ?_, rfl, rfl, rfl, rfl, rfl⟩
      · show (OnInputFrameReceived.Decode p Env).DecodedTimecode = _
        rw [tc1, if_pos hTc]
      · show (OnInputFrameReceived.Decode p Env).DecodedTimecodeF2 = _
        rw [tc2, if_pos hTc]
    · intro hTc
      have hne : ¬ (p.bUseFrameTimecode = true) := by simp [hTc]
      constructor
      · show (OnInputFrameReceived.Decode p Env).DecodedTimecode = _
        rw [tc1, if_neg hne]
      · show (OnInputFrameReceived.Decode p Env).DecodedTimecodeF2 = _
        rw [tc2, if_neg hne]
  · intro fs hAll hRoom
    have hRoom32 : (p.Samples.Video.length : Int) + 2 * fs.length ≤
        toInt32 (p.MaxNumVideoFrameBuffer * 2) := by
      rw [toInt32_double _ (by omega) hCap]
      exact hRoom
    exact DeliverFrames_interlaced fs p hPlaying hVideo hSlot hAll hRoom32

/-- C10, the amended statement at a concrete player: one interlaced frame (wall clock 1000,
interval 400000, timecode 01:02:03:04) publishes the even field and then the odd field, and
three such frames from an empty queue at capacity 8 leave six video samples. -/
theorem C10_interlaced_frame_publishes_two_fields_witness :
    InterlacedScenarioStart.AjaThreadNewState = EMediaState.Playing ∧
    InterlacedScenarioStart.Samples.Video.length = 0 ∧
    (OnInputFrameReceived InterlacedScenarioStart AcceptingEnvironment PlainInputFrame
      NoAncillaryFrame NoAudioFrame InterlacedVideoFrame).2.Samples.Video =
      [{ Handle := 0, Time := 1000
         Timecode := some { Hours := 1, Minutes := 2, Seconds := 3, Frames := 4 }
         Layout := ESampleLayout.EvenField, Channels := 0, SampleRate := 0 },
       { Handle := 1, Time := 401000
         Timecode := some { Hours := 1, Minutes := 2, Seconds := 3, Frames := 5 }
         Layout := ESampleLayout.OddField, Channels := 0, SampleRate := 0 }] ∧
    (DeliverFrames InterlacedScenarioStart
      [InterlacedHardwareFrame, InterlacedHardwareFrame,
        InterlacedHardwareFrame]).Samples.Video.length = 0 + 2 * 3 :=
  ⟨by decide, by decide, by decide,
   (C10_interlaced_frame_publishes_two_fields InterlacedScenarioStart (by decide) (by decide)
      (by decide) (by decide)).2
      [InterlacedHardwareFrame, InterlacedHardwareFrame, InterlacedHardwareFrame]
      (by decide) (by decide)⟩


/-! ## The hardware drop count across a pass -/

/-- The remembered count and the running counter after the hardware-count block. -/
theorem HardwareCount_counts (p : FAjaMediaPlayer) :
    (VerifyFrameDropCount.HardwareCount p).LastFrameDropCount =
      toUInt32 p.AjaThreadFrameDropCount ∧
    (VerifyFrameDropCount.HardwareCount p).PreviousFrameDropCount =
      (if toUInt32 p.AjaThreadFrameDropCount > p.LastFrameDropCount then
        (p.PreviousFrameDropCount +
          (toUInt32 p.AjaThreadFrameDropCount - p.LastFrameDropCount)) % 4294967296
       else 0) := by
  unfold VerifyFrameDropCount.HardwareCount FAjaMediaPlayer.WriteLog
  dsimp only
  split_ifs with h1 h2 h3
  · exact ⟨rfl, rfl⟩
  · exact ⟨rfl, rfl⟩
  · exact ⟨rfl, rfl⟩
  · refine ⟨rfl, ?_⟩
    show p.PreviousFrameDropCount = 0
    omega

/-- The per-kind block leaves the hardware count members alone. -/
theorem KindCounts_keeps_counts (m a v : Int) (p : FAjaMediaPlayer) :
    (VerifyFrameDropCount.KindCounts m a v p).LastFrameDropCount = p.LastFrameDropCount ∧
    (VerifyFrameDropCount.KindCounts m a v p).PreviousFrameDropCount =
      p.PreviousFrameDropCount ∧
    (VerifyFrameDropCount.KindCounts m a v p).AjaThreadFrameDropCount =
      p.AjaThreadFrameDropCount := by
  unfold VerifyFrameDropCount.KindCounts FAjaMediaPlayer.WriteLog
  dsimp only
  split_ifs <;> exact ⟨rfl, rfl, rfl⟩

/-- The remembered count and the running counter after a pass with drop logging on. -/
theorem VerifyFrameDropCount_counts (p : FAjaMediaPlayer) (h : p.bVerifyFrameDropCount = true) :
    (VerifyFrameDropCount p).LastFrameDropCount = toUInt32 p.AjaThreadFrameDropCount ∧
    (VerifyFrameDropCount p).PreviousFrameDropCount =
      (if toUInt32 p.AjaThreadFrameDropCount > p.LastFrameDropCount then
        (p.PreviousFrameDropCount +
          (toUInt32 p.AjaThreadFrameDropCount - p.LastFrameDropCount)) % 4294967296
       else 0) ∧
    (VerifyFrameDropCount p).bVerifyFrameDropCount = true ∧
    (VerifyFrameDropCount p).AjaThreadFrameDropCount = p.AjaThreadFrameDropCount := by
  have hk := KindCounts_keeps_counts (VerifyFrameDropCount.Trim p).1
    (VerifyFrameDropCount.Trim p).2.1 (VerifyFrameDropCount.Trim p).2.2.1
    (VerifyFrameDropCount.HardwareCount
      { p with Samples := (VerifyFrameDropCount.Trim p).2.2.2 })
  have hf := KindCounts_frame (VerifyFrameDropCount.Trim p).1
    (VerifyFrameDropCount.Trim p).2.1 (VerifyFrameDropCount.Trim p).2.2.1
    (VerifyFrameDropCount.HardwareCount
      { p with Samples := (VerifyFrameDropCount.Trim p).2.2.2 })
  have hc := HardwareCount_counts { p with Samples := (VerifyFrameDropCount.Trim p).2.2.2 }
  have hh := HardwareCount_frame { p with Samples := (VerifyFrameDropCount.Trim p).2.2.2 }
  have h0 : (VerifyFrameDropCount.HardwareCount
      { p with Samples := (VerifyFrameDropCount.Trim p).2.2.2 }).AjaThreadFrameDropCount =
      p.AjaThreadFrameDropCount := by
    unfold VerifyFrameDropCount.HardwareCount FAjaMediaPlayer.WriteLog
    dsimp only
    split_ifs <;> rfl
  rw [← VerifyFrameDropCount_flag_on p h] at hk hf
  refine ⟨hk.1.trans hc.1, hk.2.1.trans hc.2, ?_, hk.2.2.trans h0⟩
  rw [hf.2.1, hh.2.1]
  exact h

/-- Sorting the lines of one pass by their sort: the list has the shape the pass writes,
with the conditions and numbers left open. -/
theorem pass_lines_filter (c1 c2 c3 cm ca cv : Prop) [Decidable c1] [Decidable c2]
    [Decidable c3] [Decidable cm] [Decidable ca] [Decidable cv] (n k : Nat) (m a v : Int) :
    (((if c1 then (if c2 then [LogLine.LoosingFrames n] else [])
        else if c3 then [LogLine.LostFrames k] else []) ++
      ((if cm then [LogLine.LostMetadataFrames m] else []) ++
       (if ca then [LogLine.LostAudioFrames a] else []) ++
       (if cv then [LogLine.LostVideoFrames v] else []))).filter LogLine.IsLoosingFrames =
        (if c1 ∧ c2 then [LogLine.LoosingFrames n] else [])) ∧
    (((if c1 then (if c2 then [LogLine.LoosingFrames n] else [])
        else if c3 then [LogLine.LostFrames k] else []) ++
      ((if cm then [LogLine.LostMetadataFrames m] else []) ++
       (if ca then [LogLine.LostAudioFrames a] else []) ++
       (if cv then [LogLine.LostVideoFrames v] else []))).filter LogLine.IsLostFrames =
        (if ¬ c1 ∧ c3 then [LogLine.LostFrames k] else [])) ∧
    (((if c1 then (if c2 then [LogLine.LoosingFrames n] else [])
        else if c3 then [LogLine.LostFrames k] else []) ++
      ((if cm then [LogLine.LostMetadataFrames m] else []) ++
       (if ca then [LogLine.LostAudioFrames a] else []) ++
       (if cv then [LogLine.LostVideoFrames v] else []))).filter LogLine.IsMetadataLoss =
        (if cm then [LogLine.LostMetadataFrames m] else [])) ∧
    (((if c1 then (if c2 then [LogLine.LoosingFrames n] else [])
        else if c3 then [LogLine.LostFrames k] else []) ++
      ((if cm then [LogLine.LostMetadataFrames m] else []) ++
       (if ca then [LogLine.LostAudioFrames a] else []) ++
       (if cv then [LogLine.LostVideoFrames v] else []))).filter LogLine.IsAudioLoss =
        (if ca then [LogLine.LostAudioFrames a] else [])) ∧
    (((if c1 then (if c2 then [LogLine.LoosingFrames n] else [])
        else if c3 then [LogLine.LostFrames k] else []) ++
      ((if cm then [LogLine.LostMetadataFrames m] else []) ++
       (if ca then [LogLine.LostAudioFrames a] else []) ++
       (if cv then [LogLine.LostVideoFrames v] else []))).filter LogLine.IsVideoLoss =
        (if cv then [LogLine.LostVideoFrames v] else [])) := by
  by_cases h1 : c1 <;> by_cases h2 : c2 <;> by_cases h3 : c3 <;> by_cases hm : cm <;>
    by_cases ha : ca <;> by_cases hv : cv <;>
    simp [h1, h2, h3, hm, ha, hv, LogLine.IsLoosingFrames, LogLine.IsLostFrames,
      LogLine.IsMetadataLoss, LogLine.IsAudioLoss, LogLine.IsVideoLoss]

/-- The frame-level lines of a pass with drop logging on: the filter for the periodic line
and the filter for the final line. -/
theorem VerifyFrameDropCount_frame_lines (p : FAjaMediaPlayer)
    (h : p.bVerifyFrameDropCount = true) :
    (LogSince p (VerifyFrameDropCount p)).filter LogLine.IsLoosingFrames =
      (if toUInt32 p.AjaThreadFrameDropCount > p.LastFrameDropCount ∧
          ((p.PreviousFrameDropCount +
            (toUInt32 p.AjaThreadFrameDropCount - p.LastFrameDropCount)) % 4294967296) %
            NumMaxFrameBeforeWarning = 0 then
        [LogLine.LoosingFrames ((p.PreviousFrameDropCount +
          (toUInt32 p.AjaThreadFrameDropCount - p.LastFrameDropCount)) % 4294967296)]
       else []) ∧
    (LogSince p (VerifyFrameDropCount p)).filter LogLine.IsLostFrames =
      (if ¬ toUInt32 p.AjaThreadFrameDropCount > p.LastFrameDropCount ∧
          p.PreviousFrameDropCount > 0 then
        [LogLine.LostFrames p.PreviousFrameDropCount]
       else []) := by
  rw [LogSince_of_append p _ _ (VerifyFrameDropCount_Log p h)]
  exact ⟨(pass_lines_filter _ _ _ _ _ _ _ _ _ _ _).1, (pass_lines_filter _ _ _ _ _ _ _ _ _ _ _).2.1⟩

/-- A value converted to `uint32` is below 2^32. -/
theorem toUInt32_lt (x : Int) : toUInt32 x < 4294967296 := by
  unfold toUInt32
  have h1 := Int.emod_lt_of_pos x (by norm_num : (0 : Int) < 4294967296)
  have h2 := Int.emod_nonneg x (by norm_num : (4294967296 : Int) ≠ 0)
  omega

/-! ## C12 -/

/-- C12.  In a reconciliation pass with drop logging enabled: when the hardware drop count
read by the pass is not above the remembered one, a running counter N > 0 gives exactly one
final "lost N frames" line carrying that N and the counter becomes 0, a running counter of 0
gives no such line and stays 0, and no periodic line is written; when the hardware count is
above the remembered one by delta, the running counter becomes its old value plus delta in
its unsigned 32-bit arithmetic, is not reset, and no final line is written; the sum is the
exact one whenever it is below 2^32, which is the case whenever the running counter is not
above the remembered count, a relation that holds at construction and that every pass
preserves.  In both cases the remembered count becomes the value just read. -/
theorem C12_hysteresis_of_the_running_counter (p q : FAjaMediaPlayer)
    (hFlag : p.bVerifyFrameDropCount = true) (hq : q = VerifyFrameDropCount p) :
    (¬ toUInt32 p.AjaThreadFrameDropCount > p.LastFrameDropCount →
      (0 < p.PreviousFrameDropCount →
        (LogSince p q).filter LogLine.IsLostFrames =
          [LogLine.LostFrames p.PreviousFrameDropCount] ∧
        q.PreviousFrameDropCount = 0) ∧
      (p.PreviousFrameDropCount = 0 →
        (LogSince p q).filter LogLine.IsLostFrames = [] ∧ q.PreviousFrameDropCount = 0) ∧
      (LogSince p q).filter LogLine.IsLoosingFrames = []) ∧
    (toUInt32 p.AjaThreadFrameDropCount > p.LastFrameDropCount →
      q.PreviousFrameDropCount =
        (p.PreviousFrameDropCount +
          (toUInt32 p.AjaThreadFrameDropCount - p.LastFrameDropCount)) % 4294967296 ∧
      (p.PreviousFrameDropCount +
          (toUInt32 p.AjaThreadFrameDropCount - p.LastFrameDropCount) < 4294967296 →
        q.PreviousFrameDropCount = p.PreviousFrameDropCount +
          (toUInt32 p.AjaThreadFrameDropCount - p.LastFrameDropCount)) ∧
      (p.PreviousFrameDropCount ≤ p.LastFrameDropCount →
        q.PreviousFrameDropCount = p.PreviousFrameDropCount +
          (toUInt32 p.AjaThreadFrameDropCount - p.LastFrameDropCount)) ∧
      (LogSince p q).filter LogLine.IsLostFrames = []) ∧
    q.LastFrameDropCount = toUInt32 p.AjaThreadFrameDropCount ∧
    (p.PreviousFrameDropCount ≤ p.LastFrameDropCount →
      q.PreviousFrameDropCount ≤ q.LastFrameDropCount) := by
  subst hq
  have hLt := toUInt32_lt p.AjaThreadFrameDropCount
  obtain ⟨cLast, cPrev, -, -⟩ := VerifyFrameDropCount_counts p hFlag
  obtain ⟨lLoosing, lLost⟩ := VerifyFrameDropCount_frame_lines p hFlag
  refine ⟨fun hNot => ⟨fun hPos => ?_, fun hZero => ?_, ?_⟩,
    fun hUp => ⟨?_, fun hSmall => ?_, fun hInv => ?_, ?_⟩, cLast, fun hInv => ?_⟩
  · rw [lLost, cPrev, if_pos ⟨hNot, hPos⟩, if_neg hNot]
    exact ⟨rfl, rfl⟩
  · have hno : ¬ (¬ toUInt32 p.AjaThreadFrameDropCount > p.LastFrameDropCount ∧
        p.PreviousFrameDropCount > 0) := by
      rintro ⟨-, h⟩
      omega
    rw [lLost, cPrev, if_neg hno, if_neg hNot]
    exact ⟨rfl, rfl⟩
  · have hno : ¬ (toUInt32 p.AjaThreadFrameDropCount > p.LastFrameDropCount ∧
        ((p.PreviousFrameDropCount +
          (toUInt32 p.AjaThreadFrameDropCount - p.LastFrameDropCount)) % 4294967296) %
          NumMaxFrameBeforeWarning = 0) := fun h => hNot h.1
    rw [lLoosing, if_neg hno]
  · rw [cPrev, if_pos hUp]
  · rw [cPrev, if_pos hUp]
    exact Nat.mod_eq_of_lt hSmall
  · rw [cPrev, if_pos hUp]
    exact Nat.mod_eq_of_lt (by omega)
  · have hno : ¬ (¬ toUInt32 p.AjaThreadFrameDropCount > p.LastFrameDropCount ∧
        p.PreviousFrameDropCount > 0) := fun h => h.1 hUp
    rw [lLost, if_neg hno]
  · rw [cPrev, cLast]
    by_cases hUp : toUInt32 p.AjaThreadFrameDropCount > p.LastFrameDropCount
    · rw [if_pos hUp, Nat.mod_eq_of_lt (by omega)]
      omega
    · rw [if_neg hUp]
      exact Nat.zero_le _

/-- C12 at a concrete player: hardware count 7 as remembered, 3 frames counted as lost. -/
theorem C12_hysteresis_of_the_running_counter_witness :
    QuietAfterLossPlayer.bVerifyFrameDropCount = true ∧
    (LogSince QuietAfterLossPlayer (VerifyFrameDropCount QuietAfterLossPlayer)).filter
      LogLine.IsLostFrames = [LogLine.LostFrames 3] ∧
    (VerifyFrameDropCount QuietAfterLossPlayer).PreviousFrameDropCount = 0 ∧
    (VerifyFrameDropCount QuietAfterLossPlayer).LastFrameDropCount = 7 :=
  have h := C12_hysteresis_of_the_running_counter QuietAfterLossPlayer
    (VerifyFrameDropCount QuietAfterLossPlayer) (by decide) rfl
  ⟨by decide, ((h.1 (by decide)).1 (by decide)).1, ((h.1 (by decide)).1 (by decide)).2, h.2.2.1⟩

/-! ## C17 -/

/-- `OnRequestInputBuffer` leaves the remembered hardware count, the running counter and the
drop-logging flag alone. -/
theorem OnRequestInputBuffer_keeps_consumer (p : FAjaMediaPlayer)
    (In : AJARequestInputBufferData) (Out : AJARequestedInputBufferData) :
    (OnRequestInputBuffer p In Out).2.1.LastFrameDropCount = p.LastFrameDropCount ∧
    (OnRequestInputBuffer p In Out).2.1.PreviousFrameDropCount = p.PreviousFrameDropCount ∧
    (OnRequestInputBuffer p In Out).2.1.bVerifyFrameDropCount = p.bVerifyFrameDropCount := by
  by_cases h : p.AjaThreadNewState = EMediaState.Playing
  · rw [OnRequestInputBuffer_playing p In Out h]
    simp [RequestVideo_eq, RequestAudio_eq, RequestAncField2_eq, RequestAncField1_eq]
  · simp [OnRequestInputBuffer, h]

/-- `OnInputFrameReceived` leaves the remembered hardware count, the running counter and the
drop-logging flag alone. -/
theorem OnInputFrameReceived_keeps_consumer (p : FAjaMediaPlayer) (Env : FrameEnvironment)
    (F : AJAInputFrameData) (A : AJAAncillaryFrameData) (Au : AJAAudioFrameData)
    (V : AJAVideoFrameData) :
    (OnInputFrameReceived p Env F A Au V).2.LastFrameDropCount = p.LastFrameDropCount ∧
    (OnInputFrameReceived p Env F A Au V).2.PreviousFrameDropCount =
      p.PreviousFrameDropCount ∧
    (OnInputFrameReceived p Env F A Au V).2.bVerifyFrameDropCount =
      p.bVerifyFrameDropCount := by
  by_cases h : p.AjaThreadNewState = EMediaState.Playing
  · rw [OnInputFrameReceived_playing p Env F A Au V h]
    dsimp only
    have hX : (OnInputFrameReceived.Audio (OnInputFrameReceived.Decode p Env) Env Au
        (OnInputFrameReceived.AncField2 (OnInputFrameReceived.Decode p Env) Env A V
          (OnInputFrameReceived.AncField1 (OnInputFrameReceived.Decode p Env) Env A
            (OnInputFrameReceived.Header p F V)))).LastFrameDropCount = p.LastFrameDropCount ∧
      (OnInputFrameReceived.Audio (OnInputFrameReceived.Decode p Env) Env Au
        (OnInputFrameReceived.AncField2 (OnInputFrameReceived.Decode p Env) Env A V
          (OnInputFrameReceived.AncField1 (OnInputFrameReceived.Decode p Env) Env A
            (OnInputFrameReceived.Header p F V)))).PreviousFrameDropCount =
        p.PreviousFrameDropCount ∧
      (OnInputFrameReceived.Audio (OnInputFrameReceived.Decode p Env) Env Au
        (OnInputFrameReceived.AncField2 (OnInputFrameReceived.Decode p Env) Env A V
          (OnInputFrameReceived.AncField1 (OnInputFrameReceived.Decode p Env) Env A
            (OnInputFrameReceived.Header p F V)))).bVerifyFrameDropCount =
        p.bVerifyFrameDropCount := by
      obtain ⟨s5, au3, c3, pool3, ch, sr, h3⟩ := ReceivedAudio_frame
        (OnInputFrameReceived.Decode p Env) Env Au
        (OnInputFrameReceived.AncField2 (OnInputFrameReceived.Decode p Env) Env A V
          (OnInputFrameReceived.AncField1 (OnInputFrameReceived.Decode p Env) Env A
            (OnInputFrameReceived.Header p F V)))
      obtain ⟨t2, md2, c2, pool2, h2⟩ := ReceivedAncField2_frame
        (OnInputFrameReceived.Decode p Env) Env A V
        (OnInputFrameReceived.AncField1 (OnInputFrameReceived.Decode p Env) Env A
          (OnInputFrameReceived.Header p F V))
      obtain ⟨t1, md1, c1, pool1, h1⟩ := ReceivedAncField1_frame
        (OnInputFrameReceived.Decode p Env) Env A (OnInputFrameReceived.Header p F V)
      obtain ⟨L, tc, h0⟩ := ReceivedHeader_frame p F V
      rw [h3, h2, h1, h0]
      exact ⟨rfl, rfl, rfl⟩
    obtain ⟨x1, x2, x3⟩ := hX
    obtain ⟨s1, s2, s3, s4, vd, c, pool, n, b, hV⟩ := ReceivedVideo_frame
      (OnInputFrameReceived.Decode p Env) Env V
      (OnInputFrameReceived.Audio (OnInputFrameReceived.Decode p Env) Env Au
        (OnInputFrameReceived.AncField2 (OnInputFrameReceived.Decode p Env) Env A V
          (OnInputFrameReceived.AncField1 (OnInputFrameReceived.Decode p Env) Env A
            (OnInputFrameReceived.Header p F V))))
    rw [hV]
    exact ⟨x1, x2, x3⟩
  · simp [OnInputFrameReceived, h]

/-- Hardware frames leave the remembered hardware count, the running counter and the
drop-logging flag alone. -/
theorem DeliverFrames_keeps_consumer (fs : List HardwareFrame) :
    ∀ p : FAjaMediaPlayer,
      (DeliverFrames p fs).LastFrameDropCount = p.LastFrameDropCount ∧
      (DeliverFrames p fs).PreviousFrameDropCount = p.PreviousFrameDropCount ∧
      (DeliverFrames p fs).bVerifyFrameDropCount = p.bVerifyFrameDropCount := by
  induction fs with
  | nil => intro p; exact ⟨rfl, rfl, rfl⟩
  | cons f rest ih =>
    intro p
    obtain ⟨a1, a2, a3⟩ := OnRequestInputBuffer_keeps_consumer p f.Request EmptyResponse
    obtain ⟨b1, b2, b3⟩ := OnInputFrameReceived_keeps_consumer
      (OnRequestInputBuffer p f.Request EmptyResponse).2.1 f.Env f.Input f.Ancillary f.Audio
      f.Video
    obtain ⟨c1, c2, c3⟩ := ih (DeliverFrame p f)
    show (DeliverFrames (DeliverFrame p f) rest).LastFrameDropCount = _ ∧
      (DeliverFrames (DeliverFrame p f) rest).PreviousFrameDropCount = _ ∧
      (DeliverFrames (DeliverFrame p f) rest).bVerifyFrameDropCount = _
    unfold DeliverFrame at c1 c2 c3 ⊢
    exact ⟨c1.trans (b1.trans a1), c2.trans (b2.trans a2), c3.trans (b3.trans a3)⟩

/-- The frame-level lines of one pass, whichever sort. -/
theorem pass_lines_filter_frame (c1 c2 c3 cm ca cv : Prop) [Decidable c1] [Decidable c2]
    [Decidable c3] [Decidable cm] [Decidable ca] [Decidable cv] (n k : Nat) (m a v : Int) :
    ((if c1 then (if c2 then [LogLine.LoosingFrames n] else [])
        else if c3 then [LogLine.LostFrames k] else []) ++
      ((if cm then [LogLine.LostMetadataFrames m] else []) ++
       (if ca then [LogLine.LostAudioFrames a] else []) ++
       (if cv then [LogLine.LostVideoFrames v] else []))).filter LogLine.IsFrameLoss =
      (if c1 then (if c2 then [LogLine.LoosingFrames n] else [])
        else if c3 then [LogLine.LostFrames k] else []) := by
  by_cases h1 : c1 <;> by_cases h2 : c2 <;> by_cases h3 : c3 <;> by_cases hm : cm <;>
    by_cases ha : ca <;> by_cases hv : cv <;>
    simp [h1, h2, h3, hm, ha, hv, LogLine.IsFrameLoss]

/-- One tick on which the hardware count read is one above the remembered one: the running
counter goes up by one and the periodic line is written exactly when the new value is a
multiple of fifty. -/
theorem ReconciliationTick_rising (p : FAjaMediaPlayer) (fs : List HardwareFrame) (n : Nat)
    (hFlag : p.bVerifyFrameDropCount = true) (hPrev : p.PreviousFrameDropCount = n)
    (hSmall : n + 1 < 4294967296)
    (hRise : toUInt32 (DeliverFrames p fs).AjaThreadFrameDropCount = p.LastFrameDropCount + 1) :
    (ReconciliationTick p fs).bVerifyFrameDropCount = true ∧
    (ReconciliationTick p fs).PreviousFrameDropCount = n + 1 ∧
    (LogSince (DeliverFrames p fs) (ReconciliationTick p fs)).filter LogLine.IsFrameLoss =
      (if (n + 1) % 50 = 0 then [LogLine.LoosingFrames (n + 1)] else []) := by
  obtain ⟨k1, k2, k3⟩ := DeliverFrames_keeps_consumer fs p
  have hF : (DeliverFrames p fs).bVerifyFrameDropCount = true := k3.trans hFlag
  obtain ⟨-, cPrev, cFlag, -⟩ := VerifyFrameDropCount_counts (DeliverFrames p fs) hF
  have hUp : toUInt32 (DeliverFrames p fs).AjaThreadFrameDropCount >
      (DeliverFrames p fs).LastFrameDropCount := by rw [hRise, k1]; omega
  have hDelta : (DeliverFrames p fs).PreviousFrameDropCount +
      (toUInt32 (DeliverFrames p fs).AjaThreadFrameDropCount -
        (DeliverFrames p fs).LastFrameDropCount) = n + 1 := by
    rw [hRise, k1, k2, hPrev]; omega
  have hMod : (n + 1) % 4294967296 = n + 1 := Nat.mod_eq_of_lt hSmall
  unfold ReconciliationTick
  refine ⟨cFlag, ?_, ?_⟩
  · rw [cPrev, if_pos hUp, hDelta, hMod]
  · rw [LogSince_of_append _ _ _ (VerifyFrameDropCount_Log (DeliverFrames p fs) hF),
      pass_lines_filter_frame, if_pos hUp, hDelta, hMod]
    rfl

/-- A run of ticks on each of which the hardware count rises by one, from a running counter
of n: tick i writes the periodic line exactly when n + i + 1 is a multiple of fifty, and no
final line. -/
theorem FrameLossLines_rising (ticks : List (List HardwareFrame)) :
    ∀ (p : FAjaMediaPlayer) (n : Nat),
      p.bVerifyFrameDropCount = true → p.PreviousFrameDropCount = n →
      n + ticks.length < 4294967296 → HardwareCountRisesByOne p ticks →
      FrameLossLines p ticks = (List.range ticks.length).map
        (fun i => if (n + i + 1) % 50 = 0 then [LogLine.LoosingFrames (n + i + 1)] else []) := by
  induction ticks with
  | nil => intro p n _ _ _ _; rfl
  | cons fs rest ih =>
    intro p n hFlag hPrev hSmall hRise
    have hlen : (fs :: rest).length = rest.length + 1 := rfl
    obtain ⟨t1, t2, t3⟩ := ReconciliationTick_rising p fs n hFlag hPrev (by omega) hRise.1
    have hrest := ih (ReconciliationTick p fs) (n + 1) t1 t2 (by omega) hRise.2
    show _ :: FrameLossLines (ReconciliationTick p fs) rest = _
    rw [hrest, t3, hlen, List.range_succ_eq_map, List.map_cons, List.map_map]
    congr 1
    apply List.map_congr_left
    intro i _
    have e : n + 1 + i + 1 = n + Nat.succ i + 1 := by omega
    simp only [Function.comp, e]


/-! ## C11 -/

/-- C11.  Drop logging enabled and the running lost-frame counter at 0; sixty consecutive
ticks (hardware frames, then one reconciliation pass), the hardware drop count read by each
pass being one above the count remembered from the pass before.  Listing, pass by pass, the
frame-level lines written (the periodic "loosing frames" line and the final "lost frames"
line): passes 1 to 49 write none, pass 50 writes exactly one periodic line, carrying the
accumulated count 50, and passes 51 to 60 write none. -/
theorem C11_one_periodic_warning_in_sixty_passes (p : FAjaMediaPlayer)
    (ticks : List (List HardwareFrame))
    (hFlag : p.bVerifyFrameDropCount = true) (hPrev : p.PreviousFrameDropCount = 0)
    (hLen : ticks.length = 60) (hRise : HardwareCountRisesByOne p ticks) :
    FrameLossLines p ticks =
      List.replicate 49 [] ++ [[LogLine.LoosingFrames 50]] ++ List.replicate 10 [] := by
  rw [FrameLossLines_rising ticks p 0 hFlag hPrev (by omega) hRise, hLen]
  decide

set_option maxRecDepth 100000 in
/-- C11 at a concrete run: a playing player with the hardware count at 0, and sixty ticks of
one frame each, the frame of tick k reporting k dropped frames. -/
theorem C11_one_periodic_warning_in_sixty_passes_witness :
    AudioScenarioStart.PreviousFrameDropCount = 0 ∧
    SixtyRisingTicks.length = 60 ∧
    HardwareCountRisesByOne AudioScenarioStart SixtyRisingTicks ∧
    FrameLossLines AudioScenarioStart SixtyRisingTicks =
      List.replicate 49 [] ++ [[LogLine.LoosingFrames 50]] ++ List.replicate 10 [] :=
  ⟨by decide, by decide, by decide,
   C11_one_periodic_warning_in_sixty_passes AudioScenarioStart SixtyRisingTicks (by decide)
     (by decide) (by decide) (by decide)⟩


/-! ## C13 -/

/-- C13, the code at the failing input.  Audio capture on, video capture off, audio capacity
1.  After the first frame (request, then received with audio data) the call has returned
true and published audio sample 0, yet the audio slot still holds that sample.  The second
frame publishes sample 1.  The request of the third frame is refused (depth 2 at the soft
cap), the slot still holds sample 1, and the frame-received call finalizes and publishes it a
second time: the queue holds samples 0, 1, 1.  `Close` does empty the four slots. -/
theorem C13_slot_survives_and_republishes :
    AudioOnlyStart.bUseVideo = false ∧
    (OnInputFrameReceived
      (OnRequestInputBuffer AudioOnlyStart AudioOnlyRequest EmptyResponse).2.1
      AcceptingEnvironment PlainInputFrame NoAncillaryFrame DriverAudioFrame
      NoVideoFrame).1 = true ∧
    (DeliverFrame AudioOnlyStart AudioOnlyHardwareFrame).Samples.Audio.map Sample.Handle
      = [0] ∧
    (DeliverFrame AudioOnlyStart AudioOnlyHardwareFrame).AjaThreadCurrentAudioSample.map
      Sample.Handle = some 0 ∧
    (DeliverFrames AudioOnlyStart
      [AudioOnlyHardwareFrame, AudioOnlyHardwareFrame]).Samples.Audio.map Sample.Handle
      = [0, 1] ∧
    (DeliverFrames AudioOnlyStart
      [AudioOnlyHardwareFrame, AudioOnlyHardwareFrame,
        AudioOnlyHardwareFrame]).Samples.Audio.map Sample.Handle = [0, 1, 1] ∧
    (Close (DeliverFrame AudioOnlyStart AudioOnlyHardwareFrame)).AjaThreadCurrentAudioSample
      = none := by
  decide

/-! ## C14 -/

set_option maxRecDepth 100000 in
/-- C14, the code at the failing input.  From empty queues and zero counters, seventeen
hardware frames with audio data at audio capacity 8, drop logging on, no consumer tick and no
failed finalization.  Sixteen are queued.  For the seventeenth the request-buffer call is
refused and counts a drop, and the frame-received call, finding the data delivered all the
same, counts a second drop for the same datum: 17 produced, 16 queued, 2 counted.  The video
counter of the same frame is counted twice in the same way. -/
theorem C14_refused_frame_counted_twice :
    AudioScenarioStart.Samples.Audio.length = 0 ∧
    AudioScenarioStart.AjaThreadAutoCirculateAudioFrameDropCount = 0 ∧
    SixteenFramesPlayer.Samples.Audio.length = 16 ∧
    SixteenFramesPlayer.AjaThreadAutoCirculateAudioFrameDropCount = 0 ∧
    SeventeenthRequestPlayer.AjaThreadAutoCirculateAudioFrameDropCount = 1 ∧
    SeventeenFramesPlayer.AjaThreadAutoCirculateAudioFrameDropCount = 2 ∧
    SeventeenFramesPlayer.Samples.Audio.length = 16 ∧
    SeventeenFramesPlayer.AjaThreadAutoCirculateVideoFrameDropCount = 2 ∧
    SeventeenFramesPlayer.Samples.Video.length = 16 ∧
    ¬ ((17 : Int) = SeventeenFramesPlayer.Samples.Audio.length + 0 +
        SeventeenFramesPlayer.AjaThreadAutoCirculateAudioFrameDropCount + 0) := by
  decide

/-! ## C18 -/

/-- C18, the code at the failing input.  Playing, ancillary capture on, metadata queue empty
at capacity 1, both ancillary fields requested on a cleared response record.  The call
acquires sample 0 for field 1 and sample 1 for field 2; the response's field-1 pointer ends
up holding the buffer of the field-2 sample, and the field-2 pointer stays null. -/
theorem C18_field2_buffer_in_field1_pointer :
    (OnRequestInputBuffer MetadataScenarioStart BothFieldsRequest EmptyResponse).1 = true ∧
    (OnRequestInputBuffer MetadataScenarioStart BothFieldsRequest
      EmptyResponse).2.1.AjaThreadCurrentAncSample = some (Sample.Blank 0) ∧
    (OnRequestInputBuffer MetadataScenarioStart BothFieldsRequest
      EmptyResponse).2.1.AjaThreadCurrentAncF2Sample = some (Sample.Blank 1) ∧
    (OnRequestInputBuffer MetadataScenarioStart BothFieldsRequest
      EmptyResponse).2.2.AncBuffer = some (Buffer.Metadata 1) ∧
    (OnRequestInputBuffer MetadataScenarioStart BothFieldsRequest
      EmptyResponse).2.2.AncF2Buffer = none := by
  decide


/-! ## What each block of `OnInputFrameReceived` publishes and counts -/

/-- The "Anc Field 1" block: it is skipped without data or with ancillary capture off, it
publishes nothing when the finalizer refuses, and it counts a drop exactly when it runs with
no pre-acquired sample on a metadata queue at the soft cap. -/
theorem ReceivedAncField1_effect (T : DecodedFrameTime) (Env : FrameEnvironment)
    (A : AJAAncillaryFrameData) (p : FAjaMediaPlayer) :
    ((p.bUseAncillary = false ∨ A.AncBuffer = none) →
      OnInputFrameReceived.AncField1 T Env A p = p) ∧
    (Env.bAncFinalized = false →
      (OnInputFrameReceived.AncField1 T Env A p).Samples = p.Samples) ∧
    (OnInputFrameReceived.AncField1 T Env A p).AjaThreadAutoCirculateMetadataFrameDropCount =
      p.AjaThreadAutoCirculateMetadataFrameDropCount +
        (if p.bUseAncillary = true ∧ A.AncBuffer ≠ none ∧
            p.AjaThreadCurrentAncSample = none ∧
            AtSoftCap p.Samples.NumMetadataSamples p.MaxNumMetadataFrameBuffer = true
         then 1 else 0) := by
  unfold OnInputFrameReceived.AncField1
  by_cases hRun : p.bUseAncillary = true ∧ A.AncBuffer ≠ none
  · rw [if_pos hRun]
    have hskip : ¬ (p.bUseAncillary = false ∨ A.AncBuffer = none) := by
      rintro (h | h)
      · rw [hRun.1] at h; exact absurd h (by decide)
      · exact hRun.2 h
    cases hSlot : p.AjaThreadCurrentAncSample with
    | some x =>
      dsimp only
      refine ⟨fun h => absurd h hskip, fun hFail => ?_, ?_⟩
      · simp [Sample.Finalize, hFail]
      · cases hOk : Env.bAncFinalized <;> simp [Sample.Finalize]
    | none =>
      dsimp only
      by_cases hCap : AtSoftCap p.Samples.NumMetadataSamples p.MaxNumMetadataFrameBuffer = true
      · rw [if_pos hCap]
        refine ⟨fun h => absurd h hskip, fun _ => rfl, ?_⟩
        simp [hRun, hCap]
      · rw [if_neg hCap]
        refine ⟨fun h => absurd h hskip, fun hFail => ?_, ?_⟩
        · simp [Sample.Finalize, hFail]
        · cases hOk : Env.bAncFinalized <;> simp [Sample.Finalize, hCap]
  · rw [if_neg hRun]
    refine ⟨fun _ => rfl, fun _ => rfl, ?_⟩
    have : ¬ (p.bUseAncillary = true ∧ A.AncBuffer ≠ none ∧
        p.AjaThreadCurrentAncSample = none ∧
        AtSoftCap p.Samples.NumMetadataSamples p.MaxNumMetadataFrameBuffer = true) :=
      fun h => hRun ⟨h.1, h.2.1⟩
    rw [if_neg this, add_zero]


/-- The "Anc Field 2" block: it is skipped without data, for a progressive picture or with
ancillary capture off, it publishes nothing when the finalizer refuses, and it counts a drop
exactly when it runs with no pre-acquired sample on a metadata queue at the soft cap. -/
theorem ReceivedAncField2_effect (T : DecodedFrameTime) (Env : FrameEnvironment)
    (A : AJAAncillaryFrameData) (V : AJAVideoFrameData) (p : FAjaMediaPlayer) :
    ((p.bUseAncillary = false ∨ A.AncF2Buffer = none ∨ V.bIsProgressivePicture = true) →
      OnInputFrameReceived.AncField2 T Env A V p = p) ∧
    (Env.bAncF2Finalized = false →
      (OnInputFrameReceived.AncField2 T Env A V p).Samples = p.Samples) ∧
    (OnInputFrameReceived.AncField2 T Env A V p).AjaThreadAutoCirculateMetadataFrameDropCount =
      p.AjaThreadAutoCirculateMetadataFrameDropCount +
        (if p.bUseAncillary = true ∧ A.AncF2Buffer ≠ none ∧
            V.bIsProgressivePicture = false ∧ p.AjaThreadCurrentAncF2Sample = none ∧
            AtSoftCap p.Samples.NumMetadataSamples p.MaxNumMetadataFrameBuffer = true
         then 1 else 0) := by
  unfold OnInputFrameReceived.AncField2
  by_cases hRun : p.bUseAncillary = true ∧ A.AncF2Buffer ≠ none ∧
      ¬ V.bIsProgressivePicture = true
  · rw [if_pos hRun]
    have hInt : V.bIsProgressivePicture = false := by simpa using hRun.2.2
    have hskip : ¬ (p.bUseAncillary = false ∨ A.AncF2Buffer = none ∨
        V.bIsProgressivePicture = true) := by
      rintro (h | h | h)
      · rw [hRun.1] at h; exact absurd h (by decide)
      · exact hRun.2.1 h
      · exact hRun.2.2 h
    cases hSlot : p.AjaThreadCurrentAncF2Sample with
    | some x =>
      dsimp only
      refine ⟨fun h => absurd h hskip, fun hFail => ?_, ?_⟩
      · simp [Sample.Finalize, hFail]
      · cases hOk : Env.bAncF2Finalized <;> simp [Sample.Finalize]
    | none =>
      dsimp only
      by_cases hCap : AtSoftCap p.Samples.NumMetadataSamples p.MaxNumMetadataFrameBuffer = true
      · rw [if_pos hCap]
        refine ⟨fun h => absurd h hskip, fun _ => rfl, ?_⟩
        simp [hRun, hCap, hInt]
      · rw [if_neg hCap]
        refine ⟨fun h => absurd h hskip, fun hFail => ?_, ?_⟩
        · simp [Sample.Finalize, hFail]
        · cases hOk : Env.bAncF2Finalized <;> simp [Sample.Finalize, hCap]
  · rw [if_neg hRun]
    refine ⟨fun _ => rfl, fun _ => rfl, ?_⟩
    have : ¬ (p.bUseAncillary = true ∧ A.AncF2Buffer ≠ none ∧
        V.bIsProgressivePicture = false ∧ p.AjaThreadCurrentAncF2Sample = none ∧
        AtSoftCap p.Samples.NumMetadataSamples p.MaxNumMetadataFrameBuffer = true) :=
      fun h => hRun ⟨h.1, h.2.1, by simp [h.2.2.1]⟩
    rw [if_neg this, add_zero]

/-- The "Audio" block: it is skipped without data or with audio capture off, it publishes
nothing when the finalizer refuses, and it counts a drop exactly when it runs with no
pre-acquired sample on an audio queue at the soft cap. -/
theorem ReceivedAudio_effect (T : DecodedFrameTime) (Env : FrameEnvironment)
    (Au : AJAAudioFrameData) (p : FAjaMediaPlayer) :
    ((p.bUseAudio = false ∨ Au.AudioBuffer = none) →
      OnInputFrameReceived.Audio T Env Au p = p) ∧
    (Env.bAudioFinalized = false →
      (OnInputFrameReceived.Audio T Env Au p).Samples = p.Samples) ∧
    (OnInputFrameReceived.Audio T Env Au p).AjaThreadAutoCirculateAudioFrameDropCount =
      p.AjaThreadAutoCirculateAudioFrameDropCount +
        (if p.bUseAudio = true ∧ Au.AudioBuffer ≠ none ∧
            p.AjaThreadCurrentAudioSample = none ∧
            AtSoftCap p.Samples.NumAudioSamples p.MaxNumAudioFrameBuffer = true
         then 1 else 0) := by
  unfold OnInputFrameReceived.Audio
  by_cases hRun : p.bUseAudio = true ∧ Au.AudioBuffer ≠ none
  · rw [if_pos hRun]
    have hskip : ¬ (p.bUseAudio = false ∨ Au.AudioBuffer = none) := by
      rintro (h | h)
      · rw [hRun.1] at h; exact absurd h (by decide)
      · exact hRun.2 h
    cases hSlot : p.AjaThreadCurrentAudioSample with
    | some x =>
      dsimp only
      refine ⟨fun h => absurd h hskip, fun hFail => ?_, ?_⟩
      · simp [Sample.FinalizeAudio, hFail]
      · cases hOk : Env.bAudioFinalized <;> simp [Sample.FinalizeAudio]
    | none =>
      dsimp only
      by_cases hCap : AtSoftCap p.Samples.NumAudioSamples p.MaxNumAudioFrameBuffer = true
      · rw [if_pos hCap]
        refine ⟨fun h => absurd h hskip, fun _ => rfl, ?_⟩
        simp [hRun, hCap]
      · rw [if_neg hCap]
        refine ⟨fun h => absurd h hskip, fun hFail => ?_, ?_⟩
        · simp [Sample.FinalizeAudio, hFail]
        · cases hOk : Env.bAudioFinalized <;> simp [Sample.FinalizeAudio, hCap]
  · rw [if_neg hRun]
    refine ⟨fun _ => rfl, fun _ => rfl, ?_⟩
    have : ¬ (p.bUseAudio = true ∧ Au.AudioBuffer ≠ none ∧
        p.AjaThreadCurrentAudioSample = none ∧
        AtSoftCap p.Samples.NumAudioSamples p.MaxNumAudioFrameBuffer = true) :=
      fun h => hRun ⟨h.1, h.2.1⟩
    rw [if_neg this, add_zero]

/-- The publishing part of the "Video" block: it counts a drop exactly when no sample is
pre-acquired and the video queue, with one added for an interlaced picture, is at the soft
cap; a refused full picture or pre-acquired sample, or two refused fields, publish nothing;
and on the same-call path of an interlaced picture each field is published exactly when its
own finalizer accepts, the even field before the odd one. -/
theorem ReceivedVideoPublish_effect (T : DecodedFrameTime) (Env : FrameEnvironment)
    (V : AJAVideoFrameData) (p : FAjaMediaPlayer) :
    (Env.bVideoFinalized = false →
      (V.bIsProgressivePicture = true ∨ p.AjaThreadCurrentTextureSample ≠ none ∨
        Env.bVideoOddFinalized = false) →
      (OnInputFrameReceived.VideoPublish T Env V p).Samples = p.Samples) ∧
    (OnInputFrameReceived.VideoPublish T Env V p).AjaThreadAutoCirculateVideoFrameDropCount =
      p.AjaThreadAutoCirculateVideoFrameDropCount +
        (if p.AjaThreadCurrentTextureSample = none ∧
            AtSoftCap (p.Samples.NumVideoSamples +
              (if ¬ V.bIsProgressivePicture = true then 1 else 0))
              p.MaxNumVideoFrameBuffer = true
         then 1 else 0) ∧
    (p.AjaThreadCurrentTextureSample = none → V.bIsProgressivePicture = false →
      AtSoftCap (p.Samples.NumVideoSamples + 1) p.MaxNumVideoFrameBuffer = false →
      (OnInputFrameReceived.VideoPublish T Env V p).Samples.Video = p.Samples.Video ++
        ((if Env.bVideoFinalized = true then
            [{ Handle := p.TextureSamplePool.Created, Time := T.DecodedTime,
               Timecode := T.DecodedTimecode, Layout := ESampleLayout.EvenField,
               Channels := 0, SampleRate := 0 }]
          else []) ++
         (if Env.bVideoOddFinalized = true then
            [{ Handle := p.TextureSamplePool.Created + 1, Time := T.DecodedTimeF2,
               Timecode := T.DecodedTimecodeF2, Layout := ESampleLayout.OddField,
               Channels := 0, SampleRate := 0 }]
          else []))) := by
  obtain ⟨vb, vp⟩ := V
  unfold OnInputFrameReceived.VideoPublish
  cases vp with
  | true =>
    cases hSlot : p.AjaThreadCurrentTextureSample with
    | some x =>
      refine ⟨fun hFail _ => ?_, ?_, fun h => absurd h (by simp)⟩
      · simp [Sample.Finalize, hFail]
      · cases hOk : Env.bVideoFinalized <;> simp [Sample.Finalize]
    | none =>
      by_cases hCap : AtSoftCap p.Samples.NumVideoSamples p.MaxNumVideoFrameBuffer = true
      · refine ⟨fun _ _ => ?_, ?_, fun _ hInt _ => absurd hInt (by simp)⟩
        · simp [hCap]
        · simp [hCap]
      · refine ⟨fun hFail _ => ?_, ?_, fun _ hInt _ => absurd hInt (by simp)⟩
        · simp [Sample.Finalize, hFail, hCap]
        · cases hOk : Env.bVideoFinalized <;> simp [Sample.Finalize, hCap]
  | false =>
    cases hSlot : p.AjaThreadCurrentTextureSample with
    | some x =>
      refine ⟨fun hFail _ => ?_, ?_, fun h => absurd h (by simp)⟩
      · simp [Sample.Finalize, hFail]
      · cases hOk : Env.bVideoFinalized <;> simp [Sample.Finalize]
    | none =>
      by_cases hCap : AtSoftCap (p.Samples.NumVideoSamples + 1) p.MaxNumVideoFrameBuffer = true
      · refine ⟨fun _ _ => ?_, ?_, fun _ _ hRoom => ?_⟩
        · simp [hCap]
        · simp [hCap]
        · rw [hRoom] at hCap
          exact absurd hCap (by decide)
      · refine ⟨fun hFail hOr => ?_, ?_, fun _ _ _ => ?_⟩
        · have hOdd : Env.bVideoOddFinalized = false := by
            rcases hOr with h | h | h
            · exact absurd h (by simp)
            · exact absurd rfl h
            · exact h
          simp [Sample.Finalize, hFail, hOdd, hCap]
        · cases hOk : Env.bVideoFinalized <;> cases hOk2 : Env.bVideoOddFinalized <;>
            simp [Sample.Finalize, hCap]
        · cases hOk : Env.bVideoFinalized <;> cases hOk2 : Env.bVideoOddFinalized <;>
            simp [Sample.Finalize, SamplePool.AcquireShared, FMediaIOCoreSamples.AddVideo,
              hCap]

/-- The "Video" block: it is skipped without data or with video capture off; otherwise it
publishes and counts as its publishing part does. -/
theorem ReceivedVideo_effect (T : DecodedFrameTime) (Env : FrameEnvironment)
    (V : AJAVideoFrameData) (p : FAjaMediaPlayer) :
    ((p.bUseVideo = false ∨ V.VideoBuffer = none) →
      OnInputFrameReceived.Video T Env V p = p) ∧
    (Env.bVideoFinalized = false →
      (V.bIsProgressivePicture = true ∨ p.AjaThreadCurrentTextureSample ≠ none ∨
        Env.bVideoOddFinalized = false) →
      (OnInputFrameReceived.Video T Env V p).Samples = p.Samples) ∧
    (OnInputFrameReceived.Video T Env V p).AjaThreadAutoCirculateVideoFrameDropCount =
      p.AjaThreadAutoCirculateVideoFrameDropCount +
        (if p.bUseVideo = true ∧ V.VideoBuffer ≠ none ∧
            p.AjaThreadCurrentTextureSample = none ∧
            AtSoftCap (p.Samples.NumVideoSamples +
              (if ¬ V.bIsProgressivePicture = true then 1 else 0))
              p.MaxNumVideoFrameBuffer = true
         then 1 else 0) ∧
    (p.bUseVideo = true → V.VideoBuffer ≠ none →
      p.AjaThreadCurrentTextureSample = none → V.bIsProgressivePicture = false →
      AtSoftCap (p.Samples.NumVideoSamples + 1) p.MaxNumVideoFrameBuffer = false →
      (OnInputFrameReceived.Video T Env V p).Samples.Video = p.Samples.Video ++
        ((if Env.bVideoFinalized = true then
            [{ Handle := p.TextureSamplePool.Created, Time := T.DecodedTime,
               Timecode := T.DecodedTimecode, Layout := ESampleLayout.EvenField,
               Channels := 0, SampleRate := 0 }]
          else []) ++
         (if Env.bVideoOddFinalized = true then
            [{ Handle := p.TextureSamplePool.Created + 1, Time := T.DecodedTimeF2,
               Timecode := T.DecodedTimecodeF2, Layout := ESampleLayout.OddField,
               Channels := 0, SampleRate := 0 }]
          else []))) := by
  unfold OnInputFrameReceived.Video
  by_cases hRun : p.bUseVideo = true ∧ V.VideoBuffer ≠ none
  · rw [if_pos hRun]
    have hskip : ¬ (p.bUseVideo = false ∨ V.VideoBuffer = none) := by
      rintro (h | h)
      · rw [hRun.1] at h; exact absurd h (by decide)
      · exact hRun.2 h
    dsimp only
    by_cases hDump : p.bAjaWriteOutputRawDataCmdEnable = true
    · rw [if_pos hDump]
      obtain ⟨e1, e2, e3⟩ := ReceivedVideoPublish_effect T Env V
        { p with RawFilesWritten := p.RawFilesWritten + 1
                 bAjaWriteOutputRawDataCmdEnable := false }
      refine ⟨fun h => absurd h hskip, e1, ?_, fun _ _ => e3⟩
      refine e2.trans ?_
      by_cases hc : p.AjaThreadCurrentTextureSample = none ∧
          AtSoftCap (p.Samples.NumVideoSamples +
            (if ¬ V.bIsProgressivePicture = true then 1 else 0))
            p.MaxNumVideoFrameBuffer = true
      · rw [if_pos hc, if_pos ⟨hRun.1, hRun.2, hc.1, hc.2⟩]
      · rw [if_neg hc, if_neg (fun h => hc ⟨h.2.2.1, h.2.2.2⟩)]
    · rw [if_neg hDump]
      obtain ⟨e1, e2, e3⟩ := ReceivedVideoPublish_effect T Env V p
      refine ⟨fun h => absurd h hskip, e1, ?_, fun _ _ => e3⟩
      refine e2.trans ?_
      by_cases hc : p.AjaThreadCurrentTextureSample = none ∧
          AtSoftCap (p.Samples.NumVideoSamples +
            (if ¬ V.bIsProgressivePicture = true then 1 else 0))
            p.MaxNumVideoFrameBuffer = true
      · rw [if_pos hc, if_pos ⟨hRun.1, hRun.2, hc.1, hc.2⟩]
      · rw [if_neg hc, if_neg (fun h => hc ⟨h.2.2.1, h.2.2.2⟩)]
  · rw [if_neg hRun]
    refine ⟨fun _ => rfl, fun _ _ => rfl, ?_, fun h1 h2 => absurd ⟨h1, h2⟩ hRun⟩
    rw [if_neg (fun h => hRun ⟨h.1, h.2.1⟩), add_zero]

/-- The head of `OnInputFrameReceived` leaves queues, drop counters, capture flags, slots,
pools and capacities as they were. -/
theorem ReceivedHeader_keeps (p : FAjaMediaPlayer) (F : AJAInputFrameData)
    (V : AJAVideoFrameData) :
    (OnInputFrameReceived.Header p F V).Samples = p.Samples ∧
    (OnInputFrameReceived.Header p F V).AjaThreadAutoCirculateMetadataFrameDropCount =
      p.AjaThreadAutoCirculateMetadataFrameDropCount ∧
    (OnInputFrameReceived.Header p F V).bUseAncillary = p.bUseAncillary ∧
    (OnInputFrameReceived.Header p F V).AjaThreadCurrentAncSample =
      p.AjaThreadCurrentAncSample ∧
    (OnInputFrameReceived.Header p F V).AjaThreadCurrentAncF2Sample =
      p.AjaThreadCurrentAncF2Sample ∧
    (OnInputFrameReceived.Header p F V).MaxNumMetadataFrameBuffer =
      p.MaxNumMetadataFrameBuffer ∧
    (OnInputFrameReceived.Header p F V).MetadataSamplePool = p.MetadataSamplePool := by
  obtain ⟨L, tc, h0⟩ := ReceivedHeader_frame p F V
  rw [h0]
  exact ⟨rfl, rfl, rfl, rfl, rfl, rfl, rfl⟩

/-- The "Anc Field 1" block leaves the ancillary capture flag, the field-2 slot and the
metadata capacity as they were. -/
theorem ReceivedAncField1_keeps (T : DecodedFrameTime) (Env : FrameEnvironment)
    (A : AJAAncillaryFrameData) (p : FAjaMediaPlayer) :
    (OnInputFrameReceived.AncField1 T Env A p).bUseAncillary = p.bUseAncillary ∧
    (OnInputFrameReceived.AncField1 T Env A p).AjaThreadCurrentAncF2Sample =
      p.AjaThreadCurrentAncF2Sample ∧
    (OnInputFrameReceived.AncField1 T Env A p).MaxNumMetadataFrameBuffer =
      p.MaxNumMetadataFrameBuffer := by
  obtain ⟨t1, md1, c1, pool1, h1⟩ := ReceivedAncField1_frame T Env A p
  rw [h1]
  exact ⟨rfl, rfl, rfl⟩

/-- The blocks of `OnInputFrameReceived` that run before the "Audio" block leave everything
the "Audio" block reads or writes as it was. -/
theorem Received_before_audio (p : FAjaMediaPlayer) (T : DecodedFrameTime)
    (Env : FrameEnvironment) (F : AJAInputFrameData) (A : AJAAncillaryFrameData)
    (V : AJAVideoFrameData) (X : FAjaMediaPlayer)
    (hX : X = OnInputFrameReceived.AncField2 T Env A V
      (OnInputFrameReceived.AncField1 T Env A (OnInputFrameReceived.Header p F V))) :
    X.Samples.Audio = p.Samples.Audio ∧
    X.AjaThreadCurrentAudioSample = p.AjaThreadCurrentAudioSample ∧
    X.AjaThreadAutoCirculateAudioFrameDropCount = p.AjaThreadAutoCirculateAudioFrameDropCount ∧
    X.bUseAudio = p.bUseAudio ∧
    X.MaxNumAudioFrameBuffer = p.MaxNumAudioFrameBuffer := by
  obtain ⟨t2, md2, c2, pool2, h2⟩ := ReceivedAncField2_frame T Env A V
    (OnInputFrameReceived.AncField1 T Env A (OnInputFrameReceived.Header p F V))
  obtain ⟨t1, md1, c1, pool1, h1⟩ := ReceivedAncField1_frame T Env A
    (OnInputFrameReceived.Header p F V)
  obtain ⟨L, tc, h0⟩ := ReceivedHeader_frame p F V
  rw [hX, h2, h1, h0]
  exact ⟨rfl, rfl, rfl, rfl, rfl⟩

/-- The "Audio" block leaves the metadata queue and counter as they were. -/
theorem ReceivedAudio_keeps_metadata (T : DecodedFrameTime) (Env : FrameEnvironment)
    (Au : AJAAudioFrameData) (p : FAjaMediaPlayer) :
    (OnInputFrameReceived.Audio T Env Au p).Samples.Metadata = p.Samples.Metadata ∧
    (OnInputFrameReceived.Audio T Env Au p).AjaThreadAutoCirculateMetadataFrameDropCount =
      p.AjaThreadAutoCirculateMetadataFrameDropCount := by
  obtain ⟨s, au, c, pool, ch, sr, h⟩ := ReceivedAudio_frame T Env Au p
  rw [h]
  exact ⟨rfl, rfl⟩

/-- The "Video" block leaves the metadata and audio queues and counters as they were. -/
theorem ReceivedVideo_keeps_others (T : DecodedFrameTime) (Env : FrameEnvironment)
    (V : AJAVideoFrameData) (p : FAjaMediaPlayer) :
    (OnInputFrameReceived.Video T Env V p).Samples.Metadata = p.Samples.Metadata ∧
    (OnInputFrameReceived.Video T Env V p).AjaThreadAutoCirculateMetadataFrameDropCount =
      p.AjaThreadAutoCirculateMetadataFrameDropCount ∧
    (OnInputFrameReceived.Video T Env V p).Samples.Audio = p.Samples.Audio ∧
    (OnInputFrameReceived.Video T Env V p).AjaThreadAutoCirculateAudioFrameDropCount =
      p.AjaThreadAutoCirculateAudioFrameDropCount := by
  obtain ⟨s1, s2, s3, s4, vd, c, pool, n, b, h⟩ := ReceivedVideo_frame T Env V p
  rw [h]
  exact ⟨rfl, rfl, rfl, rfl⟩


/-! ## One frame-received call, kind by kind -/

/-- The audio queue and counter after one frame-received call. -/
theorem Received_audio (p : FAjaMediaPlayer) (Env : FrameEnvironment)
    (F : AJAInputFrameData) (A : AJAAncillaryFrameData) (Au : AJAAudioFrameData)
    (V : AJAVideoFrameData) (hPlaying : p.AjaThreadNewState = EMediaState.Playing) :
    ((p.bUseAudio = false ∨ Au.AudioBuffer = none) →
      (OnInputFrameReceived p Env F A Au V).2.Samples.Audio = p.Samples.Audio) ∧
    (Env.bAudioFinalized = false →
      (OnInputFrameReceived p Env F A Au V).2.Samples.Audio = p.Samples.Audio) ∧
    (OnInputFrameReceived p Env F A Au V).2.AjaThreadAutoCirculateAudioFrameDropCount =
      p.AjaThreadAutoCirculateAudioFrameDropCount +
        (if p.bUseAudio = true ∧ Au.AudioBuffer ≠ none ∧
            p.AjaThreadCurrentAudioSample = none ∧
            AtSoftCap p.Samples.NumAudioSamples p.MaxNumAudioFrameBuffer = true
         then 1 else 0) := by
  rw [OnInputFrameReceived_playing p Env F A Au V hPlaying]
  dsimp only
  obtain ⟨a1, a2, a3, a4, a5⟩ := Received_before_audio p (OnInputFrameReceived.Decode p Env)
    Env F A V _ rfl
  obtain ⟨-, -, v3, v4⟩ := ReceivedVideo_keeps_others (OnInputFrameReceived.Decode p Env) Env V
    (OnInputFrameReceived.Audio (OnInputFrameReceived.Decode p Env) Env Au
      (OnInputFrameReceived.AncField2 (OnInputFrameReceived.Decode p Env) Env A V
        (OnInputFrameReceived.AncField1 (OnInputFrameReceived.Decode p Env) Env A
          (OnInputFrameReceived.Header p F V))))
  obtain ⟨e1, e2, e3⟩ := ReceivedAudio_effect (OnInputFrameReceived.Decode p Env) Env Au
    (OnInputFrameReceived.AncField2 (OnInputFrameReceived.Decode p Env) Env A V
      (OnInputFrameReceived.AncField1 (OnInputFrameReceived.Decode p Env) Env A
        (OnInputFrameReceived.Header p F V)))
  refine ⟨fun hSkip => ?_, fun hFail => ?_, ?_⟩
  · rw [v3, e1 (by rw [a4]; exact hSkip), a1]
  · rw [v3, e2 hFail, a1]
  · rw [v4, e3, a3, a4, a2, a5, FMediaIOCoreSamples.NumAudioSamples, a1]
    rfl

/-- The video queue and counter after one frame-received call. -/
theorem Received_video (p : FAjaMediaPlayer) (Env : FrameEnvironment)
    (F : AJAInputFrameData) (A : AJAAncillaryFrameData) (Au : AJAAudioFrameData)
    (V : AJAVideoFrameData) (hPlaying : p.AjaThreadNewState = EMediaState.Playing) :
    ((p.bUseVideo = false ∨ V.VideoBuffer = none) →
      (OnInputFrameReceived p Env F A Au V).2.Samples.Video = p.Samples.Video) ∧
    (Env.bVideoFinalized = false →
      (V.bIsProgressivePicture = true ∨ p.AjaThreadCurrentTextureSample ≠ none ∨
        Env.bVideoOddFinalized = false) →
      (OnInputFrameReceived p Env F A Au V).2.Samples.Video = p.Samples.Video) ∧
    (OnInputFrameReceived p Env F A Au V).2.AjaThreadAutoCirculateVideoFrameDropCount =
      p.AjaThreadAutoCirculateVideoFrameDropCount +
        (if p.bUseVideo = true ∧ V.VideoBuffer ≠ none ∧
            p.AjaThreadCurrentTextureSample = none ∧
            AtSoftCap (p.Samples.NumVideoSamples +
              (if ¬ V.bIsProgressivePicture = true then 1 else 0))
              p.MaxNumVideoFrameBuffer = true
         then 1 else 0) ∧
    (p.bUseVideo = true → V.VideoBuffer ≠ none →
      p.AjaThreadCurrentTextureSample = none → V.bIsProgressivePicture = false →
      AtSoftCap (p.Samples.NumVideoSamples + 1) p.MaxNumVideoFrameBuffer = false →
      (OnInputFrameReceived p Env F A Au V).2.Samples.Video = p.Samples.Video ++
        ((if Env.bVideoFinalized = true then
            [{ Handle := p.TextureSamplePool.Created
               Time := (OnInputFrameReceived.Decode p Env).DecodedTime
               Timecode := (OnInputFrameReceived.Decode p Env).DecodedTimecode
               Layout := ESampleLayout.EvenField, Channels := 0, SampleRate := 0 }]
          else []) ++
         (if Env.bVideoOddFinalized = true then
            [{ Handle := p.TextureSamplePool.Created + 1
               Time := (OnInputFrameReceived.Decode p Env).DecodedTimeF2
               Timecode := (OnInputFrameReceived.Decode p Env).DecodedTimecodeF2
               Layout := ESampleLayout.OddField, Channels := 0, SampleRate := 0 }]
          else []))) := by
  rw [OnInputFrameReceived_playing p Env F A Au V hPlaying]
  dsimp only
  obtain ⟨x1, x2, x3, x4, x5, x6, -⟩ := Received_before_video p
    (OnInputFrameReceived.Decode p Env) Env F A Au V _ rfl
  obtain ⟨e1, e2, e3, e4⟩ := ReceivedVideo_effect (OnInputFrameReceived.Decode p Env) Env V
    (OnInputFrameReceived.Audio (OnInputFrameReceived.Decode p Env) Env Au
      (OnInputFrameReceived.AncField2 (OnInputFrameReceived.Decode p Env) Env A V
        (OnInputFrameReceived.AncField1 (OnInputFrameReceived.Decode p Env) Env A
          (OnInputFrameReceived.Header p F V))))
  rw [x5] at e1
  rw [x2] at e2
  rw [x5, x2, x6, x4, FMediaIOCoreSamples.NumVideoSamples, x1] at e3
  rw [x5, x2, x6, x3, FMediaIOCoreSamples.NumVideoSamples, x1] at e4
  refine ⟨fun hSkip => ?_, fun hFail hOr => ?_, e3, e4⟩
  · rw [e1 hSkip, x1]
  · rw [e2 hFail hOr, x1]

/-- The metadata queue and counter after one frame-received call are those left by the two
ancillary blocks, field 1 then field 2, run after the head of the call. -/
theorem Received_metadata (p : FAjaMediaPlayer) (Env : FrameEnvironment)
    (F : AJAInputFrameData) (A : AJAAncillaryFrameData) (Au : AJAAudioFrameData)
    (V : AJAVideoFrameData) (hPlaying : p.AjaThreadNewState = EMediaState.Playing) :
    (OnInputFrameReceived p Env F A Au V).2.Samples.Metadata =
      (OnInputFrameReceived.AncField2 (OnInputFrameReceived.Decode p Env) Env A V
        (OnInputFrameReceived.AncField1 (OnInputFrameReceived.Decode p Env) Env A
          (OnInputFrameReceived.Header p F V))).Samples.Metadata ∧
    (OnInputFrameReceived p Env F A Au V).2.AjaThreadAutoCirculateMetadataFrameDropCount =
      (OnInputFrameReceived.AncField2 (OnInputFrameReceived.Decode p Env) Env A V
        (OnInputFrameReceived.AncField1 (OnInputFrameReceived.Decode p Env) Env A
          (OnInputFrameReceived.Header p F V))).AjaThreadAutoCirculateMetadataFrameDropCount := by
  rw [OnInputFrameReceived_playing p Env F A Au V hPlaying]
  dsimp only
  obtain ⟨v1, v2, -, -⟩ := ReceivedVideo_keeps_others (OnInputFrameReceived.Decode p Env) Env V
    (OnInputFrameReceived.Audio (OnInputFrameReceived.Decode p Env) Env Au
      (OnInputFrameReceived.AncField2 (OnInputFrameReceived.Decode p Env) Env A V
        (OnInputFrameReceived.AncField1 (OnInputFrameReceived.Decode p Env) Env A
          (OnInputFrameReceived.Header p F V))))
  obtain ⟨u1, u2⟩ := ReceivedAudio_keeps_metadata (OnInputFrameReceived.Decode p Env) Env Au
    (OnInputFrameReceived.AncField2 (OnInputFrameReceived.Decode p Env) Env A V
      (OnInputFrameReceived.AncField1 (OnInputFrameReceived.Decode p Env) Env A
        (OnInputFrameReceived.Header p F V)))
  exact ⟨v1.trans u1, v2.trans u2⟩


/-! ## C15 -/

/-- C15.  In `OnInputFrameReceived` while Playing, a kind whose delivered buffer pointer is
null, or whose capture flag is off, is neither published nor counted by the call: the audio
queue and audio counter are unchanged when audio is off or its buffer is null, the video queue
and video counter likewise, and the metadata queue and counter are unchanged when ancillary
capture is off or when neither field delivers (field 2 delivers only with a non-null buffer on
an interlaced frame).  The two ancillary fields share one queue and one counter: with a null
field-1 buffer they are exactly what the field-2 block alone leaves, and with a null field-2
buffer or a progressive frame exactly what the field-1 block alone leaves. -/
theorem C15_null_or_disabled_kind_is_neither_published_nor_counted
    (p : FAjaMediaPlayer) (Env : FrameEnvironment) (F : AJAInputFrameData)
    (A : AJAAncillaryFrameData) (Au : AJAAudioFrameData) (V : AJAVideoFrameData)
    (hPlaying : p.AjaThreadNewState = EMediaState.Playing) :
    ((p.bUseAudio = false ∨ Au.AudioBuffer = none) →
      (OnInputFrameReceived p Env F A Au V).2.Samples.Audio = p.Samples.Audio ∧
      (OnInputFrameReceived p Env F A Au V).2.AjaThreadAutoCirculateAudioFrameDropCount =
        p.AjaThreadAutoCirculateAudioFrameDropCount) ∧
    ((p.bUseVideo = false ∨ V.VideoBuffer = none) →
      (OnInputFrameReceived p Env F A Au V).2.Samples.Video = p.Samples.Video ∧
      (OnInputFrameReceived p Env F A Au V).2.AjaThreadAutoCirculateVideoFrameDropCount =
        p.AjaThreadAutoCirculateVideoFrameDropCount) ∧
    ((p.bUseAncillary = false ∨
        (A.AncBuffer = none ∧ (A.AncF2Buffer = none ∨ V.bIsProgressivePicture = true))) →
      (OnInputFrameReceived p Env F A Au V).2.Samples.Metadata = p.Samples.Metadata ∧
      (OnInputFrameReceived p Env F A Au V).2.AjaThreadAutoCirculateMetadataFrameDropCount =
        p.AjaThreadAutoCirculateMetadataFrameDropCount) ∧
    (A.AncBuffer = none →
      (OnInputFrameReceived p Env F A Au V).2.Samples.Metadata =
        (OnInputFrameReceived.AncField2 (OnInputFrameReceived.Decode p Env) Env A V
          (OnInputFrameReceived.Header p F V)).Samples.Metadata ∧
      (OnInputFrameReceived p Env F A Au V).2.AjaThreadAutoCirculateMetadataFrameDropCount =
        (OnInputFrameReceived.AncField2 (OnInputFrameReceived.Decode p Env) Env A V
          (OnInputFrameReceived.Header p F V)).AjaThreadAutoCirculateMetadataFrameDropCount) ∧
    ((A.AncF2Buffer = none ∨ V.bIsProgressivePicture = true) →
      (OnInputFrameReceived p Env F A Au V).2.Samples.Metadata =
        (OnInputFrameReceived.AncField1 (OnInputFrameReceived.Decode p Env) Env A
          (OnInputFrameReceived.Header p F V)).Samples.Metadata ∧
      (OnInputFrameReceived p Env F A Au V).2.AjaThreadAutoCirculateMetadataFrameDropCount =
        (OnInputFrameReceived.AncField1 (OnInputFrameReceived.Decode p Env) Env A
          (OnInputFrameReceived.Header p F V)).AjaThreadAutoCirculateMetadataFrameDropCount) := by
  obtain ⟨a1, -, a3⟩ := Received_audio p Env F A Au V hPlaying
  obtain ⟨v1, -, v3, -⟩ := Received_video p Env F A Au V hPlaying
  obtain ⟨m1, m2⟩ := Received_metadata p Env F A Au V hPlaying
  obtain ⟨h1, h2, h3, -, -, -, -⟩ := ReceivedHeader_keeps p F V
  have f1 := (ReceivedAncField1_effect (OnInputFrameReceived.Decode p Env) Env A
    (OnInputFrameReceived.Header p F V)).1
  have f2 := fun X => (ReceivedAncField2_effect (OnInputFrameReceived.Decode p Env) Env A V X).1
  refine ⟨fun hSkip => ⟨a1 hSkip, ?_⟩, fun hSkip => ⟨v1 hSkip, ?_⟩, fun hSkip => ?_,
    fun hNull => ?_, fun hNull => ?_⟩
  · rw [a3, if_neg, add_zero]
    rintro ⟨hUse, hBuf, -⟩
    rcases hSkip with h | h
    · rw [hUse] at h; exact absurd h (by decide)
    · exact hBuf h
  · rw [v3, if_neg, add_zero]
    rintro ⟨hUse, hBuf, -⟩
    rcases hSkip with h | h
    · rw [hUse] at h; exact absurd h (by decide)
    · exact hBuf h
  · have e1 : OnInputFrameReceived.AncField1 (OnInputFrameReceived.Decode p Env) Env A
        (OnInputFrameReceived.Header p F V) = OnInputFrameReceived.Header p F V := by
      apply f1
      rw [h3]
      rcases hSkip with h | h
      · exact Or.inl h
      · exact Or.inr h.1
    have e2 : OnInputFrameReceived.AncField2 (OnInputFrameReceived.Decode p Env) Env A V
        (OnInputFrameReceived.Header p F V) = OnInputFrameReceived.Header p F V := by
      apply f2
      rw [h3]
      rcases hSkip with h | h
      · exact Or.inl h
      · exact Or.inr h.2
    rw [e1, e2] at m1 m2
    rw [h1] at m1
    rw [h2] at m2
    exact ⟨m1, m2⟩
  · rw [f1 (Or.inr hNull)] at m1 m2
    exact ⟨m1, m2⟩
  · rw [f2 _ (Or.inr hNull)] at m1 m2
    exact ⟨m1, m2⟩

/-- C15 at a concrete player: the audio queue is at its soft cap (capacity 1, two queued) and
the frame delivers no buffer of any kind, so nothing is published and nothing is counted. -/
theorem C15_null_or_disabled_kind_is_neither_published_nor_counted_witness :
    FlagOffPlayer.AjaThreadNewState = EMediaState.Playing ∧
    FlagOffPlayer.bUseAudio = true ∧
    AtSoftCap FlagOffPlayer.Samples.NumAudioSamples FlagOffPlayer.MaxNumAudioFrameBuffer = true ∧
    (OnInputFrameReceived FlagOffPlayer AcceptingEnvironment PlainInputFrame NoAncillaryFrame
      NoAudioFrame NoVideoFrame).2.Samples.Audio = [Sample.Blank 0, Sample.Blank 1] ∧
    (OnInputFrameReceived FlagOffPlayer AcceptingEnvironment PlainInputFrame NoAncillaryFrame
      NoAudioFrame NoVideoFrame).2.AjaThreadAutoCirculateAudioFrameDropCount = 0 :=
  have h := (C15_null_or_disabled_kind_is_neither_published_nor_counted FlagOffPlayer
    AcceptingEnvironment PlainInputFrame NoAncillaryFrame NoAudioFrame NoVideoFrame
    (by decide)).1 (Or.inr rfl)
  ⟨by decide, by decide, by decide, h.1, h.2⟩

/-! ## C16 -/

/-- The metadata counter after one frame-received call, in closed form: each ancillary field
adds one exactly when it delivers data, has no pre-acquired sample and finds the metadata queue
at its soft cap. -/
theorem Received_metadata_count (p : FAjaMediaPlayer) (Env : FrameEnvironment)
    (F : AJAInputFrameData) (A : AJAAncillaryFrameData) (Au : AJAAudioFrameData)
    (V : AJAVideoFrameData) (hPlaying : p.AjaThreadNewState = EMediaState.Playing) :
    (OnInputFrameReceived p Env F A Au V).2.AjaThreadAutoCirculateMetadataFrameDropCount =
      p.AjaThreadAutoCirculateMetadataFrameDropCount +
        (if p.bUseAncillary = true ∧ A.AncBuffer ≠ none ∧
            p.AjaThreadCurrentAncSample = none ∧
            AtSoftCap p.Samples.NumMetadataSamples p.MaxNumMetadataFrameBuffer = true
         then 1 else 0) +
        (if p.bUseAncillary = true ∧ A.AncF2Buffer ≠ none ∧
            V.bIsProgressivePicture = false ∧ p.AjaThreadCurrentAncF2Sample = none ∧
            AtSoftCap
              (OnInputFrameReceived.AncField1 (OnInputFrameReceived.Decode p Env) Env A
                (OnInputFrameReceived.Header p F V)).Samples.NumMetadataSamples
              p.MaxNumMetadataFrameBuffer = true
         then 1 else 0) := by
  obtain ⟨-, m2⟩ := Received_metadata p Env F A Au V hPlaying
  obtain ⟨h1, h2, h3, h4, h5, h6, -⟩ := ReceivedHeader_keeps p F V
  obtain ⟨k1, k2, k3⟩ := ReceivedAncField1_keeps (OnInputFrameReceived.Decode p Env) Env A
    (OnInputFrameReceived.Header p F V)
  have c1 := (ReceivedAncField1_effect (OnInputFrameReceived.Decode p Env) Env A
    (OnInputFrameReceived.Header p F V)).2.2
  have c2 := (ReceivedAncField2_effect (OnInputFrameReceived.Decode p Env) Env A V
    (OnInputFrameReceived.AncField1 (OnInputFrameReceived.Decode p Env) Env A
      (OnInputFrameReceived.Header p F V))).2.2
  rw [h1, h2, h3, h4, h6] at c1
  rw [k1, k2, k3, h3, h5, h6, c1] at c2
  exact m2.trans c2

/-- C16.  In `OnInputFrameReceived` while Playing the callback returns true whatever the
finalizers answer, and a sample whose finalization fails is not queued: the audio queue is
unchanged when audio finalization fails, the field-1 block leaves the metadata queue as it was
when field-1 finalization fails, the field-2 block likewise, the video queue is unchanged when
the progressive picture, the pre-acquired sample or both interlaced fields fail.  No counter is
incremented because of a failure: every counter is its old value plus one for each delivered
kind that has no pre-acquired sample and finds its queue at the soft cap, a condition that
does not mention the finalizers (for ancillary field 2 the depth is the one left by the
field-1 block).  For an interlaced frame on the fallback path with room, the two fields are
decided independently: the queue gains the even field if and only if it finalizes, then the
odd field if and only if it finalizes. -/
theorem C16_failed_finalization_publishes_and_counts_nothing
    (p : FAjaMediaPlayer) (Env : FrameEnvironment) (F : AJAInputFrameData)
    (A : AJAAncillaryFrameData) (Au : AJAAudioFrameData) (V : AJAVideoFrameData)
    (hPlaying : p.AjaThreadNewState = EMediaState.Playing) :
    (OnInputFrameReceived p Env F A Au V).1 = true ∧
    (Env.bAudioFinalized = false →
      (OnInputFrameReceived p Env F A Au V).2.Samples.Audio = p.Samples.Audio) ∧
    (Env.bAncFinalized = false →
      (OnInputFrameReceived.AncField1 (OnInputFrameReceived.Decode p Env) Env A
        (OnInputFrameReceived.Header p F V)).Samples.Metadata = p.Samples.Metadata) ∧
    (Env.bAncF2Finalized = false →
      (OnInputFrameReceived p Env F A Au V).2.Samples.Metadata =
        (OnInputFrameReceived.AncField1 (OnInputFrameReceived.Decode p Env) Env A
          (OnInputFrameReceived.Header p F V)).Samples.Metadata) ∧
    (Env.bAncFinalized = false → Env.bAncF2Finalized = false →
      (OnInputFrameReceived p Env F A Au V).2.Samples.Metadata = p.Samples.Metadata) ∧
    (Env.bVideoFinalized = false →
      (V.bIsProgressivePicture = true ∨ p.AjaThreadCurrentTextureSample ≠ none ∨
        Env.bVideoOddFinalized = false) →
      (OnInputFrameReceived p Env F A Au V).2.Samples.Video = p.Samples.Video) ∧
    (OnInputFrameReceived p Env F A Au V).2.AjaThreadAutoCirculateAudioFrameDropCount =
      p.AjaThreadAutoCirculateAudioFrameDropCount +
        (if p.bUseAudio = true ∧ Au.AudioBuffer ≠ none ∧
            p.AjaThreadCurrentAudioSample = none ∧
            AtSoftCap p.Samples.NumAudioSamples p.MaxNumAudioFrameBuffer = true
         then 1 else 0) ∧
    (OnInputFrameReceived p Env F A Au V).2.AjaThreadAutoCirculateVideoFrameDropCount =
      p.AjaThreadAutoCirculateVideoFrameDropCount +
        (if p.bUseVideo = true ∧ V.VideoBuffer ≠ none ∧
            p.AjaThreadCurrentTextureSample = none ∧
            AtSoftCap (p.Samples.NumVideoSamples +
              (if ¬ V.bIsProgressivePicture = true then 1 else 0))
              p.MaxNumVideoFrameBuffer = true
         then 1 else 0) ∧
    (OnInputFrameReceived p Env F A Au V).2.AjaThreadAutoCirculateMetadataFrameDropCount =
      p.AjaThreadAutoCirculateMetadataFrameDropCount +
        (if p.bUseAncillary = true ∧ A.AncBuffer ≠ none ∧
            p.AjaThreadCurrentAncSample = none ∧
            AtSoftCap p.Samples.NumMetadataSamples p.MaxNumMetadataFrameBuffer = true
         then 1 else 0) +
        (if p.bUseAncillary = true ∧ A.AncF2Buffer ≠ none ∧
            V.bIsProgressivePicture = false ∧ p.AjaThreadCurrentAncF2Sample = none ∧
            AtSoftCap
              (OnInputFrameReceived.AncField1 (OnInputFrameReceived.Decode p Env) Env A
                (OnInputFrameReceived.Header p F V)).Samples.NumMetadataSamples
              p.MaxNumMetadataFrameBuffer = true
         then 1 else 0) ∧
    (p.bUseVideo = true → V.VideoBuffer ≠ none →
      p.AjaThreadCurrentTextureSample = none → V.bIsProgressivePicture = false →
      AtSoftCap (p.Samples.NumVideoSamples + 1) p.MaxNumVideoFrameBuffer = false →
      (OnInputFrameReceived p Env F A Au V).2.Samples.Video = p.Samples.Video ++
        ((if Env.bVideoFinalized = true then
            [{ Handle := p.TextureSamplePool.Created
               Time := (OnInputFrameReceived.Decode p Env).DecodedTime
               Timecode := (OnInputFrameReceived.Decode p Env).DecodedTimecode
               Layout := ESampleLayout.EvenField, Channels := 0, SampleRate := 0 }]
          else []) ++
         (if Env.bVideoOddFinalized = true then
            [{ Handle := p.TextureSamplePool.Created + 1
               Time := (OnInputFrameReceived.Decode p Env).DecodedTimeF2
               Timecode := (OnInputFrameReceived.Decode p Env).DecodedTimecodeF2
               Layout := ESampleLayout.OddField, Channels := 0, SampleRate := 0 }]
          else []))) := by
  obtain ⟨-, a2, a3⟩ := Received_audio p Env F A Au V hPlaying
  obtain ⟨-, v2, v3, v4⟩ := Received_video p Env F A Au V hPlaying
  obtain ⟨m1, -⟩ := Received_metadata p Env F A Au V hPlaying
  obtain ⟨h1, -, -, -, -, -, -⟩ := ReceivedHeader_keeps p F V
  have g1 := (ReceivedAncField1_effect (OnInputFrameReceived.Decode p Env) Env A
    (OnInputFrameReceived.Header p F V)).2.1
  have g2 := (ReceivedAncField2_effect (OnInputFrameReceived.Decode p Env) Env A V
    (OnInputFrameReceived.AncField1 (OnInputFrameReceived.Decode p Env) Env A
      (OnInputFrameReceived.Header p F V))).2.1
  have r1 : Env.bAncFinalized = false →
      (OnInputFrameReceived.AncField1 (OnInputFrameReceived.Decode p Env) Env A
        (OnInputFrameReceived.Header p F V)).Samples.Metadata = p.Samples.Metadata :=
    fun hFail => by rw [g1 hFail, h1]
  have r2 : Env.bAncF2Finalized = false →
      (OnInputFrameReceived p Env F A Au V).2.Samples.Metadata =
        (OnInputFrameReceived.AncField1 (OnInputFrameReceived.Decode p Env) Env A
          (OnInputFrameReceived.Header p F V)).Samples.Metadata :=
    fun hFail => m1.trans (by rw [g2 hFail])
  refine ⟨?_, a2, r1, r2, fun hF1 hF2 => (r2 hF2).trans (r1 hF1), v2, a3, v3,
    Received_metadata_count p Env F A Au V hPlaying, v4⟩
  rw [OnInputFrameReceived_playing p Env F A Au V hPlaying]

/-- C16 at a concrete frame: an interlaced frame on the fallback path whose even field fails
to finalize while the odd field finalizes.  The call returns true, the queue gains the odd
field alone, and the video counter stays 0. -/
theorem C16_failed_finalization_publishes_and_counts_nothing_witness :
    InterlacedScenarioStart.AjaThreadNewState = EMediaState.Playing ∧
    EvenFieldRefusedEnvironment.bVideoFinalized = false ∧
    EvenFieldRefusedEnvironment.bVideoOddFinalized = true ∧
    (OnInputFrameReceived InterlacedScenarioStart EvenFieldRefusedEnvironment PlainInputFrame
      NoAncillaryFrame NoAudioFrame InterlacedVideoFrame).1 = true ∧
    (OnInputFrameReceived InterlacedScenarioStart EvenFieldRefusedEnvironment PlainInputFrame
      NoAncillaryFrame NoAudioFrame InterlacedVideoFrame).2.Samples.Video =
      [{ Handle := 1, Time := 401000
         Timecode := some { Hours := 1, Minutes := 2, Seconds := 3, Frames := 5 }
         Layout := ESampleLayout.OddField, Channels := 0, SampleRate := 0 }] ∧
    (OnInputFrameReceived InterlacedScenarioStart EvenFieldRefusedEnvironment PlainInputFrame
      NoAncillaryFrame NoAudioFrame
      InterlacedVideoFrame).2.AjaThreadAutoCirculateVideoFrameDropCount = 0 :=
  have h := C16_failed_finalization_publishes_and_counts_nothing InterlacedScenarioStart
    EvenFieldRefusedEnvironment PlainInputFrame NoAncillaryFrame NoAudioFrame
    InterlacedVideoFrame (by decide)
  ⟨by decide, by decide, by decide, h.1,
   (h.2.2.2.2.2.2.2.2.2 (by decide) (by decide) (by decide) (by decide) (by decide)).trans
     (by decide),
   h.2.2.2.2.2.2.2.1.trans (by decide)⟩

end AjaMedia
